import Mathlib

/-!
Verification of the Chase statement extractor
(`src/monarch_tools/extractors/chase.py`).

The Python source is shallowly embedded: strings become `List Char`,
`decimal.Decimal` values become `ℚ`, fallible code returns `Option` /
`Except`.  Regular expressions from the source are embedded as the
deterministic matching procedures they denote on their anchored,
backtracking-free parts, and as explicit decompositions (`AmtParts`)
where a claim quantifies over the regex language.

Python's `\s` and `str.strip` whitespace is modelled by the six ASCII
whitespace characters, and `\w` by ASCII alphanumerics plus underscore;
the statements quantify over documents built from those characters.
-/

/-- Whitespace class: model of Python's `\s` / `str.strip` default set
(ASCII part). -/
def pyIsWs (c : Char) : Bool :=
  c = ' ' || c = '\t' || c = '\n' || c = '\r' || c = '\x0b' || c = '\x0c'

/-- Word-character class: model of Python's `\w` (ASCII part), used for
the `\b` boundaries in the heading and label patterns. -/
def wordChar (c : Char) : Bool :=
  c.isAlphanum || c = '_'

/-- Model of Python `str.strip()`: drop leading and trailing whitespace. -/
def pyStrip (l : List Char) : List Char :=
  ((l.dropWhile pyIsWs).reverse.dropWhile pyIsWs).reverse

/-- Map U+2212 (minus sign) to an ASCII hyphen, as `_norm` and the two
amount conversions do via `str.replace`. -/
def mapMinus (c : Char) : Char :=
  if c = '−' then '-' else c

/-- Worker for `collapseWs`; each step shortens the list, so the fuel
(initialized to the list's length) never runs out and only keeps the
recursion structural. -/
def collapseWsF : Nat → List Char → List Char
  | _, [] => []
  | _, [c] => [c]
  | 0, l => l
  | fuel + 1, c :: d :: rest =>
    if pyIsWs c && pyIsWs d then collapseWsF fuel (' ' :: rest)
    else c :: collapseWsF fuel (d :: rest)

/-- `SPACE_RE.sub(" ", s)`: every maximal run of two or more whitespace
characters becomes a single space; an isolated whitespace character is
kept as it is. -/
def collapseWs (l : List Char) : List Char := collapseWsF l.length l

/-- `_norm`: unicode-minus to hyphen (the en/em-dash replacements in the
source replace those characters with themselves and are no-ops), collapse
whitespace runs, strip the ends. -/
def norm (l : List Char) : List Char :=
  pyStrip (collapseWs (l.map mapMinus))

/-- Numeric value of a decimal digit character. -/
def digitVal (c : Char) : Nat := c.toNat - '0'.toNat

/-- Value of a digit string, most significant first (`int` on digits). -/
def natOfDigits (l : List Char) : Nat :=
  l.foldl (fun a c => a * 10 + digitVal c) 0

/-- Model of Python `int(s)` for the strings this program feeds it:
optional surrounding whitespace, an optional sign, then decimal digits. -/
def pyInt (l : List Char) : Option Int :=
  let s := pyStrip l
  let (sg, r) : Int × List Char :=
    if s.head? == some '+' then (1, s.tail)
    else if s.head? == some '-' then (-1, s.tail)
    else (1, s)
  if !r.isEmpty && r.all Char.isDigit then some (sg * natOfDigits r) else none

/-- Model of Python `Decimal(s)` for the character alphabet reaching it
here (digits, `.`, and stray `(`, `)`, `$`, whitespace on failure paths):
surrounding whitespace is removed, then an optional sign and
`digits [. digits]` with at least one digit; anything else is the
`InvalidOperation` branch. -/
def pyDecimal (l : List Char) : Option ℚ :=
  let s := pyStrip l
  let (sg, r) : ℚ × List Char :=
    if s.head? == some '+' then (1, s.tail)
    else if s.head? == some '-' then (-1, s.tail)
    else (1, s)
  let ip := r.takeWhile Char.isDigit
  let rest := r.dropWhile Char.isDigit
  if rest.isEmpty then
    (if !ip.isEmpty then some (sg * natOfDigits ip) else none)
  else if rest.head? == some '.' then
    let fr := rest.tail
    if fr.all Char.isDigit && (!ip.isEmpty || !fr.isEmpty) then
      some (sg * ((natOfDigits ip : ℚ) + (natOfDigits fr : ℚ) / (10 : ℚ) ^ fr.length))
    else none
  else none

/-- The string `_amount_to_decimal` works on after its preprocessing:
strip, remove every space character, unicode-minus to hyphen. -/
def cleanAmt (raw : List Char) : List Char :=
  ((pyStrip raw).filter (fun c => c != ' ')).map mapMinus

/-- Sign/paren analysis and numeric parse of `_amount_to_decimal`,
applied to the preprocessed string. -/
def amountCore (s : List Char) : Option ℚ :=
  let (neg0, s0) :=
    if (s.head? == some '(') && (s.getLast? == some ')') then
      (true, (s.drop 1).dropLast)
    else (false, s)
  let (neg1, s1) :=
    if s0.head? == some '+' then (neg0, s0.tail)
    else if s0.head? == some '-' then (true, s0.tail)
    else (true, s0)
  let s2 := if s1.head? == some '$' then s1.tail else s1
  let s3 := s2.filter (fun c => c != ',')
  let s4 := if s3.head? == some '.' then '0' :: s3 else s3
  (pyDecimal s4).map (fun v => if neg1 then -v else v)

/-- `_amount_to_decimal`: parse a raw amount token to its exact signed
decimal value; `none` is the `AmountParseError` (`ValueError`) branch. -/
def amountToDecimal (raw : List Char) : Option ℚ :=
  amountCore (cleanAmt raw)

/-- `fix_decimal` from `_format_amount_for_csv`: `".99"` becomes `"0.99"`. -/
def fixDecimal (t : List Char) : List Char :=
  if t.head? == some '.' then '0' :: t else t

/-- `_format_amount_for_csv`: display string preserving `$`, commas,
parentheses and explicit signs; a token with no explicit sign and no
parentheses receives a leading `-`. -/
def formatAmountForCsv (raw : List Char) : List Char :=
  let s := ((pyStrip raw).map mapMinus).filter (fun c => !(pyIsWs c))
  if (s.head? == some '(') && (s.getLast? == some ')') then
    let inner := fixDecimal (((s.drop 1).dropLast).filter (fun c => c != '$'))
    if s.contains '$' then '(' :: '$' :: (inner ++ [')'])
    else '(' :: (inner ++ [')'])
  else
    let (s1, explicit) :=
      if (s.head? == some '$') && (s.tail.head? == some '+') then
        ('+' :: '$' :: s.tail.tail, true)
      else if (s.head? == some '$') && (s.tail.head? == some '-') then
        ('-' :: '$' :: s.tail.tail, true)
      else (s, s.head? == some '+' || s.head? == some '-')
    let s2 :=
      if s1.head? == some '+' then
        (if s1.tail.head? == some '$' then '+' :: '$' :: fixDecimal s1.tail.tail
         else '+' :: fixDecimal s1.tail)
      else if s1.head? == some '-' then
        (if s1.tail.head? == some '$' then '-' :: '$' :: fixDecimal s1.tail.tail
         else '-' :: fixDecimal s1.tail)
      else if s1.head? == some '$' then '$' :: fixDecimal s1.tail
      else fixDecimal s1
    if !explicit && !(s2.head? == some '(') then '-' :: s2 else s2

/-! ## The amount sub-pattern of `TXN_LINE_RE`

`(?P<amt>[+\-−]?\s*\$?\s*\(?\s*(?:\d[\d,]*|\d)?(?:\.\d{2})\s*\)?)`

A string of this language decomposes into the eleven parts below; the
claims about "every amount token" quantify over this decomposition. -/

/-- The character class `[+\-−]` of the amount pattern's sign. -/
def isSignChar (c : Char) : Bool := c = '+' || c = '-' || c = '−'

/-- The character class `[\d,]` of the amount pattern's integer part. -/
def isIntChar (c : Char) : Bool := c.isDigit || c = ','

/-- Decomposition of a string matched by the amount sub-pattern. -/
structure AmtParts where
  sgn : List Char
  w1 : List Char
  dol : List Char
  w2 : List Char
  po : List Char
  w3 : List Char
  ip : List Char
  d1 : Char
  d2 : Char
  w4 : List Char
  pc : List Char

/-- Reassemble the token from its grammar parts, in pattern order. -/
def AmtParts.render (p : AmtParts) : List Char :=
  p.sgn ++ p.w1 ++ p.dol ++ p.w2 ++ p.po ++ p.w3 ++ p.ip ++
    '.' :: p.d1 :: p.d2 :: (p.w4 ++ p.pc)

/-- Well-formedness: each part lies in its sub-pattern's language. -/
def AmtParts.WF (p : AmtParts) : Prop :=
  (p.sgn = [] ∨ p.sgn = ['+'] ∨ p.sgn = ['-'] ∨ p.sgn = ['−']) ∧
  (p.dol = [] ∨ p.dol = ['$']) ∧
  (p.po = [] ∨ p.po = ['(']) ∧
  (p.pc = [] ∨ p.pc = [')']) ∧
  ((p.w1 ++ p.w2 ++ p.w3 ++ p.w4).all pyIsWs = true) ∧
  (p.ip = [] ∨ ∃ c cs, p.ip = c :: cs ∧ c.isDigit = true ∧ cs.all isIntChar = true) ∧
  p.d1.isDigit = true ∧ p.d2.isDigit = true

/-- The token's whitespace gaps contain space characters only. -/
def AmtParts.spacesOnly (p : AmtParts) : Prop :=
  (p.w1 ++ p.w2 ++ p.w3 ++ p.w4).all (fun c => c == ' ') = true

/-- Membership in the amount sub-pattern's language. -/
def AmtToken (t : List Char) : Prop := ∃ p : AmtParts, p.WF ∧ t = p.render

/-- Unsigned magnitude denoted by the token's digits. -/
def AmtParts.coreVal (p : AmtParts) : ℚ :=
  (natOfDigits (p.ip.filter (fun c => c != ',')) : ℚ) +
    (natOfDigits [p.d1, p.d2] : ℚ) / 100

/-- The sign a display string implies: it begins with `-` or is wrapped in
parentheses. -/
def negDisplay (l : List Char) : Prop :=
  l.head? = some '-' ∨ (l.head? = some '(' ∧ l.getLast? = some ')')

/-! ## Dates -/

/-- Error taxonomy of the extraction (§7 of the specification). -/
inductive ExtErr where
  | sectionNotFound
  | dateRangeNotFound
  | dateParse
  | amountParse
deriving DecidableEq, Repr

/-- A validated calendar date, the result of Python's `date(y, m, d)`. -/
structure DateV where
  year : Int
  month : Int
  day : Int
deriving DecidableEq, Repr

/-- Gregorian leap-year rule used by Python's `datetime.date`. -/
def isLeap (y : Int) : Bool := y % 4 == 0 && (y % 100 != 0 || y % 400 == 0)

/-- Days in a month, as validated by Python's `datetime.date`. -/
def daysInMonth (y m : Int) : Int :=
  if m = 2 then (if isLeap y then 29 else 28)
  else if m = 4 ∨ m = 6 ∨ m = 9 ∨ m = 11 then 30
  else 31

/-- Model of `datetime.date(y, m, d)`: `none` is the `ValueError` branch. -/
def pyDate (y m d : Int) : Option DateV :=
  if 1 ≤ y ∧ y ≤ 9999 ∧ 1 ≤ m ∧ m ≤ 12 ∧ 1 ≤ d ∧ d ≤ daysInMonth y m then
    some ⟨y, m, d⟩
  else none

/-- Model of Python `s.split("/")`: split at every slash, keeping empty
pieces. -/
def pySplitSlashGo (cur : List Char) : List Char → List (List Char)
  | [] => [cur.reverse]
  | c :: cs => if c = '/' then cur.reverse :: pySplitSlashGo [] cs else pySplitSlashGo (c :: cur) cs

/-- See `pySplitSlashGo`. -/
def pySplitSlash (l : List Char) : List (List Char) := pySplitSlashGo [] l

/-- `_parse_mmddyyyy`: split on `/` into exactly three parts, read each as
an integer, window a two-digit year (`≤ 69` to 2000+YY, else 1900+YY), and
validate as a date; `none` is the `ValueError` (`DateParseError`) branch. -/
def parseMMDDYYYY (s : List Char) : Option DateV :=
  match pySplitSlash (pyStrip s) with
  | [a, b, c] =>
    match pyInt a, pyInt b, pyInt c with
    | some m, some d, some y =>
      let y2 := if y < 100 then (if y ≤ 69 then y + 2000 else y + 1900) else y
      pyDate y2 m d
    | _, _, _ => none
  | _ => none

/-! ## Scanners for the compiled patterns

Each `re` search is embedded as a deterministic procedure: the patterns'
adjacent pieces have disjoint first-character sets (whitespace runs are
followed by non-whitespace, digit runs by non-digits), so at every choice
point at most one alternative of the backtracking search can succeed, and
maximal-munch scanning is exact.  Searching tries every start position
left to right, as `re.search` does. -/

/-- Match a literal pattern case-insensitively (the pattern is stored
uppercased), returning the rest of the input. -/
def dropCI : List Char → List Char → Option (List Char)
  | [], s => some s
  | _ :: _, [] => none
  | p :: ps, c :: cs => if c.toUpper == p then dropCI ps cs else none

/-- `\b` on the right of a word: the next character, if any, is not a word
character. -/
def noWordHead (s : List Char) : Bool :=
  match s with
  | [] => true
  | c :: _ => !wordChar c

/-- Does `\bACCOUNT\s+<w2>\b` (case-insensitive) match starting exactly
here?  The boundary on the left is the scanner's duty. -/
def matchWordPairFrom (w2 : List Char) (s : List Char) : Bool :=
  match dropCI "ACCOUNT".toList s with
  | none => false
  | some r1 =>
    match r1 with
    | [] => false
    | c :: cs =>
      if pyIsWs c then
        match dropCI w2 (cs.dropWhile pyIsWs) with
        | none => false
        | some r2 => noWordHead r2
      else false

/-- Offset of the first position with a word boundary on the left where
the two-word heading matches; `pw` says whether the previous character was
a word character. -/
def findWordPairIdx (w2 : List Char) : Bool → List Char → Option Nat
  | _, [] => none
  | pw, c :: cs =>
    if !pw && matchWordPairFrom w2 (c :: cs) then some 0
    else (findWordPairIdx w2 (wordChar c) cs).map (· + 1)

/-- Word-character status of the character preceding a match position
that splits the text as `pre ++ suf` (`pw` for empty `pre`). -/
def lastWord (pw : Bool) (pre : List Char) : Bool :=
  (pre.getLast?.map wordChar).getD pw

/-- The heading `\bACCOUNT\s+<w2>\b` occurs somewhere in `t`. -/
def HasWordPair (w2 t : List Char) : Prop :=
  ∃ pre suf, t = pre ++ suf ∧ lastWord false pre = false ∧
    matchWordPairFrom w2 suf = true

/-- `_extract_summary_block`: the 4000-character window starting at the
first `ACCOUNT SUMMARY` match; `ValueError` (`SectionNotFound`) if the
heading is absent. -/
def extractSummaryBlock (allText : List Char) : Except ExtErr (List Char) :=
  match findWordPairIdx "SUMMARY".toList false allText with
  | some i => .ok ((allText.drop i).take 4000)
  | none => .error .sectionNotFound

/-- Match the amount sub-pattern greedily at this position, returning the
captured group and the rest of the input.  The trailing `\s*` sits inside
the group, so trailing whitespace is captured (and an optional `)` after
it). -/
def matchAmtFrom (s : List Char) : Option (List Char × List Char) :=
  let (sg, r1) : List Char × List Char :=
    match s with
    | c :: r => if isSignChar c then ([c], r) else ([], s)
    | [] => ([], [])
  let w1 := r1.takeWhile pyIsWs
  let r2 := r1.dropWhile pyIsWs
  let (dl, r3) : List Char × List Char :=
    match r2 with
    | '$' :: r => (['$'], r)
    | _ => ([], r2)
  let w2 := r3.takeWhile pyIsWs
  let r4 := r3.dropWhile pyIsWs
  let (op, r5) : List Char × List Char :=
    match r4 with
    | '(' :: r => (['('], r)
    | _ => ([], r4)
  let w3 := r5.takeWhile pyIsWs
  let r6 := r5.dropWhile pyIsWs
  let ip := if (r6.head?.map Char.isDigit).getD false then r6.takeWhile isIntChar else []
  let r7 := r6.drop ip.length
  match r7 with
  | '.' :: a :: b :: r8 =>
    if a.isDigit && b.isDigit then
      let w4 := r8.takeWhile pyIsWs
      let r9 := r8.dropWhile pyIsWs
      match r9 with
      | ')' :: r10 =>
        some (sg ++ w1 ++ dl ++ w2 ++ op ++ w3 ++ ip ++ '.' :: a :: b :: (w4 ++ [')']), r10)
      | _ =>
        some (sg ++ w1 ++ dl ++ w2 ++ op ++ w3 ++ ip ++ '.' :: a :: b :: w4, r9)
    else none
  | _ => none

/-- A scan over start positions with a `\b` boundary on the left. -/
def scanB {α : Type} (f : List Char → Option α) : Bool → List Char → Option α
  | _, [] => none
  | pw, c :: cs => (if !pw then f (c :: cs) else none) <|> scanB f (wordChar c) cs

/-- A scan over all start positions (for patterns with no left boundary). -/
def scanO {α : Type} (f : List Char → Option α) : List Char → Option α
  | [] => f []
  | c :: cs => f (c :: cs) <|> scanO f cs

/-! ## The labelled-field pattern of `grab` -/

/-- The separator `\s*[: ]\s*` of the `grab` pattern followed by the
amount group, applied to the text right after the label.  A greedy `\s*`
is followed by `[: ]`, so either the run's following character is `:`
(then the run and any whitespace after the colon are consumed), or the
run itself supplies a space for `[: ]` (any of its spaces works and all
leave the same resume point). -/
def sepAmt (r : List Char) : Option (List Char) :=
  let w := r.takeWhile pyIsWs
  let rest := r.dropWhile pyIsWs
  match rest with
  | ':' :: r2 => (matchAmtFrom (r2.dropWhile pyIsWs)).map (·.1)
  | _ => if w.contains ' ' then (matchAmtFrom rest).map (·.1) else none

/-- Match `\b<label>\b\s*[: ]\s*(<amount>)` at this position (the label
is passed uppercased, the left boundary is the scanner's duty). -/
def grabMatchFrom (labelU : List Char) (s : List Char) : Option (List Char) :=
  match dropCI labelU s with
  | none => none
  | some r1 => if noWordHead r1 then sepAmt r1 else none

/-- The value normalization `grab` applies to the captured group:
`_norm`, unicode minus to hyphen, all whitespace removed, then a bare
leading `.` in the numeric portion gets a `0` prefix, after any sign and
currency symbol. -/
def fixAfterDollar (rest : List Char) : List Char :=
  match rest with
  | '$' :: r2 => '$' :: (if r2.head? == some '.' then '0' :: r2 else r2)
  | _ => if rest.head? == some '.' then '0' :: rest else rest

/-- See `fixAfterDollar`. -/
def normV (cap : List Char) : List Char :=
  let v := ((norm cap).map mapMinus).filter (fun c => !(pyIsWs c))
  match v with
  | '+' :: rest => '+' :: fixAfterDollar rest
  | '-' :: rest => '-' :: fixAfterDollar rest
  | _ => fixAfterDollar v

/-- `grab(label)`: search the summary block for the labelled amount and
return its normalized text. -/
def grab (label : List Char) (block : List Char) : Option (List Char) :=
  (scanB (grabMatchFrom (label.map Char.toUpper)) false block).map normV

/-! ## `ACCOUNT_NUMBER_RE` -/

/-- The value class `[0-9Xx*\- ]` of the account-number pattern. -/
def acctClass (c : Char) : Bool :=
  c.isDigit || c = 'X' || c = 'x' || c = '*' || c = '-' || c = ' '

/-- Match `\bAccount\s+Number\b\s*[:#]?\s*([0-9Xx*\- ]{6,})` at this
position.  The `{6,}` is greedy; when the maximal class run after the
separator is shorter than 6, the greedy `\s*` before it gives back its
trailing spaces (which are also class characters) one at a time, so the
capture gains just enough leading spaces to reach length 6 if it can. -/
def matchAcctFrom (s : List Char) : Option (List Char) :=
  match dropCI "ACCOUNT".toList s with
  | none => none
  | some r1 =>
    match r1 with
    | [] => none
    | c :: cs =>
      if pyIsWs c then
        match dropCI "NUMBER".toList (cs.dropWhile pyIsWs) with
        | none => none
        | some r2 =>
          if noWordHead r2 then
            let w1 := r2.takeWhile pyIsWs
            let r3 := r2.dropWhile pyIsWs
            let (wA, r4) : List Char × List Char :=
              match r3 with
              | c2 :: r => if c2 = ':' || c2 = '#' then (r.takeWhile pyIsWs, r.dropWhile pyIsWs) else (w1, r3)
              | [] => (w1, [])
            let cls := r4.takeWhile acctClass
            let avail := (wA.reverse.takeWhile (fun c2 => c2 == ' ')).length
            if cls.length ≥ 6 then some cls
            else if cls.length + avail ≥ 6 then
              some (List.replicate (6 - cls.length) ' ' ++ cls)
            else none
          else none
      else none

/-- `ACCOUNT_NUMBER_RE.search` over the summary block. -/
def findAccountNumber (block : List Char) : Option (List Char) :=
  scanB matchAcctFrom false block

/-! ## `DATE_RANGE_RE` -/

/-- `\d{1,2}/` greedily: two digits before the slash if possible, else
one (the alternatives exclude each other, since a digit cannot be the
slash). -/
def d12slash : List Char → Option (List Char × List Char)
  | a :: '/' :: r => if a.isDigit then some ([a], r) else none
  | a :: b :: '/' :: r => if a.isDigit && b.isDigit then some ([a, b], r) else none
  | _ => none

/-- `\d{2,4}` greedily, longest first, subject to a check on what
follows.  For the first date the check is `\s*[–-]`; a shorter year
leaves a digit where that separator must start, so at most one length can
succeed and checking only the separator prefix is exact. -/
def dYear24 (s : List Char) (followOk : List Char → Bool) : Option (List Char × List Char) :=
  match s with
  | a :: b :: c :: d :: r =>
    if a.isDigit && b.isDigit && c.isDigit && d.isDigit && followOk r then
      some ([a, b, c, d], r)
    else if a.isDigit && b.isDigit && c.isDigit && followOk (d :: r) then
      some ([a, b, c], d :: r)
    else if a.isDigit && b.isDigit && followOk (c :: d :: r) then
      some ([a, b], c :: d :: r)
    else none
  | [a, b, c] =>
    if a.isDigit && b.isDigit && c.isDigit && followOk [] then some ([a, b, c], [])
    else if a.isDigit && b.isDigit && followOk [c] then some ([a, b], [c])
    else none
  | [a, b] => if a.isDigit && b.isDigit && followOk [] then some ([a, b], []) else none
  | _ => none

/-- One `\d{1,2}/\d{1,2}/\d{2,4}` date token, returning the capture and
the rest. -/
def matchDateAt (s : List Char) (followOk : List Char → Bool) : Option (List Char × List Char) := do
  let (m, r1) ← d12slash s
  let (d, r2) ← d12slash r1
  let (y, r3) ← dYear24 r2 followOk
  some (m ++ '/' :: (d ++ '/' :: y), r3)

/-- `\s*[–-]\s*` then the second date token of `DATE_RANGE_RE`. -/
def matchSepDate2 (s : List Char) : Option (List Char) :=
  match s.dropWhile pyIsWs with
  | c :: r2 =>
    if c = '–' || c = '-' then
      (matchDateAt (r2.dropWhile pyIsWs) (fun _ => true)).map (·.1)
    else none
  | [] => none

/-- Match `DATE_RANGE_RE` at this position (no `\b`: any position may
start a match), returning the two captured date strings. -/
def matchDRFrom (s : List Char) : Option (List Char × List Char) :=
  match dropCI "OPENING/CLOSING".toList s with
  | none => none
  | some r1 =>
    match r1 with
    | [] => none
    | c :: cs =>
      if pyIsWs c then
        match dropCI "DATE".toList (cs.dropWhile pyIsWs) with
        | none => none
        | some r2 =>
          match r2.dropWhile pyIsWs with
          | ':' :: r4 =>
            match matchDateAt (r4.dropWhile pyIsWs) (fun rest =>
              match rest.dropWhile pyIsWs with
              | c2 :: _ => c2 = '–' || c2 = '-'
              | [] => false) with
            | none => none
            | some (g1, r5) =>
              match matchSepDate2 r5 with
              | none => none
              | some g2 => some (g1, g2)
          | _ => none
      else none

/-- `DATE_RANGE_RE.search` over the summary block. -/
def findDateRange (block : List Char) : Option (List Char × List Char) :=
  scanO matchDRFrom block

/-! ## `_extract_summary_fields` -/

/-- `SUMMARY_FIELDS_ORDER`: the fixed output catalogue, in order. -/
def SUMMARY_FIELDS_ORDER : List (List Char) :=
  ["Account Number", "Previous Balance", "Payment, Credits", "Purchases",
   "Cash Advances", "Balance Transfers", "Fees Charged", "Interest Charged",
   "New Balance", "Opening/Closing Date", "Credit Access Line",
   "Available Credit", "Cash Access Line", "Available for Cash",
   "Past Due Amount", "Balance over the Credit Access Line"].map String.toList

/-- The keys of `label_map`, in iteration order (keys and values of that
dict are identical strings). -/
def LABELS : List (List Char) :=
  ["Previous Balance", "Payment, Credits", "Purchases", "Cash Advances",
   "Balance Transfers", "Fees Charged", "Interest Charged", "New Balance",
   "Credit Access Line", "Available Credit", "Cash Access Line",
   "Available for Cash", "Past Due Amount",
   "Balance over the Credit Access Line"].map String.toList

/-- The labelled-field entries produced by the `for out_field, label in
label_map.items()` loop: a found "Purchases" value has every `$`
removed, every other label keeps its grabbed value. -/
def labelFields (block : List Char) : List (List Char × List Char) :=
  LABELS.filterMap fun lab =>
    (grab lab block).map fun v =>
      (lab, if lab = "Purchases".toList then v.filter (fun c => c != '$') else v)

/-- `_extract_summary_fields`: account number (if found), the mandatory
date range (its absence is the fatal `DateParseError` condition
`dateRangeNotFound`; an unparsable date is `dateParse`), and the labelled
fields; returns the field mapping and the closing date. -/
def extractSummaryFields (block : List Char) :
    Except ExtErr (List (List Char × List Char) × DateV) :=
  let f0 : List (List Char × List Char) :=
    match findAccountNumber block with
    | some v => [("Account Number".toList, norm v)]
    | none => []
  match findDateRange block with
  | none => .error .dateRangeNotFound
  | some (g1, g2) =>
    match parseMMDDYYYY g1, parseMMDDYYYY g2 with
    | some _, some closeD =>
      .ok (f0 ++ ("Opening/Closing Date".toList, g1 ++ ' ' :: '–' :: ' ' :: g2)
              :: labelFields block, closeD)
    | _, _ => .error .dateParse

/-! ## `_iter_activity_lines` and `_parse_transactions` -/

/-- Line-break characters of Python `str.splitlines` (ASCII part plus
NEL). -/
def isLineBreak (c : Char) : Bool :=
  c = '\n' || c = '\r' || c = '\x0b' || c = '\x0c' ||
  c = '\x1c' || c = '\x1d' || c = '\x1e' || c = '\x85'

/-- Worker for `splitLines`; `\r\n` counts as a single break and a final
break produces no trailing empty line. -/
def slGo (cur : List Char) : List Char → List (List Char)
  | [] => [cur.reverse]
  | '\r' :: '\n' :: rest =>
    cur.reverse :: (if rest.isEmpty then [] else slGo [] rest)
  | c :: rest =>
    if isLineBreak c then cur.reverse :: (if rest.isEmpty then [] else slGo [] rest)
    else slGo (c :: cur) rest

/-- Model of Python `str.splitlines()`. -/
def splitLines (l : List Char) : List (List Char) :=
  if l.isEmpty then [] else slGo [] l

/-- `ACCOUNT_ACTIVITY_RE.search(t)` succeeds. -/
def hasActivity (t : List Char) : Bool :=
  (findWordPairIdx "ACTIVITY".toList false t).isSome

/-- Lines one page contributes to `_iter_activity_lines`: nothing unless
the page matches the activity heading; otherwise the normalized non-empty
lines after the first heading line (index 0 when no single line matches). -/
def activityLinesOfPage (page : List Char) : List (List Char) :=
  if hasActivity page then
    let lines := splitLines page
    let i := (lines.findIdx? hasActivity).getD 0
    ((lines.drop (i + 1)).map norm).filter (fun ln => !ln.isEmpty)
  else []

/-- `_iter_activity_lines` over the per-page texts. -/
def iterActivityLines (pages : List (List Char)) : List (List Char) :=
  (pages.map activityLinesOfPage).flatten

/-- `\d{1,2}` of the month in `md`, followed by the literal `/`. -/
def d12slashN : List Char → Option (Nat × List Char)
  | a :: '/' :: r => if a.isDigit then some (digitVal a, r) else none
  | a :: b :: '/' :: r =>
    if a.isDigit && b.isDigit then some (10 * digitVal a + digitVal b, r) else none
  | _ => none

/-- `\d{1,2}` of the day in `md`, which must be followed by `\s+`; the
returned rest still starts at that whitespace. -/
def d12ws : List Char → Option (Nat × List Char)
  | a :: rest =>
    if !a.isDigit then none
    else
      match rest with
      | b :: r2 =>
        if b.isDigit then
          (match r2 with
           | c :: _ => if pyIsWs c then some (10 * digitVal a + digitVal b, r2) else none
           | [] => none)
        else if pyIsWs b then some (digitVal a, rest) else none
      | [] => none
  | [] => none

/-- `\s+(?P<amt>…)\s*$` at the position right after a candidate
description: at least one whitespace character, the amount group, then
only whitespace to the end of the line. -/
def txnTailMatch (s : List Char) : Option (List Char) :=
  match s with
  | c :: _ =>
    if pyIsWs c then
      match matchAmtFrom (s.dropWhile pyIsWs) with
      | some (cap, rest) => if rest.all pyIsWs then some cap else none
      | none => none
    else none
  | [] => none

/-- The lazy `(?P<desc>.+?)`: grow the description one character at a
time (never across `\n`, which `.` cannot match) and take the first
split whose tail matches `\s+(?P<amt>…)\s*$`. -/
def findDescSplit (acc : List Char) : List Char → Option (List Char × List Char)
  | [] => none
  | c :: rest =>
    if c = '\n' then none
    else
      match txnTailMatch rest with
      | some cap => some ((c :: acc).reverse, cap)
      | none => findDescSplit (c :: acc) rest

/-- Backtracking of the greedy `\s+` after `md`: the description may
start inside the whitespace run; longer separators are preferred, so
`k + 1` counts down from the run's length. -/
def sep1Loop (run : List Char) (rest : List Char) : Nat → Option (List Char × List Char)
  | 0 => none
  | k + 1 => findDescSplit [] (run.drop (k + 1) ++ rest) <|> sep1Loop run rest k

/-- `TXN_LINE_RE.match`: month, day, description and amount captures of a
candidate line, or `none` when the line does not have the transaction
shape. -/
def parseTxnLine (ln : List Char) : Option (Nat × Nat × List Char × List Char) := do
  let s := ln.dropWhile pyIsWs
  let (mm, r1) ← d12slashN s
  let (dd, r2) ← d12ws r1
  let run := r2.takeWhile pyIsWs
  let rest := r2.dropWhile pyIsWs
  let (desc, amt) ← sep1Loop run rest run.length
  some (mm, dd, desc, amt)

/-- One parsed transaction row. -/
structure Txn where
  dateIso : List Char
  descr : List Char
  amountStr : List Char
  amountDec : ℚ
deriving DecidableEq, Repr

/-- Decimal digits of a number, most significant first. -/
def natDigitsL (n : Nat) : List Char := Nat.toDigits 10 n

/-- `f"{n:0wd}"` for the nonnegative numbers formatted here. -/
def padNum (w n : Nat) : List Char :=
  List.replicate (w - (natDigitsL n).length) '0' ++ natDigitsL n

/-- `f"{year:04d}-{mm:02d}-{dd:02d}"` (the year here is nonnegative: it
is a validated date's year, possibly minus one). -/
def dateIsoStr (y : Int) (mm dd : Nat) : List Char :=
  padNum 4 y.toNat ++ '-' :: (padNum 2 mm ++ '-' :: padNum 2 dd)

/-- The body of `_parse_transactions`' loop for one candidate line:
skipped silently when the pattern does not match; otherwise the year is
inferred from the closing context, the description is cleaned, and the
amount token is converted twice.  `amountParse` is the fatal
`AmountParseError`. -/
def processTxnLine (cy cm : Int) (ln : List Char) : Except ExtErr (Option Txn) :=
  match parseTxnLine ln with
  | none => .ok none
  | some (mm, dd, desc, amt) =>
    let amtRaw := pyStrip amt
    let descC := pyStrip ((pyStrip desc).dropWhile (fun c => c == '&'))
    let year := if (mm : Int) > cm then cy - 1 else cy
    match amountToDecimal amtRaw with
    | none => .error .amountParse
    | some v => .ok (some ⟨dateIsoStr year mm dd, descC, formatAmountForCsv amtRaw, v⟩)

/-- `_parse_transactions` over the candidate lines, in order. -/
def parseTransactions (cy cm : Int) : List (List Char) → Except ExtErr (List Txn)
  | [] => .ok []
  | ln :: rest =>
    match processTxnLine cy cm ln with
    | .error e => .error e
    | .ok none => parseTransactions cy cm rest
    | .ok (some t) => (parseTransactions cy cm rest).map (fun ts => t :: ts)

/-! ## The output assembler -/

/-- Footer figures: credit count, debit count, total credits, total
debits, computed exactly as in `extract_chase_statement_csvs` (filters by
sign, `sum` starting from `Decimal("0")`). -/
def footerOf (txns : List Txn) : Nat × Nat × ℚ × ℚ :=
  let pos := txns.filter (fun t => decide (0 < t.amountDec))
  let neg := txns.filter (fun t => decide (t.amountDec < 0))
  (pos.length, neg.length,
   (pos.map Txn.amountDec).foldl (· + ·) 0,
   (neg.map Txn.amountDec).foldl (· + ·) 0)

/-- `summary_fields.setdefault("Account Number", "")`. -/
def setdefaultAcct (fields : List (List Char × List Char)) : List (List Char × List Char) :=
  if (fields.lookup ("Account Number".toList)).isSome then fields
  else fields ++ [("Account Number".toList, [])]

/-- The rows of the summary table: one per catalogued field in catalogue
order, value looked up in the extracted mapping, empty when absent. -/
def summaryRows (fields : List (List Char × List Char)) : List (List Char × List Char) :=
  SUMMARY_FIELDS_ORDER.map fun f => (f, (fields.lookup f).getD [])

/-- The two output records (summary rows; transaction rows with their
footer) that the pipeline hands to the CSV-writing collaborator. -/
structure ExtOutput where
  summary : List (List Char × List Char)
  txns : List Txn
  footer : Nat × Nat × ℚ × ℚ
deriving DecidableEq, Repr

/-- `extract_chase_statement_csvs` from page texts to output records:
per-page normalization, the joined text normalized again, summary block,
summary fields, activity lines, transactions, footer.  Every fatal
condition aborts the whole extraction with its `ExtErr`. -/
def extractPipeline (pages : List (List Char)) : Except ExtErr ExtOutput :=
  let pagesN := pages.map norm
  let allText := norm (List.intercalate ['\n'] pagesN)
  match extractSummaryBlock allText with
  | .error e => .error e
  | .ok block =>
    match extractSummaryFields block with
    | .error e => .error e
    | .ok (fields0, closeD) =>
      let fields := setdefaultAcct fields0
      let rows := summaryRows fields
      let lines := iterActivityLines pagesN
      match parseTransactions closeD.year closeD.month lines with
      | .error e => .error e
      | .ok txns => .ok ⟨rows, txns, footerOf txns⟩

/-! ## Helper lemmas -/

lemma dropWhile_eq_self_of (p : Char → Bool) (l : List Char)
    (h : ∀ c ∈ l, p c = false) : l.dropWhile p = l := by
  cases l with
  | nil => rfl
  | cons c cs => simp [List.dropWhile_cons, h c (by simp)]

lemma pyStrip_eq_self_of (l : List Char) (h : ∀ c ∈ l, pyIsWs c = false) :
    pyStrip l = l := by
  unfold pyStrip
  rw [dropWhile_eq_self_of _ _ h, dropWhile_eq_self_of, List.reverse_reverse]
  intro c hc
  exact h c (by simpa using hc)

lemma filter_dropWhile (p q : Char → Bool) (l : List Char)
    (h : ∀ c ∈ l, p c = true → q c = false) :
    (l.dropWhile p).filter q = l.filter q := by
  induction l with
  | nil => rfl
  | cons c cs ih =>
    by_cases hc : p c = true
    · rw [List.dropWhile_cons_of_pos hc, ih (fun x hx => h x (by simp [hx])),
        List.filter_cons_of_neg (by simp [h c (by simp) hc])]
    · rw [List.dropWhile_cons_of_neg hc]

lemma filter_pyStrip (q : Char → Bool) (l : List Char)
    (h : ∀ c ∈ l, pyIsWs c = true → q c = false) :
    (pyStrip l).filter q = l.filter q := by
  unfold pyStrip
  rw [List.filter_reverse, filter_dropWhile _ _ _ (fun c hc => h c (by
      have := List.dropWhile_sublist (l := l) (p := pyIsWs)
      exact this.mem (by simpa using hc))),
    List.filter_reverse, List.reverse_reverse, filter_dropWhile _ _ _ h]

lemma takeWhile_append_of_all (p : Char → Bool) (a b : List Char)
    (h : ∀ c ∈ a, p c = true) :
    (a ++ b).takeWhile p = a ++ b.takeWhile p := by
  induction a with
  | nil => rfl
  | cons c cs ih =>
    simp only [List.cons_append, List.takeWhile_cons_of_pos (h c (by simp)),
      ih (fun x hx => h x (by simp [hx]))]

lemma dropWhile_append_of_all (p : Char → Bool) (a b : List Char)
    (h : ∀ c ∈ a, p c = true) :
    (a ++ b).dropWhile p = b.dropWhile p := by
  induction a with
  | nil => rfl
  | cons c cs ih =>
    simp only [List.cons_append, List.dropWhile_cons_of_pos (h c (by simp)),
      ih (fun x hx => h x (by simp [hx]))]

lemma map_eq_self_of_no_minus (l : List Char) (h : ∀ c ∈ l, c ≠ '−') :
    l.map mapMinus = l := by
  induction l with
  | nil => rfl
  | cons c cs ih =>
    simp only [List.map_cons, ih (fun x hx => h x (by simp [hx])),
      mapMinus, if_neg (h c (by simp))]

lemma ws_cases (c : Char) (h : pyIsWs c = true) :
    c = ' ' ∨ c = '\t' ∨ c = '\n' ∨ c = '\r' ∨ c = '\x0b' ∨ c = '\x0c' := by
  simp only [pyIsWs, Bool.or_eq_true, decide_eq_true_eq] at h
  tauto

lemma isDigit_not_ws (c : Char) (h : c.isDigit = true) : pyIsWs c = false := by
  cases hw : pyIsWs c with
  | false => rfl
  | true =>
    rcases ws_cases c hw with rfl | rfl | rfl | rfl | rfl | rfl <;>
      exact absurd h (by decide)

lemma isDigit_ne (c x : Char) (h : c.isDigit = true) (hx : x.isDigit = false) : c ≠ x := by
  intro he
  rw [he, hx] at h
  exact absurd h (by simp)

lemma isIntChar_cases (c : Char) (h : isIntChar c = true) : c.isDigit = true ∨ c = ',' := by
  simp only [isIntChar, Bool.or_eq_true, decide_eq_true_eq] at h
  tauto

lemma isIntChar_not_ws (c : Char) (h : isIntChar c = true) : pyIsWs c = false := by
  rcases isIntChar_cases c h with hd | rfl
  · exact isDigit_not_ws c hd
  · decide

lemma isIntChar_ne_space (c : Char) (h : isIntChar c = true) : c ≠ ' ' := by
  rcases isIntChar_cases c h with hd | rfl
  · exact isDigit_ne c ' ' hd (by decide)
  · decide

lemma isIntChar_ne_minus (c : Char) (h : isIntChar c = true) : c ≠ '−' := by
  rcases isIntChar_cases c h with hd | rfl
  · exact isDigit_ne c '−' hd (by decide)
  · decide

/-- Every member of a well-formed integer part is an `[\d,]` character. -/
lemma ip_all_intChar (p : AmtParts) (hwf : p.WF) : ∀ c ∈ p.ip, isIntChar c = true := by
  rcases hwf.2.2.2.2.2.1 with h | ⟨c0, cs, he, hd, hall⟩
  · simp [h]
  · intro c hc
    rw [he] at hc
    rcases List.mem_cons.mp hc with rfl | hmem
    · simp [isIntChar, hd]
    · exact List.all_eq_true.mp hall c hmem

/-- All whitespace in a rendered well-formed token with space-only gaps
is the space character. -/
lemma render_ws_space (p : AmtParts) (hwf : p.WF) (hsp : p.spacesOnly) :
    ∀ c ∈ p.render, pyIsWs c = true → c = ' ' := by
  have hgap : ∀ c ∈ p.w1 ++ p.w2 ++ p.w3 ++ p.w4, c = ' ' := by
    intro c hc
    have := List.all_eq_true.mp hsp c hc
    simpa using this
  intro c hc hw
  unfold AmtParts.render at hc
  simp only [List.mem_append] at hc
  rcases hc with ((((((h | h) | h) | h) | h) | h) | h) | h
  · rcases hwf.1 with he | he | he | he <;> rw [he] at h <;> simp at h <;>
      exact absurd hw (by rw [h]; decide)
  · exact hgap c (by simp [h])
  · rcases hwf.2.1 with he | he <;> rw [he] at h <;> simp at h
    exact absurd hw (by rw [h]; decide)
  · exact hgap c (by simp [h])
  · rcases hwf.2.2.1 with he | he <;> rw [he] at h <;> simp at h
    exact absurd hw (by rw [h]; decide)
  · exact hgap c (by simp [h])
  · exact absurd hw (by rw [isIntChar_not_ws c (ip_all_intChar p hwf c h)]; simp)
  · rcases List.mem_cons.mp h with rfl | h
    · exact absurd hw (by decide)
    rcases List.mem_cons.mp h with rfl | h
    · exact absurd hw (by rw [isDigit_not_ws _ hwf.2.2.2.2.2.2.1]; simp)
    rcases List.mem_cons.mp h with rfl | h
    · exact absurd hw (by rw [isDigit_not_ws _ hwf.2.2.2.2.2.2.2]; simp)
    rcases List.mem_append.mp h with h | h
    · exact hgap c (by simp [h])
    · rcases hwf.2.2.2.1 with he | he <;> rw [he] at h <;> simp at h
      exact absurd hw (by rw [h]; decide)

/-- Removing spaces from a rendered token (with space-only gaps) and
mapping the unicode minus leaves the gap-free reassembly. -/
lemma filter_map_render (p : AmtParts) (hwf : p.WF) (hsp : p.spacesOnly) :
    (p.render.filter (fun c => c != ' ')).map mapMinus =
      p.sgn.map mapMinus ++ p.dol ++ p.po ++ p.ip ++ '.' :: p.d1 :: p.d2 :: p.pc := by
  have hgap : ∀ c ∈ p.w1 ++ p.w2 ++ p.w3 ++ p.w4, c = ' ' := by
    intro c hc
    simpa using List.all_eq_true.mp hsp c hc
  have hw1 : p.w1.filter (fun c => c != ' ') = [] :=
    List.filter_eq_nil_iff.mpr (fun a ha => by simp [hgap a (by simp [ha])])
  have hw2 : p.w2.filter (fun c => c != ' ') = [] :=
    List.filter_eq_nil_iff.mpr (fun a ha => by simp [hgap a (by simp [ha])])
  have hw3 : p.w3.filter (fun c => c != ' ') = [] :=
    List.filter_eq_nil_iff.mpr (fun a ha => by simp [hgap a (by simp [ha])])
  have hw4 : p.w4.filter (fun c => c != ' ') = [] :=
    List.filter_eq_nil_iff.mpr (fun a ha => by simp [hgap a (by simp [ha])])
  have hipall := ip_all_intChar p hwf
  have hsgnf : p.sgn.filter (fun c => c != ' ') = p.sgn := by
    rcases hwf.1 with he | he | he | he <;> rw [he] <;> decide
  have hdolf : p.dol.filter (fun c => c != ' ') = p.dol := by
    rcases hwf.2.1 with he | he <;> rw [he] <;> decide
  have hpof : p.po.filter (fun c => c != ' ') = p.po := by
    rcases hwf.2.2.1 with he | he <;> rw [he] <;> decide
  have hpcf : p.pc.filter (fun c => c != ' ') = p.pc := by
    rcases hwf.2.2.2.1 with he | he <;> rw [he] <;> decide
  have hipf : p.ip.filter (fun c => c != ' ') = p.ip :=
    List.filter_eq_self.mpr (fun a ha => by
      simp [isIntChar_ne_space a (hipall a ha)])
  have hd1s : (p.d1 != ' ') = true := by
    simp [isDigit_ne _ ' ' hwf.2.2.2.2.2.2.1 (by decide)]
  have hd2s : (p.d2 != ' ') = true := by
    simp [isDigit_ne _ ' ' hwf.2.2.2.2.2.2.2 (by decide)]
  have hdolm : p.dol.map mapMinus = p.dol := by
    rcases hwf.2.1 with he | he <;> rw [he] <;> decide
  have hpom : p.po.map mapMinus = p.po := by
    rcases hwf.2.2.1 with he | he <;> rw [he] <;> decide
  have hpcm : p.pc.map mapMinus = p.pc := by
    rcases hwf.2.2.2.1 with he | he <;> rw [he] <;> decide
  have hipm : p.ip.map mapMinus = p.ip :=
    map_eq_self_of_no_minus _ (fun a ha => isIntChar_ne_minus a (hipall a ha))
  have hd1m : mapMinus p.d1 = p.d1 := by
    simp [mapMinus, isDigit_ne _ '−' hwf.2.2.2.2.2.2.1 (by decide)]
  have hd2m : mapMinus p.d2 = p.d2 := by
    simp [mapMinus, isDigit_ne _ '−' hwf.2.2.2.2.2.2.2 (by decide)]
  have htail : List.filter (fun c => c != ' ') ('.' :: p.d1 :: p.d2 :: (p.w4 ++ p.pc)) =
      '.' :: p.d1 :: p.d2 :: p.pc := by
    simp only [List.filter_cons, hd1s, hd2s, List.filter_append, hw4, hpcf]
    simp [show pyIsWs '.' = false from by decide]
  unfold AmtParts.render
  rw [List.filter_append, List.filter_append, List.filter_append,
    List.filter_append, List.filter_append, List.filter_append,
    List.filter_append, hsgnf, hw1, hdolf, hw2, hpof, hw3, hipf, htail]
  simp only [List.append_nil, List.nil_append, List.map_append, List.map_cons,
    hdolm, hpom, hipm, hpcm, hd1m, hd2m, show mapMinus '.' = '.' from by decide]

/-- `_amount_to_decimal`'s preprocessed string for a rendered token with
space-only gaps. -/
lemma cleanAmt_render (p : AmtParts) (hwf : p.WF) (hsp : p.spacesOnly) :
    cleanAmt p.render =
      p.sgn.map mapMinus ++ p.dol ++ p.po ++ p.ip ++ '.' :: p.d1 :: p.d2 :: p.pc := by
  unfold cleanAmt
  rw [filter_pyStrip _ _ (fun c hc hw => by
      simp [render_ws_space p hwf hsp c hc hw]),
    filter_map_render p hwf hsp]

lemma mapMinus_of_ws (c : Char) (h : pyIsWs c = true) : mapMinus c = c := by
  unfold mapMinus
  rw [if_neg (fun he => by rw [he] at h; exact absurd h (by decide))]

/-- Removing every whitespace character from a rendered well-formed token
leaves the gap-free reassembly (no restriction on the gap characters). -/
lemma filter_ws_render (p : AmtParts) (hwf : p.WF) :
    p.render.filter (fun c => !(pyIsWs c)) =
      p.sgn ++ p.dol ++ p.po ++ p.ip ++ '.' :: p.d1 :: p.d2 :: p.pc := by
  have hgap : ∀ c ∈ p.w1 ++ p.w2 ++ p.w3 ++ p.w4, pyIsWs c = true :=
    fun c hc => List.all_eq_true.mp hwf.2.2.2.2.1 c hc
  have hw1 : p.w1.filter (fun c => !(pyIsWs c)) = [] :=
    List.filter_eq_nil_iff.mpr (fun a ha => by simp [hgap a (by simp [ha])])
  have hw2 : p.w2.filter (fun c => !(pyIsWs c)) = [] :=
    List.filter_eq_nil_iff.mpr (fun a ha => by simp [hgap a (by simp [ha])])
  have hw3 : p.w3.filter (fun c => !(pyIsWs c)) = [] :=
    List.filter_eq_nil_iff.mpr (fun a ha => by simp [hgap a (by simp [ha])])
  have hw4 : p.w4.filter (fun c => !(pyIsWs c)) = [] :=
    List.filter_eq_nil_iff.mpr (fun a ha => by simp [hgap a (by simp [ha])])
  have hipall := ip_all_intChar p hwf
  have hsgnf : p.sgn.filter (fun c => !(pyIsWs c)) = p.sgn := by
    rcases hwf.1 with he | he | he | he <;> rw [he] <;> decide
  have hdolf : p.dol.filter (fun c => !(pyIsWs c)) = p.dol := by
    rcases hwf.2.1 with he | he <;> rw [he] <;> decide
  have hpof : p.po.filter (fun c => !(pyIsWs c)) = p.po := by
    rcases hwf.2.2.1 with he | he <;> rw [he] <;> decide
  have hpcf : p.pc.filter (fun c => !(pyIsWs c)) = p.pc := by
    rcases hwf.2.2.2.1 with he | he <;> rw [he] <;> decide
  have hipf : p.ip.filter (fun c => !(pyIsWs c)) = p.ip :=
    List.filter_eq_self.mpr (fun a ha => by
      simp [isIntChar_not_ws a (hipall a ha)])
  have hd1s : (!(pyIsWs p.d1)) = true := by
    simp [isDigit_not_ws _ hwf.2.2.2.2.2.2.1]
  have hd2s : (!(pyIsWs p.d2)) = true := by
    simp [isDigit_not_ws _ hwf.2.2.2.2.2.2.2]
  have htail : List.filter (fun c => !(pyIsWs c)) ('.' :: p.d1 :: p.d2 :: (p.w4 ++ p.pc)) =
      '.' :: p.d1 :: p.d2 :: p.pc := by
    simp only [List.filter_cons, hd1s, hd2s, List.filter_append, hw4, hpcf]
    simp [show pyIsWs '.' = false from by decide]
  unfold AmtParts.render
  rw [List.filter_append, List.filter_append, List.filter_append,
    List.filter_append, List.filter_append, List.filter_append,
    List.filter_append, hsgnf, hw1, hdolf, hw2, hpof, hw3, hipf, htail]
  simp

/-- `_format_amount_for_csv`'s preprocessed string: every whitespace
character is removed, so the result is gap-free for any well-formed
token. -/
lemma cleanFmt_render (p : AmtParts) (hwf : p.WF) :
    ((pyStrip p.render).map mapMinus).filter (fun c => !(pyIsWs c)) =
      p.sgn.map mapMinus ++ p.dol ++ p.po ++ p.ip ++ '.' :: p.d1 :: p.d2 :: p.pc := by
  rw [List.map_filter]
  have h1 : (pyStrip p.render).filter ((fun c => !(pyIsWs c)) ∘ mapMinus) =
      (pyStrip p.render).filter (fun c => !(pyIsWs c)) := by
    refine List.filter_congr (fun a _ => ?_)
    by_cases ha : a = '−'
    · subst ha; decide
    · simp [Function.comp, mapMinus, ha]
  have h2 : (pyStrip p.render).filter (fun c => !(pyIsWs c)) =
      p.render.filter (fun c => !(pyIsWs c)) :=
    filter_pyStrip _ _ (fun c _ hw => by simp [hw])
  have hipall := ip_all_intChar p hwf
  have hdolm : p.dol.map mapMinus = p.dol := by
    rcases hwf.2.1 with he | he <;> rw [he] <;> decide
  have hpom : p.po.map mapMinus = p.po := by
    rcases hwf.2.2.1 with he | he <;> rw [he] <;> decide
  have hpcm : p.pc.map mapMinus = p.pc := by
    rcases hwf.2.2.2.1 with he | he <;> rw [he] <;> decide
  have hipm : p.ip.map mapMinus = p.ip :=
    map_eq_self_of_no_minus _ (fun a ha => isIntChar_ne_minus a (hipall a ha))
  have hd1m : mapMinus p.d1 = p.d1 := by
    simp [mapMinus, isDigit_ne _ '−' hwf.2.2.2.2.2.2.1 (by decide)]
  have hd2m : mapMinus p.d2 = p.d2 := by
    simp [mapMinus, isDigit_ne _ '−' hwf.2.2.2.2.2.2.2 (by decide)]
  rw [h1, h2, filter_ws_render p hwf]
  simp only [List.map_append, List.map_cons, hdolm, hpom, hipm, hpcm, hd1m, hd2m,
    show mapMinus '.' = '.' from by decide]

lemma beq_some_false_of_ne (c x : Char) (h : c ≠ x) :
    ((some c : Option Char) == some x) = false := by
  simpa using h

lemma digit_head_not (c x : Char) (hc : c.isDigit = true) (hx : x.isDigit = false) :
    ((some c : Option Char) == some x) = false :=
  beq_some_false_of_ne c x (isDigit_ne c x hc hx)

/-- The numeric parse of a digit string followed by `.` and two more
digits (the shape `_amount_to_decimal` hands to `Decimal`). -/
lemma pyDecimal_digits_dot (a : List Char) (ha : ∀ c ∈ a, c.isDigit = true)
    (d1 d2 : Char) (h1 : d1.isDigit = true) (h2 : d2.isDigit = true) :
    pyDecimal (a ++ '.' :: [d1, d2]) =
      some ((natOfDigits a : ℚ) + (natOfDigits [d1, d2] : ℚ) / 100) := by
  have hnws : ∀ c ∈ a ++ '.' :: [d1, d2], pyIsWs c = false := by
    intro c hc
    rcases List.mem_append.mp hc with h | h
    · exact isDigit_not_ws c (ha c h)
    · rcases List.mem_cons.mp h with rfl | h
      · decide
      rcases List.mem_cons.mp h with rfl | h
      · exact isDigit_not_ws _ h1
      rcases List.mem_cons.mp h with rfl | h
      · exact isDigit_not_ws _ h2
      · simp at h
  have htake : (a ++ '.' :: [d1, d2]).takeWhile Char.isDigit = a := by
    rw [takeWhile_append_of_all _ _ _ ha, List.takeWhile_cons_of_neg (by decide),
      List.append_nil]
  have hdrop : (a ++ '.' :: [d1, d2]).dropWhile Char.isDigit = '.' :: [d1, d2] := by
    rw [dropWhile_append_of_all _ _ _ ha, List.dropWhile_cons_of_neg (by decide)]
  have hsign : ((a ++ '.' :: [d1, d2]).head? == some '+') = false ∧
      ((a ++ '.' :: [d1, d2]).head? == some '-') = false := by
    cases a with
    | nil => constructor <;> simp only [List.nil_append, List.head?_cons] <;> decide
    | cons c cs =>
      constructor <;> simp only [List.cons_append, List.head?_cons] <;>
        exact digit_head_not c _ (ha c (by simp)) (by decide)
  unfold pyDecimal
  rw [pyStrip_eq_self_of _ hnws]
  simp only [hsign.1, hsign.2, Bool.false_eq_true, if_false, htake, hdrop]
  simp [List.all_cons, h1, h2, natOfDigits]
  norm_num

/-- `Decimal` rejects a string that still starts with `(`. -/
lemma pyDecimal_headParen (t : List Char) (h : ∀ c ∈ t, pyIsWs c = false) :
    pyDecimal ('(' :: t) = none := by
  unfold pyDecimal
  rw [pyStrip_eq_self_of _ (by
    intro c hc
    rcases List.mem_cons.mp hc with rfl | hc
    · decide
    · exact h c hc)]
  simp only [List.head?_cons, List.takeWhile_cons_of_neg (by decide : ¬('(').isDigit = true),
    List.dropWhile_cons_of_neg (by decide : ¬('(').isDigit = true)]
  simp

/-- `Decimal` rejects a numeric string with a stray `)` at the end. -/
lemma pyDecimal_trailParen (a : List Char) (ha : ∀ c ∈ a, c.isDigit = true)
    (d1 d2 : Char) (h1 : d1.isDigit = true) (h2 : d2.isDigit = true) :
    pyDecimal (a ++ '.' :: [d1, d2, ')']) = none := by
  have hnws : ∀ c ∈ a ++ '.' :: [d1, d2, ')'], pyIsWs c = false := by
    intro c hc
    rcases List.mem_append.mp hc with h | h
    · exact isDigit_not_ws c (ha c h)
    · rcases List.mem_cons.mp h with rfl | h
      · decide
      rcases List.mem_cons.mp h with rfl | h
      · exact isDigit_not_ws _ h1
      rcases List.mem_cons.mp h with rfl | h
      · exact isDigit_not_ws _ h2
      rcases List.mem_cons.mp h with rfl | h
      · decide
      · simp at h
  have htake : (a ++ '.' :: [d1, d2, ')']).takeWhile Char.isDigit = a := by
    rw [takeWhile_append_of_all _ _ _ ha, List.takeWhile_cons_of_neg (by decide),
      List.append_nil]
  have hdrop : (a ++ '.' :: [d1, d2, ')']).dropWhile Char.isDigit = '.' :: [d1, d2, ')'] := by
    rw [dropWhile_append_of_all _ _ _ ha, List.dropWhile_cons_of_neg (by decide)]
  have hsign : ((a ++ '.' :: [d1, d2, ')']).head? == some '+') = false ∧
      ((a ++ '.' :: [d1, d2, ')']).head? == some '-') = false := by
    cases a with
    | nil => constructor <;> simp only [List.nil_append, List.head?_cons] <;> decide
    | cons c cs =>
      constructor <;> simp only [List.cons_append, List.head?_cons] <;>
        exact digit_head_not c _ (ha c (by simp)) (by decide)
  unfold pyDecimal
  rw [pyStrip_eq_self_of _ hnws]
  simp only [hsign.1, hsign.2, Bool.false_eq_true, if_false, htake, hdrop]
  simp [List.all_cons]

lemma getLast_core_nil (A : List Char) (d1 d2 : Char) :
    (A ++ '.' :: d1 :: d2 :: ([] : List Char)).getLast? = some d2 := by
  have : A ++ '.' :: d1 :: d2 :: ([] : List Char) = (A ++ ['.', d1]) ++ [d2] := by simp
  rw [this, List.getLast?_concat]

lemma getLast_core_paren (A : List Char) (d1 d2 : Char) :
    (A ++ '.' :: d1 :: d2 :: [')']).getLast? = some ')' := by
  have : A ++ '.' :: d1 :: d2 :: [')'] = (A ++ ['.', d1, d2]) ++ [')'] := by simp
  rw [this, List.getLast?_concat]

lemma dropLast_core_paren (A : List Char) (d1 d2 : Char) :
    (A ++ '.' :: d1 :: d2 :: [')']).dropLast = A ++ '.' :: d1 :: d2 :: ([] : List Char) := by
  have : A ++ '.' :: d1 :: d2 :: [')'] = (A ++ ['.', d1, d2]) ++ [')'] := by simp
  rw [this, List.dropLast_concat]

lemma ip_head_beq_false (p : AmtParts) (hwf : p.WF) (x : Char)
    (hx : x.isDigit = false) (hxd : x ≠ '.') (l : List Char) :
    ((p.ip ++ '.' :: l).head? == some x) = false := by
  rcases hwf.2.2.2.2.2.1 with he | ⟨c, cs, he, hcd, _⟩ <;> rw [he]
  · simp only [List.nil_append, List.head?_cons]
    exact beq_some_false_of_ne '.' x (fun he2 => hxd he2.symm)
  · simp only [List.cons_append, List.head?_cons]
    exact digit_head_not c x hcd hx

/-- Digits of the comma-stripped integer part. -/
lemma ipf_digits (p : AmtParts) (hwf : p.WF) :
    ∀ c ∈ p.ip.filter (fun c => c != ','), c.isDigit = true := by
  intro c hc
  have hm := List.mem_filter.mp hc
  rcases isIntChar_cases c (ip_all_intChar p hwf c hm.1) with h | h
  · exact h
  · exact absurd h (by simpa using hm.2)

/-- Comma removal on the numeric tail of a preprocessed token. -/
lemma filter_comma_core (p : AmtParts) (hwf : p.WF) (R : List Char)
    (hR : R.filter (fun c => c != ',') = R) :
    (p.ip ++ '.' :: p.d1 :: p.d2 :: R).filter (fun c => c != ',') =
      p.ip.filter (fun c => c != ',') ++ '.' :: p.d1 :: p.d2 :: R := by
  have hd1 : p.d1 ≠ ',' := isDigit_ne _ ',' hwf.2.2.2.2.2.2.1 (by decide)
  have hd2 : p.d2 ≠ ',' := isDigit_ne _ ',' hwf.2.2.2.2.2.2.2 (by decide)
  simp [List.filter_append, List.filter_cons, hd1, hd2, hR]

/-- Value of the numeric core after the `".99" → "0.99"` fix. -/
lemma pyDecimal_fixed_core (p : AmtParts) (hwf : p.WF) :
    pyDecimal (if (p.ip.filter (fun c => c != ',') ++ '.' :: p.d1 :: p.d2 :: ([] : List Char)).head? == some '.'
        then '0' :: (p.ip.filter (fun c => c != ',') ++ '.' :: p.d1 :: p.d2 :: ([] : List Char))
        else p.ip.filter (fun c => c != ',') ++ '.' :: p.d1 :: p.d2 :: ([] : List Char)) =
      some p.coreVal := by
  have hd1 := hwf.2.2.2.2.2.2.1
  have hd2 := hwf.2.2.2.2.2.2.2
  have hipfd := ipf_digits p hwf
  rcases hwf.2.2.2.2.2.1 with he | ⟨c, cs, he, hcd, _⟩
  · rw [he]
    simp only [List.filter_nil, List.nil_append, List.head?_cons]
    rw [if_pos (by simp)]
    rw [show ('0' :: '.' :: p.d1 :: p.d2 :: ([] : List Char)) = ['0'] ++ '.' :: [p.d1, p.d2] from by simp,
      pyDecimal_digits_dot ['0'] (by decide) p.d1 p.d2 hd1 hd2]
    unfold AmtParts.coreVal
    rw [he]
    norm_num [natOfDigits, digitVal]
  · have hipf : p.ip.filter (fun c => c != ',') = c :: cs.filter (fun c => c != ',') := by
      rw [he]
      simp [List.filter_cons, isDigit_ne c ',' hcd (by decide)]
    rw [hipf]
    simp only [List.cons_append, List.head?_cons]
    rw [if_neg (by simp [isDigit_ne c '.' hcd (by decide)])]
    have hdd := pyDecimal_digits_dot (c :: cs.filter (fun c => c != ','))
      (by rw [← hipf]; exact hipfd) p.d1 p.d2 hd1 hd2
    simp only [List.cons_append] at hdd
    rw [show (c :: (List.filter (fun c => c != ',') cs ++ ['.', p.d1, p.d2])) =
      c :: (List.filter (fun c => c != ',') cs ++ '.' :: [p.d1, p.d2]) from by simp, hdd]
    unfold AmtParts.coreVal
    rw [hipf]

lemma mapMinus_plus : mapMinus '+' = '+' := by decide
lemma mapMinus_hyph : mapMinus '-' = '-' := by decide
lemma mapMinus_uni : mapMinus '−' = '-' := by decide

lemma filter_space_dropWhile (l : List Char) :
    (l.filter (fun c => c != ' ')).dropWhile pyIsWs =
      (l.dropWhile pyIsWs).filter (fun c => c != ' ') := by
  induction l with
  | nil => rfl
  | cons c t ih =>
    by_cases hc : pyIsWs c = true
    · by_cases hs : c = ' '
      · subst hs
        rw [List.filter_cons_of_neg (by decide), List.dropWhile_cons_of_pos (by decide)]
        exact ih
      · rw [List.filter_cons_of_pos (by simp [hs]), List.dropWhile_cons_of_pos hc,
          List.dropWhile_cons_of_pos hc]
        exact ih
    · have hs : c ≠ ' ' := fun he => hc (by rw [he]; decide)
      rw [List.filter_cons_of_pos (by simp [hs]), List.dropWhile_cons_of_neg hc,
        List.dropWhile_cons_of_neg hc, List.filter_cons_of_pos (by simp [hs])]

lemma filter_space_pyStrip (l : List Char) :
    pyStrip (l.filter (fun c => c != ' ')) = (pyStrip l).filter (fun c => c != ' ') := by
  unfold pyStrip
  rw [filter_space_dropWhile, ← List.filter_reverse, filter_space_dropWhile,
    ← List.filter_reverse]

lemma map_mapMinus_dropWhile (l : List Char) :
    (l.map mapMinus).dropWhile pyIsWs = (l.dropWhile pyIsWs).map mapMinus := by
  induction l with
  | nil => rfl
  | cons c t ih =>
    by_cases hc : pyIsWs c = true
    · rw [List.map_cons, List.dropWhile_cons_of_pos (by rw [mapMinus_of_ws c hc]; exact hc),
        List.dropWhile_cons_of_pos hc]
      exact ih
    · have hm : pyIsWs (mapMinus c) = false := by
        unfold mapMinus
        by_cases he : c = '−'
        · rw [if_pos he]; decide
        · rw [if_neg he]; simpa using hc
      rw [List.map_cons, List.dropWhile_cons_of_neg (by simp [hm]),
        List.dropWhile_cons_of_neg hc, List.map_cons]

lemma map_mapMinus_pyStrip (l : List Char) :
    pyStrip (l.map mapMinus) = (pyStrip l).map mapMinus := by
  unfold pyStrip
  rw [map_mapMinus_dropWhile, ← List.map_reverse, map_mapMinus_dropWhile,
    ← List.map_reverse]

/-- `_amount_to_decimal`'s preprocessing with the strip performed last. -/
lemma cleanAmt_strip_last (l : List Char) :
    cleanAmt l = pyStrip ((l.filter (fun c => c != ' ')).map mapMinus) := by
  unfold cleanAmt
  rw [map_mapMinus_pyStrip, filter_space_pyStrip]

/-- The space-filtered, minus-mapped render; the whitespace residues (tab
and friends, which `replace(" ", "")` does not touch) stay in place. -/
lemma filter_space_render (p : AmtParts) (hwf : p.WF) :
    (p.render.filter (fun c => c != ' ')).map mapMinus =
      p.sgn.map mapMinus ++ p.w1.filter (fun c => c != ' ') ++ p.dol ++
      p.w2.filter (fun c => c != ' ') ++ p.po ++ p.w3.filter (fun c => c != ' ') ++
      p.ip ++ '.' :: p.d1 :: p.d2 :: (p.w4.filter (fun c => c != ' ') ++ p.pc) := by
  have hgap : ∀ c ∈ p.w1 ++ p.w2 ++ p.w3 ++ p.w4, pyIsWs c = true :=
    fun c hc => List.all_eq_true.mp hwf.2.2.2.2.1 c hc
  have hw1 : ∀ c ∈ p.w1, pyIsWs c = true := fun c hc => hgap c (by simp [hc])
  have hw2 : ∀ c ∈ p.w2, pyIsWs c = true := fun c hc => hgap c (by simp [hc])
  have hw3 : ∀ c ∈ p.w3, pyIsWs c = true := fun c hc => hgap c (by simp [hc])
  have hw4 : ∀ c ∈ p.w4, pyIsWs c = true := fun c hc => hgap c (by simp [hc])
  have hipall := ip_all_intChar p hwf
  have hsgnf : p.sgn.filter (fun c => c != ' ') = p.sgn := by
    rcases hwf.1 with he | he | he | he <;> rw [he] <;> decide
  have hdolf : p.dol.filter (fun c => c != ' ') = p.dol := by
    rcases hwf.2.1 with he | he <;> rw [he] <;> decide
  have hpof : p.po.filter (fun c => c != ' ') = p.po := by
    rcases hwf.2.2.1 with he | he <;> rw [he] <;> decide
  have hpcf : p.pc.filter (fun c => c != ' ') = p.pc := by
    rcases hwf.2.2.2.1 with he | he <;> rw [he] <;> decide
  have hipf : p.ip.filter (fun c => c != ' ') = p.ip :=
    List.filter_eq_self.mpr (fun a ha => by
      simp [isIntChar_ne_space a (hipall a ha)])
  have hd1s : (p.d1 != ' ') = true := by
    simp [isDigit_ne _ ' ' hwf.2.2.2.2.2.2.1 (by decide)]
  have hd2s : (p.d2 != ' ') = true := by
    simp [isDigit_ne _ ' ' hwf.2.2.2.2.2.2.2 (by decide)]
  have hmws : ∀ (w : List Char), (∀ c ∈ w, pyIsWs c = true) →
      (w.filter (fun c => c != ' ')).map mapMinus = w.filter (fun c => c != ' ') := by
    intro w hws
    refine map_eq_self_of_no_minus _ (fun a ha he => ?_)
    have := hws a (List.mem_of_mem_filter ha)
    rw [he] at this
    exact absurd this (by decide)
  have hdolm : p.dol.map mapMinus = p.dol := by
    rcases hwf.2.1 with he | he <;> rw [he] <;> decide
  have hpom : p.po.map mapMinus = p.po := by
    rcases hwf.2.2.1 with he | he <;> rw [he] <;> decide
  have hpcm : p.pc.map mapMinus = p.pc := by
    rcases hwf.2.2.2.1 with he | he <;> rw [he] <;> decide
  have hipm : p.ip.map mapMinus = p.ip :=
    map_eq_self_of_no_minus _ (fun a ha => isIntChar_ne_minus a (hipall a ha))
  have hd1m : mapMinus p.d1 = p.d1 := by
    simp [mapMinus, isDigit_ne _ '−' hwf.2.2.2.2.2.2.1 (by decide)]
  have hd2m : mapMinus p.d2 = p.d2 := by
    simp [mapMinus, isDigit_ne _ '−' hwf.2.2.2.2.2.2.2 (by decide)]
  have htail : List.filter (fun c => c != ' ') ('.' :: p.d1 :: p.d2 :: (p.w4 ++ p.pc)) =
      '.' :: p.d1 :: p.d2 :: (p.w4.filter (fun c => c != ' ') ++ p.pc) := by
    simp only [List.filter_cons, hd1s, hd2s, List.filter_append, hpcf]
    simp
  unfold AmtParts.render
  rw [List.filter_append, List.filter_append, List.filter_append,
    List.filter_append, List.filter_append, List.filter_append,
    List.filter_append, hsgnf, hdolf, hpof, hipf, htail]
  simp only [List.map_append, List.map_cons, hdolm, hpom, hipm, hpcm, hd1m, hd2m,
    hmws p.w1 hw1, hmws p.w2 hw2, hmws p.w3 hw3, hmws p.w4 hw4,
    show mapMinus '.' = '.' from by decide]

lemma pyStrip_ws_front (w x : List Char) (hw : ∀ c ∈ w, pyIsWs c = true) :
    pyStrip (w ++ x) = pyStrip x := by
  unfold pyStrip
  rw [dropWhile_append_of_all _ _ _ hw]

lemma pyStrip_ws_suffix (x w : List Char) (hw : ∀ c ∈ w, pyIsWs c = true) :
    pyStrip (x ++ w) = pyStrip x := by
  induction x with
  | nil =>
    have h0 : pyStrip w = [] := by
      unfold pyStrip
      rw [List.dropWhile_eq_nil_iff.mpr (fun a ha => hw a ha)]
      rfl
    simpa using h0
  | cons c t ih =>
    by_cases hc : pyIsWs c = true
    · have e1 : pyStrip ((c :: t) ++ w) = pyStrip (t ++ w) := by
        unfold pyStrip
        rw [List.cons_append, List.dropWhile_cons_of_pos hc]
      have e2 : pyStrip (c :: t) = pyStrip t := by
        unfold pyStrip
        rw [List.dropWhile_cons_of_pos hc]
      rw [e1, e2, ih]
    · unfold pyStrip
      rw [List.cons_append, List.dropWhile_cons_of_neg hc, List.dropWhile_cons_of_neg hc,
        List.reverse_cons, List.reverse_cons, List.reverse_append, List.append_assoc,
        dropWhile_append_of_all _ _ _ (fun a ha => hw a (by simpa using ha))]

lemma pyStrip_eq_self_of_ends (l : List Char)
    (h1 : ∀ c, l.head? = some c → pyIsWs c = false)
    (h2 : ∀ c, l.getLast? = some c → pyIsWs c = false) :
    pyStrip l = l := by
  cases l with
  | nil => rfl
  | cons a t =>
    unfold pyStrip
    rw [List.dropWhile_cons_of_neg (by simp [h1 a rfl])]
    cases hr : (a :: t).reverse with
    | nil => simp at hr
    | cons b s =>
      have hb : pyIsWs b = false := by
        refine h2 b ?_
        rw [← List.head?_reverse, hr]
        rfl
      rw [List.dropWhile_cons_of_neg (by simp [hb]), ← hr, List.reverse_reverse]

lemma pyStrip_head_ex (W : List Char) (x : Char) (Z : List Char)
    (hW : ∀ c ∈ W, pyIsWs c = true) (hx : pyIsWs x = false) :
    ∃ t, pyStrip (W ++ x :: Z) = x :: t := by
  rw [pyStrip_ws_front _ _ hW]
  unfold pyStrip
  rw [List.dropWhile_cons_of_neg (by simp [hx])]
  have hsuf : (x :: Z).reverse.dropWhile pyIsWs <:+ (x :: Z).reverse :=
    List.dropWhile_suffix _
  have hne : (x :: Z).reverse.dropWhile pyIsWs ≠ [] := by
    intro h0
    have hall := List.dropWhile_eq_nil_iff.mp h0
    exact absurd (hall x (by simp)) (by simp [hx])
  obtain ⟨pre, hpre⟩ := hsuf
  have hlastfull : ((x :: Z).reverse).getLast? = some x := by
    rw [List.getLast?_reverse]
    rfl
  have hgl : ∀ (a b : List Char), b ≠ [] → (a ++ b).getLast? = b.getLast? := by
    intro a b hb
    rw [← List.head?_reverse, List.reverse_append, ← List.head?_reverse]
    cases hbr : b.reverse with
    | nil => exact absurd (by simpa using congrArg List.reverse hbr) hb
    | cons d u => simp
  have hlastD : ((x :: Z).reverse.dropWhile pyIsWs).getLast? = some x := by
    rw [← hpre] at hlastfull
    rwa [hgl _ _ hne] at hlastfull
  cases hD : (x :: Z).reverse.dropWhile pyIsWs with
  | nil => exact absurd hD hne
  | cons b s =>
    rw [hD] at hlastD
    cases hrr : (b :: s).reverse with
    | nil => simp at hrr
    | cons y u =>
      have hh : (b :: s).reverse.head? = some x := by
        rw [List.head?_reverse]
        exact hlastD
      rw [hrr] at hh
      have hy : y = x := by simpa using hh
      subst hy
      exact ⟨u, rfl⟩

lemma pyDecimal_congr (a b : List Char) (h : pyStrip a = pyStrip b) :
    pyDecimal a = pyDecimal b := by
  unfold pyDecimal
  rw [h]

/-- `Decimal` rejects any string whose first non-whitespace character is
not a sign, a digit or the decimal point. -/
lemma pyDecimal_none_of_strip_head (l : List Char) (x : Char) (t : List Char)
    (h : pyStrip l = x :: t) (h1 : x ≠ '+') (h2 : x ≠ '-')
    (hd : x.isDigit = false) (h3 : x ≠ '.') :
    pyDecimal l = none := by
  unfold pyDecimal
  rw [h]
  simp only [List.head?_cons, beq_some_false_of_ne x '+' h1, beq_some_false_of_ne x '-' h2,
    Bool.false_eq_true, if_false,
    List.takeWhile_cons_of_neg (show ¬(x.isDigit = true) from by simp [hd]),
    List.dropWhile_cons_of_neg (show ¬(x.isDigit = true) from by simp [hd])]
  simp [beq_some_false_of_ne x '.' h3]

lemma pyDecimal_none_of_ws_head (W : List Char) (x : Char) (Z : List Char)
    (hW : ∀ c ∈ W, pyIsWs c = true) (hx : pyIsWs x = false)
    (h1 : x ≠ '+') (h2 : x ≠ '-') (hd : x.isDigit = false) (h3 : x ≠ '.') :
    pyDecimal (W ++ x :: Z) = none := by
  obtain ⟨t, ht⟩ := pyStrip_head_ex W x Z hW hx
  exact pyDecimal_none_of_strip_head _ x t ht h1 h2 hd h3

/-- `Decimal` only sees its argument stripped of surrounding whitespace. -/
lemma pyDecimal_strip_ends (W a w : List Char)
    (hW : ∀ c ∈ W, pyIsWs c = true) (hw : ∀ c ∈ w, pyIsWs c = true)
    (ha : ∀ c ∈ a, pyIsWs c = false) :
    pyDecimal (W ++ (a ++ w)) = pyDecimal a := by
  refine pyDecimal_congr _ _ ?_
  rw [pyStrip_ws_front _ _ hW, pyStrip_ws_suffix _ _ hw]

lemma wshead_beq_false (W rest : List Char) (hW : ∀ c ∈ W, pyIsWs c = true)
    (x : Char) (hx : pyIsWs x = false) (hr : (rest.head? == some x) = false) :
    ((W ++ rest).head? == some x) = false := by
  cases W with
  | nil => simpa using hr
  | cons c t =>
    simp only [List.cons_append, List.head?_cons]
    refine beq_some_false_of_ne c x (fun he => ?_)
    have hc := hW c (by simp)
    rw [he, hx] at hc
    exact absurd hc (by simp)

lemma filter_comma_ws (W : List Char) (hW : ∀ c ∈ W, pyIsWs c = true) :
    W.filter (fun c => c != ',') = W :=
  List.filter_eq_self.mpr (fun a ha => by
    have h := hW a ha
    simp only [bne_iff_ne, ne_eq]
    intro he
    rw [he] at h
    exact absurd h (by decide))

lemma filter_comma_ws_core (p : AmtParts) (hwf : p.WF) (W R : List Char)
    (hW : ∀ c ∈ W, pyIsWs c = true) (hR : R.filter (fun c => c != ',') = R) :
    (W ++ (p.ip ++ '.' :: p.d1 :: p.d2 :: R)).filter (fun c => c != ',') =
      W ++ (p.ip.filter (fun c => c != ',') ++ '.' :: p.d1 :: p.d2 :: R) := by
  rw [List.filter_append, filter_comma_ws W hW, filter_comma_core p hwf R hR]

/-- The numeric parse of the fixed core, with whitespace residues before
the digits and after the second decimal: `Decimal` strips both. -/
lemma pyDecimal_wsfix_core_tail (p : AmtParts) (hwf : p.WF) (W R : List Char)
    (hW : ∀ c ∈ W, pyIsWs c = true) (hR : ∀ c ∈ R, pyIsWs c = true) :
    pyDecimal (if ((W ++ (p.ip.filter (fun c => c != ',') ++ '.' :: p.d1 :: p.d2 :: R)).head? == some '.')
        then '0' :: (W ++ (p.ip.filter (fun c => c != ',') ++ '.' :: p.d1 :: p.d2 :: R))
        else W ++ (p.ip.filter (fun c => c != ',') ++ '.' :: p.d1 :: p.d2 :: R)) =
      some p.coreVal := by
  have hd1 := hwf.2.2.2.2.2.2.1
  have hd2 := hwf.2.2.2.2.2.2.2
  have hipfd := ipf_digits p hwf
  have hcore : ∀ (A : List Char), (∀ c ∈ A, c.isDigit = true) →
      pyDecimal (A ++ '.' :: p.d1 :: p.d2 :: R) =
        some ((natOfDigits A : ℚ) + (natOfDigits [p.d1, p.d2] : ℚ) / 100) := by
    intro A hA
    have hsh : A ++ '.' :: p.d1 :: p.d2 :: R =
        ([] : List Char) ++ ((A ++ '.' :: [p.d1, p.d2]) ++ R) := by simp
    rw [hsh, pyDecimal_strip_ends [] _ R (by simp) hR (by
      intro c hc
      rcases List.mem_append.mp hc with h | h
      · exact isDigit_not_ws c (hA c h)
      · rcases List.mem_cons.mp h with rfl | h
        · decide
        rcases List.mem_cons.mp h with rfl | h
        · exact isDigit_not_ws _ hd1
        rcases List.mem_cons.mp h with rfl | h
        · exact isDigit_not_ws _ hd2
        · simp at h)]
    exact pyDecimal_digits_dot A hA p.d1 p.d2 hd1 hd2
  cases W with
  | cons c t =>
    have hc : pyIsWs c = true := hW c (by simp)
    have hcd : c ≠ '.' := fun he => by rw [he] at hc; exact absurd hc (by decide)
    rw [if_neg (by
      simp only [List.cons_append, List.head?_cons]
      simp [beq_some_false_of_ne c '.' hcd])]
    have hsh : (c :: t) ++ (p.ip.filter (fun c => c != ',') ++ '.' :: p.d1 :: p.d2 :: R) =
        (c :: t) ++ ((p.ip.filter (fun c => c != ',') ++ '.' :: [p.d1, p.d2]) ++ R) := by
      simp
    rw [hsh, pyDecimal_strip_ends (c :: t) _ R hW hR (by
      intro a ha
      rcases List.mem_append.mp ha with h | h
      · exact isDigit_not_ws a (hipfd a h)
      · rcases List.mem_cons.mp h with rfl | h
        · decide
        rcases List.mem_cons.mp h with rfl | h
        · exact isDigit_not_ws _ hd1
        rcases List.mem_cons.mp h with rfl | h
        · exact isDigit_not_ws _ hd2
        · simp at h),
      pyDecimal_digits_dot _ hipfd p.d1 p.d2 hd1 hd2]
    rfl
  | nil =>
    simp only [List.nil_append]
    rcases hwf.2.2.2.2.2.1 with he | ⟨c0, cs, he, hcd, _⟩
    · rw [he]
      simp only [List.filter_nil, List.nil_append, List.head?_cons]
      rw [if_pos (by simp)]
      rw [show ('0' :: '.' :: p.d1 :: p.d2 :: R) = ['0'] ++ '.' :: p.d1 :: p.d2 :: R from by
        simp, hcore ['0'] (by decide)]
      unfold AmtParts.coreVal
      rw [he]
      norm_num [natOfDigits, digitVal]
    · have hipf : p.ip.filter (fun c => c != ',') = c0 :: cs.filter (fun c => c != ',') := by
        rw [he]
        simp [List.filter_cons, isDigit_ne c0 ',' hcd (by decide)]
      rw [hipf]
      simp only [List.cons_append, List.head?_cons]
      rw [if_neg (by simp [beq_some_false_of_ne c0 '.' (isDigit_ne c0 '.' hcd (by decide))])]
      have hv := hcore (c0 :: cs.filter (fun c => c != ',')) (by
        rw [← hipf]
        exact hipfd)
      simp only [List.cons_append] at hv ⊢
      rw [hv]
      unfold AmtParts.coreVal
      rw [hipf]

/-- Fail counterpart: a stray `)` survives to the numeric parse whatever
whitespace residues surround the digits. -/
lemma pyDecimal_wsfix_tail_bad (p : AmtParts) (hwf : p.WF) (W R : List Char)
    (hW : ∀ c ∈ W, pyIsWs c = true) (hR : ∀ c ∈ R, pyIsWs c = true) :
    pyDecimal (if ((W ++ (p.ip.filter (fun c => c != ',') ++ '.' :: p.d1 :: p.d2 :: (R ++ [')']))).head? == some '.')
        then '0' :: (W ++ (p.ip.filter (fun c => c != ',') ++ '.' :: p.d1 :: p.d2 :: (R ++ [')'])))
        else W ++ (p.ip.filter (fun c => c != ',') ++ '.' :: p.d1 :: p.d2 :: (R ++ [')']))) = none := by
  have hd1 := hwf.2.2.2.2.2.2.1
  have hd2 := hwf.2.2.2.2.2.2.2
  have hipfd := ipf_digits p hwf
  have hfr : (p.d1 :: p.d2 :: (R ++ [')'])).all Char.isDigit = false := by
    simp only [List.all_cons, List.all_append]
    simp [show (')').isDigit = false from by decide]
  have hbad : ∀ (A : List Char), (∀ c ∈ A, c.isDigit = true) →
      pyDecimal (A ++ '.' :: p.d1 :: p.d2 :: (R ++ [')'])) = none := by
    intro A hA
    have hself : pyStrip (A ++ '.' :: p.d1 :: p.d2 :: (R ++ [')'])) =
        A ++ '.' :: p.d1 :: p.d2 :: (R ++ [')']) := by
      refine pyStrip_eq_self_of_ends _ ?_ ?_
      · intro c hch
        cases A with
        | nil =>
          simp only [List.nil_append, List.head?_cons] at hch
          rw [← (Option.some.injEq _ _).mp hch]
          decide
        | cons a0 t0 =>
          simp only [List.cons_append, List.head?_cons] at hch
          rw [← (Option.some.injEq _ _).mp hch]
          exact isDigit_not_ws a0 (hA a0 (by simp))
      · intro c hcl
        rw [show A ++ '.' :: p.d1 :: p.d2 :: (R ++ [')']) =
          (A ++ '.' :: p.d1 :: p.d2 :: R) ++ [')'] from by simp,
          List.getLast?_concat] at hcl
        rw [← (Option.some.injEq _ _).mp hcl]
        decide
    have hsign : ∀ y : Char, y.isDigit = false → y ≠ '.' →
        (((A ++ '.' :: p.d1 :: p.d2 :: (R ++ [')'])).head? == some y) = false) := by
      intro y hy hyd
      cases A with
      | nil =>
        simp only [List.nil_append, List.head?_cons]
        exact beq_some_false_of_ne '.' y (fun he => hyd he.symm)
      | cons a0 t0 =>
        simp only [List.cons_append, List.head?_cons]
        exact digit_head_not a0 y (hA a0 (by simp)) hy
    unfold pyDecimal
    rw [hself]
    simp only [hsign '+' (by decide) (by decide), hsign '-' (by decide) (by decide),
      Bool.false_eq_true, if_false,
      takeWhile_append_of_all _ _ _ hA, dropWhile_append_of_all _ _ _ hA,
      List.takeWhile_cons_of_neg (by decide : ¬(('.').isDigit = true)),
      List.dropWhile_cons_of_neg (by decide : ¬(('.').isDigit = true))]
    simp [hfr]
  cases W with
  | cons c t =>
    have hc : pyIsWs c = true := hW c (by simp)
    have hcd : c ≠ '.' := fun he => by rw [he] at hc; exact absurd hc (by decide)
    rw [if_neg (by
      simp only [List.cons_append, List.head?_cons]
      simp [beq_some_false_of_ne c '.' hcd])]
    have hcg : pyDecimal ((c :: t) ++ (p.ip.filter (fun c => c != ',') ++ '.' :: p.d1 :: p.d2 :: (R ++ [')']))) =
        pyDecimal (p.ip.filter (fun c => c != ',') ++ '.' :: p.d1 :: p.d2 :: (R ++ [')'])) :=
      pyDecimal_congr _ _ (pyStrip_ws_front _ _ hW)
    rw [hcg]
    exact hbad _ hipfd
  | nil =>
    simp only [List.nil_append]
    rcases hwf.2.2.2.2.2.1 with he | ⟨c0, cs, he, hcd, _⟩
    · rw [he]
      simp only [List.filter_nil, List.nil_append, List.head?_cons]
      rw [if_pos (by simp)]
      rw [show ('0' :: '.' :: p.d1 :: p.d2 :: (R ++ [')'])) =
        ['0'] ++ '.' :: p.d1 :: p.d2 :: (R ++ [')']) from by simp]
      exact hbad ['0'] (by decide)
    · have hipf : p.ip.filter (fun c => c != ',') = c0 :: cs.filter (fun c => c != ',') := by
        rw [he]
        simp [List.filter_cons, isDigit_ne c0 ',' hcd (by decide)]
      rw [hipf]
      simp only [List.cons_append, List.head?_cons]
      rw [if_neg (by simp [beq_some_false_of_ne c0 '.' (isDigit_ne c0 '.' hcd (by decide))])]
      have hb := hbad (c0 :: cs.filter (fun c => c != ',')) (by
        rw [← hipf]
        exact hipfd)
      simpa using hb


lemma pyDecimal_none_of_head (x : Char) (Z : List Char)
    (hx : pyIsWs x = false) (h1 : x ≠ '+') (h2 : x ≠ '-')
    (hd : x.isDigit = false) (h3 : x ≠ '.') :
    pyDecimal (x :: Z) = none := by
  have hb := pyDecimal_none_of_ws_head [] x Z (by simp) hx h1 h2 hd h3
  simpa using hb

lemma pyStrip_self_rparen (x : Char) (M : List Char) (hx : pyIsWs x = false) :
    pyStrip (x :: (M ++ [')'])) = x :: (M ++ [')']) := by
  refine pyStrip_eq_self_of_ends _ (fun c hc => ?_) (fun c hc => ?_)
  · simp only [List.head?_cons] at hc
    rw [← (Option.some.injEq _ _).mp hc]
    exact hx
  · rw [show (x :: (M ++ [')'])) = (x :: M) ++ [')'] from by simp,
      List.getLast?_concat] at hc
    rw [← (Option.some.injEq _ _).mp hc]
    decide

/-- `_amount_to_decimal` on a fully parenthesized token, for arbitrary
whitespace gaps: it succeeds (negatively) exactly when no sign and no
currency symbol stand outside the parentheses. -/
lemma amountToDecimal_wrapped_eval (p : AmtParts) (hwf : p.WF)
    (hpo : p.po = ['(']) (hpc : p.pc = [')']) :
    amountToDecimal p.render =
      (if p.sgn = [] ∧ p.dol = [] then some (-p.coreVal) else none) := by
  have hd1 := hwf.2.2.2.2.2.2.1
  have hd2 := hwf.2.2.2.2.2.2.2
  have hgap : ∀ c ∈ p.w1 ++ p.w2 ++ p.w3 ++ p.w4, pyIsWs c = true :=
    fun c hc => List.all_eq_true.mp hwf.2.2.2.2.1 c hc
  have hu1 : ∀ c ∈ p.w1.filter (fun c => c != ' '), pyIsWs c = true :=
    fun c hc => hgap c (by have := List.mem_of_mem_filter hc; simp [this])
  have hu2 : ∀ c ∈ p.w2.filter (fun c => c != ' '), pyIsWs c = true :=
    fun c hc => hgap c (by have := List.mem_of_mem_filter hc; simp [this])
  have hu3 : ∀ c ∈ p.w3.filter (fun c => c != ' '), pyIsWs c = true :=
    fun c hc => hgap c (by have := List.mem_of_mem_filter hc; simp [this])
  have hu4 : ∀ c ∈ p.w4.filter (fun c => c != ' '), pyIsWs c = true :=
    fun c hc => hgap c (by have := List.mem_of_mem_filter hc; simp [this])
  have hu12 : ∀ c ∈ p.w1.filter (fun c => c != ' ') ++ p.w2.filter (fun c => c != ' '), pyIsWs c = true := by
    intro c hc
    rcases List.mem_append.mp hc with h | h
    exacts [hu1 c h, hu2 c h]
  rw [amountToDecimal, cleanAmt_strip_last, filter_space_render p hwf, hpo, hpc]
  rcases hwf.1 with hs | hs | hs | hs <;> rcases hwf.2.1 with hdol | hdol <;>
    rw [hs, hdol] <;>
    simp only [List.map_cons, List.map_nil, mapMinus_plus, mapMinus_hyph, mapMinus_uni,
      List.nil_append, List.cons_append, List.append_nil, List.append_assoc]
  · -- sgn = [], dol = []
    rw [if_pos (by simp)]
    rw [show (p.w1.filter (fun c => c != ' ') ++ (p.w2.filter (fun c => c != ' ') ++ '(' :: (p.w3.filter (fun c => c != ' ') ++ (p.ip ++ '.' :: p.d1 :: p.d2 :: (p.w4.filter (fun c => c != ' ') ++ [')']))))) =
      (p.w1.filter (fun c => c != ' ') ++ p.w2.filter (fun c => c != ' ')) ++ ('(' :: ((p.w3.filter (fun c => c != ' ') ++ (p.ip ++ '.' :: p.d1 :: p.d2 :: p.w4.filter (fun c => c != ' '))) ++ [')'])) from by simp]
    rw [pyStrip_ws_front _ _ hu12, pyStrip_self_rparen '(' (p.w3.filter (fun c => c != ' ') ++ (p.ip ++ '.' :: p.d1 :: p.d2 :: p.w4.filter (fun c => c != ' '))) (by decide)]
    unfold amountCore
    have hlast : (('(' :: ((p.w3.filter (fun c => c != ' ') ++ (p.ip ++ '.' :: p.d1 :: p.d2 :: p.w4.filter (fun c => c != ' '))) ++ [')'])).getLast? == some ')') = true := by
      rw [show ('(' :: ((p.w3.filter (fun c => c != ' ') ++ (p.ip ++ '.' :: p.d1 :: p.d2 :: p.w4.filter (fun c => c != ' '))) ++ [')'])) =
        ('(' :: (p.w3.filter (fun c => c != ' ') ++ (p.ip ++ '.' :: p.d1 :: p.d2 :: p.w4.filter (fun c => c != ' ')))) ++ [')'] from by simp, List.getLast?_concat]
      decide
    simp only [List.head?_cons,
      show ((some '(' : Option Char) == some '(') = true from by decide,
      hlast, Bool.and_self, if_true, List.drop_one, List.tail_cons,
      List.dropLast_concat]
    rw [show (p.w3.filter (fun c => c != ' ') ++ (p.ip ++ '.' :: p.d1 :: p.d2 :: p.w4.filter (fun c => c != ' '))) = p.w3.filter (fun c => c != ' ') ++ (p.ip ++ '.' :: p.d1 :: p.d2 :: p.w4.filter (fun c => c != ' ')) from rfl]
    rw [wshead_beq_false _ _ hu3 '+' (by decide)
      (ip_head_beq_false p hwf '+' (by decide) (by decide) _),
      wshead_beq_false _ _ hu3 '-' (by decide)
      (ip_head_beq_false p hwf '-' (by decide) (by decide) _)]
    simp only [Bool.false_eq_true, if_false]
    rw [wshead_beq_false _ _ hu3 '$' (by decide)
      (ip_head_beq_false p hwf '$' (by decide) (by decide) _)]
    simp only [Bool.false_eq_true, if_false]
    rw [filter_comma_ws_core p hwf _ _ hu3 (filter_comma_ws _ hu4),
      pyDecimal_wsfix_core_tail p hwf _ _ hu3 hu4]
    simp
  · -- sgn = [], dol = ['$']
    rw [if_neg (by simp)]
    rw [show (p.w1.filter (fun c => c != ' ') ++ '$' :: (p.w2.filter (fun c => c != ' ') ++ '(' :: (p.w3.filter (fun c => c != ' ') ++ (p.ip ++ '.' :: p.d1 :: p.d2 :: (p.w4.filter (fun c => c != ' ') ++ [')']))))) =
      p.w1.filter (fun c => c != ' ') ++ ('$' :: ((p.w2.filter (fun c => c != ' ') ++ '(' :: (p.w3.filter (fun c => c != ' ') ++ (p.ip ++ '.' :: p.d1 :: p.d2 :: p.w4.filter (fun c => c != ' ')))) ++ [')'])) from by simp]
    rw [pyStrip_ws_front _ _ hu1,
      pyStrip_self_rparen '$' (p.w2.filter (fun c => c != ' ') ++ '(' :: (p.w3.filter (fun c => c != ' ') ++ (p.ip ++ '.' :: p.d1 :: p.d2 :: p.w4.filter (fun c => c != ' ')))) (by decide)]
    unfold amountCore
    simp only [List.head?_cons,
      show ((some '$' : Option Char) == some '(') = false from by decide,
      Bool.false_and, Bool.false_eq_true, if_false,
      show ((some '$' : Option Char) == some '+') = false from by decide,
      show ((some '$' : Option Char) == some '-') = false from by decide,
      show ((some '$' : Option Char) == some '$') = true from by decide,
      if_true, List.tail_cons]
    rw [show ((p.w2.filter (fun c => c != ' ') ++ '(' :: (p.w3.filter (fun c => c != ' ') ++ (p.ip ++ '.' :: p.d1 :: p.d2 :: p.w4.filter (fun c => c != ' ')))) ++ [')']) =
      p.w2.filter (fun c => c != ' ') ++ '(' :: ((p.w3.filter (fun c => c != ' ') ++ (p.ip ++ '.' :: p.d1 :: p.d2 :: p.w4.filter (fun c => c != ' '))) ++ [')']) from by simp]
    rw [show ((p.w2.filter (fun c => c != ' ') ++ '(' :: ((p.w3.filter (fun c => c != ' ') ++ (p.ip ++ '.' :: p.d1 :: p.d2 :: p.w4.filter (fun c => c != ' '))) ++ [')'])).filter (fun c => c != ',')) =
      p.w2.filter (fun c => c != ' ') ++ '(' :: (((p.w3.filter (fun c => c != ' ') ++ (p.ip ++ '.' :: p.d1 :: p.d2 :: p.w4.filter (fun c => c != ' '))) ++ [')']).filter (fun c => c != ',')) from by
      rw [List.filter_append, filter_comma_ws _ hu2, List.filter_cons_of_pos (by decide)]]
    rw [wshead_beq_false _ _ hu2 '.' (by decide) (by
      simp only [List.head?_cons]
      decide)]
    simp only [Bool.false_eq_true, if_false]
    rw [pyDecimal_none_of_ws_head (p.w2.filter (fun c => c != ' ')) '(' _ hu2 (by decide) (by decide) (by decide)
      (by decide) (by decide)]
    simp
  · -- sign outside parens, dol = []
    rw [if_neg (by simp)]
    rw [show ('+' :: (p.w1.filter (fun c => c != ' ') ++ (p.w2.filter (fun c => c != ' ') ++ '(' :: (p.w3.filter (fun c => c != ' ') ++ (p.ip ++ '.' :: p.d1 :: p.d2 :: (p.w4.filter (fun c => c != ' ') ++ [')'])))))) =
      '+' :: (((p.w1.filter (fun c => c != ' ') ++ p.w2.filter (fun c => c != ' ')) ++ '(' :: (p.w3.filter (fun c => c != ' ') ++ (p.ip ++ '.' :: p.d1 :: p.d2 :: p.w4.filter (fun c => c != ' ')))) ++ [')']) from by simp]
    rw [pyStrip_self_rparen '+' ((p.w1.filter (fun c => c != ' ') ++ p.w2.filter (fun c => c != ' ')) ++ '(' :: (p.w3.filter (fun c => c != ' ') ++ (p.ip ++ '.' :: p.d1 :: p.d2 :: p.w4.filter (fun c => c != ' ')))) (by decide)]
    unfold amountCore
    simp only [List.head?_cons,
      show ((some '+' : Option Char) == some '(') = false from by decide,
      Bool.false_and, Bool.false_eq_true, if_false,
      show ((some '+' : Option Char) == some '+') = true from by decide,
      show ((some '-' : Option Char) == some '+') = false from by decide,
      show ((some '-' : Option Char) == some '-') = true from by decide,
      if_true, if_false, List.tail_cons]
    rw [show (((p.w1.filter (fun c => c != ' ') ++ p.w2.filter (fun c => c != ' ')) ++ '(' :: (p.w3.filter (fun c => c != ' ') ++ (p.ip ++ '.' :: p.d1 :: p.d2 :: p.w4.filter (fun c => c != ' ')))) ++ [')']) =
      (p.w1.filter (fun c => c != ' ') ++ p.w2.filter (fun c => c != ' ')) ++ '(' :: ((p.w3.filter (fun c => c != ' ') ++ (p.ip ++ '.' :: p.d1 :: p.d2 :: p.w4.filter (fun c => c != ' '))) ++ [')']) from by simp]
    rw [wshead_beq_false _ _ hu12 '$' (by decide) (by
      simp only [List.head?_cons]
      decide)]
    simp only [Bool.false_eq_true, if_false]
    rw [show (((p.w1.filter (fun c => c != ' ') ++ p.w2.filter (fun c => c != ' ')) ++ '(' :: ((p.w3.filter (fun c => c != ' ') ++ (p.ip ++ '.' :: p.d1 :: p.d2 :: p.w4.filter (fun c => c != ' '))) ++ [')'])).filter (fun c => c != ',')) =
      (p.w1.filter (fun c => c != ' ') ++ p.w2.filter (fun c => c != ' ')) ++ '(' :: (((p.w3.filter (fun c => c != ' ') ++ (p.ip ++ '.' :: p.d1 :: p.d2 :: p.w4.filter (fun c => c != ' '))) ++ [')']).filter (fun c => c != ',')) from by
      rw [List.filter_append, filter_comma_ws _ hu12, List.filter_cons_of_pos (by decide)]]
    rw [wshead_beq_false _ _ hu12 '.' (by decide) (by
      simp only [List.head?_cons]
      decide)]
    simp only [Bool.false_eq_true, if_false]
    rw [pyDecimal_none_of_ws_head (p.w1.filter (fun c => c != ' ') ++ p.w2.filter (fun c => c != ' ')) '(' _ hu12 (by decide) (by decide) (by decide)
      (by decide) (by decide)]
    simp
  · -- sign and currency outside parens
    rw [if_neg (by simp)]
    cases hu1e : p.w1.filter (fun c => c != ' ') with
    | nil =>
      simp only [List.nil_append]
      rw [show ('+' :: '$' :: (p.w2.filter (fun c => c != ' ') ++ '(' :: (p.w3.filter (fun c => c != ' ') ++ (p.ip ++ '.' :: p.d1 :: p.d2 :: (p.w4.filter (fun c => c != ' ') ++ [')']))))) =
        '+' :: (('$' :: (p.w2.filter (fun c => c != ' ') ++ '(' :: (p.w3.filter (fun c => c != ' ') ++ (p.ip ++ '.' :: p.d1 :: p.d2 :: p.w4.filter (fun c => c != ' '))))) ++ [')']) from by simp]
      rw [pyStrip_self_rparen '+' ('$' :: (p.w2.filter (fun c => c != ' ') ++ '(' :: (p.w3.filter (fun c => c != ' ') ++ (p.ip ++ '.' :: p.d1 :: p.d2 :: p.w4.filter (fun c => c != ' '))))) (by decide)]
      unfold amountCore
      simp only [List.cons_append, List.head?_cons,
        show ((some '+' : Option Char) == some '(') = false from by decide,
        Bool.false_and, Bool.false_eq_true, if_false,
        show ((some '+' : Option Char) == some '+') = true from by decide,
        show ((some '-' : Option Char) == some '+') = false from by decide,
        show ((some '-' : Option Char) == some '-') = true from by decide,
        if_true, if_false, List.tail_cons,
        show ((some '$' : Option Char) == some '$') = true from by decide]
      rw [show ((p.w2.filter (fun c => c != ' ') ++ '(' :: (p.w3.filter (fun c => c != ' ') ++ (p.ip ++ '.' :: p.d1 :: p.d2 :: p.w4.filter (fun c => c != ' ')))) ++ [')']) =
        p.w2.filter (fun c => c != ' ') ++ '(' :: ((p.w3.filter (fun c => c != ' ') ++ (p.ip ++ '.' :: p.d1 :: p.d2 :: p.w4.filter (fun c => c != ' '))) ++ [')']) from by simp]
      rw [show ((p.w2.filter (fun c => c != ' ') ++ '(' :: ((p.w3.filter (fun c => c != ' ') ++ (p.ip ++ '.' :: p.d1 :: p.d2 :: p.w4.filter (fun c => c != ' '))) ++ [')'])).filter (fun c => c != ',')) =
        p.w2.filter (fun c => c != ' ') ++ '(' :: (((p.w3.filter (fun c => c != ' ') ++ (p.ip ++ '.' :: p.d1 :: p.d2 :: p.w4.filter (fun c => c != ' '))) ++ [')']).filter (fun c => c != ',')) from by
        rw [List.filter_append, filter_comma_ws _ hu2, List.filter_cons_of_pos (by decide)]]
      rw [wshead_beq_false _ _ hu2 '.' (by decide) (by
        simp only [List.head?_cons]
        decide)]
      simp only [Bool.false_eq_true, if_false]
      rw [pyDecimal_none_of_ws_head (p.w2.filter (fun c => c != ' ')) '(' _ hu2 (by decide) (by decide) (by decide)
        (by decide) (by decide)]
      simp
    | cons c1 t1 =>
      have hc1 : ∀ c ∈ (c1 :: t1), pyIsWs c = true := by
        rw [← hu1e]
        exact hu1
      have hc1w : pyIsWs c1 = true := hc1 c1 (by simp)
      have hc1ne : ∀ x : Char, pyIsWs x = false →
          ((some c1 : Option Char) == some x) = false :=
        fun x hx => beq_some_false_of_ne c1 x (fun he => by
          rw [he, hx] at hc1w
          exact absurd hc1w (by simp))
      rw [show ('+' :: ((c1 :: t1) ++ '$' :: (p.w2.filter (fun c => c != ' ') ++ '(' :: (p.w3.filter (fun c => c != ' ') ++ (p.ip ++ '.' :: p.d1 :: p.d2 :: (p.w4.filter (fun c => c != ' ') ++ [')'])))))) =
        '+' :: (((c1 :: t1) ++ '$' :: (p.w2.filter (fun c => c != ' ') ++ '(' :: (p.w3.filter (fun c => c != ' ') ++ (p.ip ++ '.' :: p.d1 :: p.d2 :: p.w4.filter (fun c => c != ' '))))) ++ [')']) from by simp]
      rw [pyStrip_self_rparen '+' ((c1 :: t1) ++ '$' :: (p.w2.filter (fun c => c != ' ') ++ '(' :: (p.w3.filter (fun c => c != ' ') ++ (p.ip ++ '.' :: p.d1 :: p.d2 :: p.w4.filter (fun c => c != ' '))))) (by decide)]
      unfold amountCore
      simp only [List.head?_cons,
        show ((some '+' : Option Char) == some '(') = false from by decide,
        Bool.false_and, Bool.false_eq_true, if_false,
        show ((some '+' : Option Char) == some '+') = true from by decide,
        show ((some '-' : Option Char) == some '+') = false from by decide,
        show ((some '-' : Option Char) == some '-') = true from by decide,
        if_true, if_false, List.tail_cons]
      rw [show (((c1 :: t1) ++ '$' :: (p.w2.filter (fun c => c != ' ') ++ '(' :: (p.w3.filter (fun c => c != ' ') ++ (p.ip ++ '.' :: p.d1 :: p.d2 :: p.w4.filter (fun c => c != ' '))))) ++ [')']) =
        (c1 :: t1) ++ '$' :: (p.w2.filter (fun c => c != ' ') ++ '(' :: ((p.w3.filter (fun c => c != ' ') ++ (p.ip ++ '.' :: p.d1 :: p.d2 :: p.w4.filter (fun c => c != ' '))) ++ [')'])) from by simp]
      rw [show (((c1 :: t1) ++ '$' :: (p.w2.filter (fun c => c != ' ') ++ '(' :: ((p.w3.filter (fun c => c != ' ') ++ (p.ip ++ '.' :: p.d1 :: p.d2 :: p.w4.filter (fun c => c != ' '))) ++ [')']))).head? == some '$') = false from by
        simp only [List.cons_append, List.head?_cons]
        exact hc1ne '$' (by decide)]
      simp only [Bool.false_eq_true, if_false]
      rw [show (((c1 :: t1) ++ '$' :: (p.w2.filter (fun c => c != ' ') ++ '(' :: ((p.w3.filter (fun c => c != ' ') ++ (p.ip ++ '.' :: p.d1 :: p.d2 :: p.w4.filter (fun c => c != ' '))) ++ [')']))).filter (fun c => c != ',')) =
        (c1 :: t1) ++ '$' :: (((p.w2.filter (fun c => c != ' ') ++ '(' :: ((p.w3.filter (fun c => c != ' ') ++ (p.ip ++ '.' :: p.d1 :: p.d2 :: p.w4.filter (fun c => c != ' '))) ++ [')']))).filter (fun c => c != ',')) from by
        rw [List.filter_append, filter_comma_ws _ hc1, List.filter_cons_of_pos (by decide)]]
      rw [show (((c1 :: t1) ++ '$' :: (((p.w2.filter (fun c => c != ' ') ++ '(' :: ((p.w3.filter (fun c => c != ' ') ++ (p.ip ++ '.' :: p.d1 :: p.d2 :: p.w4.filter (fun c => c != ' '))) ++ [')']))).filter (fun c => c != ','))).head? == some '.') = false from by
        simp only [List.cons_append, List.head?_cons]
        exact hc1ne '.' (by decide)]
      simp only [Bool.false_eq_true, if_false]
      rw [pyDecimal_none_of_ws_head (c1 :: t1) '$' _ hc1 (by decide) (by decide) (by decide)
        (by decide) (by decide)]
      simp
  · -- sign outside parens, dol = []
    rw [if_neg (by simp)]
    rw [show ('-' :: (p.w1.filter (fun c => c != ' ') ++ (p.w2.filter (fun c => c != ' ') ++ '(' :: (p.w3.filter (fun c => c != ' ') ++ (p.ip ++ '.' :: p.d1 :: p.d2 :: (p.w4.filter (fun c => c != ' ') ++ [')'])))))) =
      '-' :: (((p.w1.filter (fun c => c != ' ') ++ p.w2.filter (fun c => c != ' ')) ++ '(' :: (p.w3.filter (fun c => c != ' ') ++ (p.ip ++ '.' :: p.d1 :: p.d2 :: p.w4.filter (fun c => c != ' ')))) ++ [')']) from by simp]
    rw [pyStrip_self_rparen '-' ((p.w1.filter (fun c => c != ' ') ++ p.w2.filter (fun c => c != ' ')) ++ '(' :: (p.w3.filter (fun c => c != ' ') ++ (p.ip ++ '.' :: p.d1 :: p.d2 :: p.w4.filter (fun c => c != ' ')))) (by decide)]
    unfold amountCore
    simp only [List.head?_cons,
      show ((some '-' : Option Char) == some '(') = false from by decide,
      Bool.false_and, Bool.false_eq_true, if_false,
      show ((some '+' : Option Char) == some '+') = true from by decide,
      show ((some '-' : Option Char) == some '+') = false from by decide,
      show ((some '-' : Option Char) == some '-') = true from by decide,
      if_true, if_false, List.tail_cons]
    rw [show (((p.w1.filter (fun c => c != ' ') ++ p.w2.filter (fun c => c != ' ')) ++ '(' :: (p.w3.filter (fun c => c != ' ') ++ (p.ip ++ '.' :: p.d1 :: p.d2 :: p.w4.filter (fun c => c != ' ')))) ++ [')']) =
      (p.w1.filter (fun c => c != ' ') ++ p.w2.filter (fun c => c != ' ')) ++ '(' :: ((p.w3.filter (fun c => c != ' ') ++ (p.ip ++ '.' :: p.d1 :: p.d2 :: p.w4.filter (fun c => c != ' '))) ++ [')']) from by simp]
    rw [wshead_beq_false _ _ hu12 '$' (by decide) (by
      simp only [List.head?_cons]
      decide)]
    simp only [Bool.false_eq_true, if_false]
    rw [show (((p.w1.filter (fun c => c != ' ') ++ p.w2.filter (fun c => c != ' ')) ++ '(' :: ((p.w3.filter (fun c => c != ' ') ++ (p.ip ++ '.' :: p.d1 :: p.d2 :: p.w4.filter (fun c => c != ' '))) ++ [')'])).filter (fun c => c != ',')) =
      (p.w1.filter (fun c => c != ' ') ++ p.w2.filter (fun c => c != ' ')) ++ '(' :: (((p.w3.filter (fun c => c != ' ') ++ (p.ip ++ '.' :: p.d1 :: p.d2 :: p.w4.filter (fun c => c != ' '))) ++ [')']).filter (fun c => c != ',')) from by
      rw [List.filter_append, filter_comma_ws _ hu12, List.filter_cons_of_pos (by decide)]]
    rw [wshead_beq_false _ _ hu12 '.' (by decide) (by
      simp only [List.head?_cons]
      decide)]
    simp only [Bool.false_eq_true, if_false]
    rw [pyDecimal_none_of_ws_head (p.w1.filter (fun c => c != ' ') ++ p.w2.filter (fun c => c != ' ')) '(' _ hu12 (by decide) (by decide) (by decide)
      (by decide) (by decide)]
    simp
  · -- sign and currency outside parens
    rw [if_neg (by simp)]
    cases hu1e : p.w1.filter (fun c => c != ' ') with
    | nil =>
      simp only [List.nil_append]
      rw [show ('-' :: '$' :: (p.w2.filter (fun c => c != ' ') ++ '(' :: (p.w3.filter (fun c => c != ' ') ++ (p.ip ++ '.' :: p.d1 :: p.d2 :: (p.w4.filter (fun c => c != ' ') ++ [')']))))) =
        '-' :: (('$' :: (p.w2.filter (fun c => c != ' ') ++ '(' :: (p.w3.filter (fun c => c != ' ') ++ (p.ip ++ '.' :: p.d1 :: p.d2 :: p.w4.filter (fun c => c != ' '))))) ++ [')']) from by simp]
      rw [pyStrip_self_rparen '-' ('$' :: (p.w2.filter (fun c => c != ' ') ++ '(' :: (p.w3.filter (fun c => c != ' ') ++ (p.ip ++ '.' :: p.d1 :: p.d2 :: p.w4.filter (fun c => c != ' '))))) (by decide)]
      unfold amountCore
      simp only [List.cons_append, List.head?_cons,
        show ((some '-' : Option Char) == some '(') = false from by decide,
        Bool.false_and, Bool.false_eq_true, if_false,
        show ((some '+' : Option Char) == some '+') = true from by decide,
        show ((some '-' : Option Char) == some '+') = false from by decide,
        show ((some '-' : Option Char) == some '-') = true from by decide,
        if_true, if_false, List.tail_cons,
        show ((some '$' : Option Char) == some '$') = true from by decide]
      rw [show ((p.w2.filter (fun c => c != ' ') ++ '(' :: (p.w3.filter (fun c => c != ' ') ++ (p.ip ++ '.' :: p.d1 :: p.d2 :: p.w4.filter (fun c => c != ' ')))) ++ [')']) =
        p.w2.filter (fun c => c != ' ') ++ '(' :: ((p.w3.filter (fun c => c != ' ') ++ (p.ip ++ '.' :: p.d1 :: p.d2 :: p.w4.filter (fun c => c != ' '))) ++ [')']) from by simp]
      rw [show ((p.w2.filter (fun c => c != ' ') ++ '(' :: ((p.w3.filter (fun c => c != ' ') ++ (p.ip ++ '.' :: p.d1 :: p.d2 :: p.w4.filter (fun c => c != ' '))) ++ [')'])).filter (fun c => c != ',')) =
        p.w2.filter (fun c => c != ' ') ++ '(' :: (((p.w3.filter (fun c => c != ' ') ++ (p.ip ++ '.' :: p.d1 :: p.d2 :: p.w4.filter (fun c => c != ' '))) ++ [')']).filter (fun c => c != ',')) from by
        rw [List.filter_append, filter_comma_ws _ hu2, List.filter_cons_of_pos (by decide)]]
      rw [wshead_beq_false _ _ hu2 '.' (by decide) (by
        simp only [List.head?_cons]
        decide)]
      simp only [Bool.false_eq_true, if_false]
      rw [pyDecimal_none_of_ws_head (p.w2.filter (fun c => c != ' ')) '(' _ hu2 (by decide) (by decide) (by decide)
        (by decide) (by decide)]
      simp
    | cons c1 t1 =>
      have hc1 : ∀ c ∈ (c1 :: t1), pyIsWs c = true := by
        rw [← hu1e]
        exact hu1
      have hc1w : pyIsWs c1 = true := hc1 c1 (by simp)
      have hc1ne : ∀ x : Char, pyIsWs x = false →
          ((some c1 : Option Char) == some x) = false :=
        fun x hx => beq_some_false_of_ne c1 x (fun he => by
          rw [he, hx] at hc1w
          exact absurd hc1w (by simp))
      rw [show ('-' :: ((c1 :: t1) ++ '$' :: (p.w2.filter (fun c => c != ' ') ++ '(' :: (p.w3.filter (fun c => c != ' ') ++ (p.ip ++ '.' :: p.d1 :: p.d2 :: (p.w4.filter (fun c => c != ' ') ++ [')'])))))) =
        '-' :: (((c1 :: t1) ++ '$' :: (p.w2.filter (fun c => c != ' ') ++ '(' :: (p.w3.filter (fun c => c != ' ') ++ (p.ip ++ '.' :: p.d1 :: p.d2 :: p.w4.filter (fun c => c != ' '))))) ++ [')']) from by simp]
      rw [pyStrip_self_rparen '-' ((c1 :: t1) ++ '$' :: (p.w2.filter (fun c => c != ' ') ++ '(' :: (p.w3.filter (fun c => c != ' ') ++ (p.ip ++ '.' :: p.d1 :: p.d2 :: p.w4.filter (fun c => c != ' '))))) (by decide)]
      unfold amountCore
      simp only [List.head?_cons,
        show ((some '-' : Option Char) == some '(') = false from by decide,
        Bool.false_and, Bool.false_eq_true, if_false,
        show ((some '+' : Option Char) == some '+') = true from by decide,
        show ((some '-' : Option Char) == some '+') = false from by decide,
        show ((some '-' : Option Char) == some '-') = true from by decide,
        if_true, if_false, List.tail_cons]
      rw [show (((c1 :: t1) ++ '$' :: (p.w2.filter (fun c => c != ' ') ++ '(' :: (p.w3.filter (fun c => c != ' ') ++ (p.ip ++ '.' :: p.d1 :: p.d2 :: p.w4.filter (fun c => c != ' '))))) ++ [')']) =
        (c1 :: t1) ++ '$' :: (p.w2.filter (fun c => c != ' ') ++ '(' :: ((p.w3.filter (fun c => c != ' ') ++ (p.ip ++ '.' :: p.d1 :: p.d2 :: p.w4.filter (fun c => c != ' '))) ++ [')'])) from by simp]
      rw [show (((c1 :: t1) ++ '$' :: (p.w2.filter (fun c => c != ' ') ++ '(' :: ((p.w3.filter (fun c => c != ' ') ++ (p.ip ++ '.' :: p.d1 :: p.d2 :: p.w4.filter (fun c => c != ' '))) ++ [')']))).head? == some '$') = false from by
        simp only [List.cons_append, List.head?_cons]
        exact hc1ne '$' (by decide)]
      simp only [Bool.false_eq_true, if_false]
      rw [show (((c1 :: t1) ++ '$' :: (p.w2.filter (fun c => c != ' ') ++ '(' :: ((p.w3.filter (fun c => c != ' ') ++ (p.ip ++ '.' :: p.d1 :: p.d2 :: p.w4.filter (fun c => c != ' '))) ++ [')']))).filter (fun c => c != ',')) =
        (c1 :: t1) ++ '$' :: (((p.w2.filter (fun c => c != ' ') ++ '(' :: ((p.w3.filter (fun c => c != ' ') ++ (p.ip ++ '.' :: p.d1 :: p.d2 :: p.w4.filter (fun c => c != ' '))) ++ [')']))).filter (fun c => c != ',')) from by
        rw [List.filter_append, filter_comma_ws _ hc1, List.filter_cons_of_pos (by decide)]]
      rw [show (((c1 :: t1) ++ '$' :: (((p.w2.filter (fun c => c != ' ') ++ '(' :: ((p.w3.filter (fun c => c != ' ') ++ (p.ip ++ '.' :: p.d1 :: p.d2 :: p.w4.filter (fun c => c != ' '))) ++ [')']))).filter (fun c => c != ','))).head? == some '.') = false from by
        simp only [List.cons_append, List.head?_cons]
        exact hc1ne '.' (by decide)]
      simp only [Bool.false_eq_true, if_false]
      rw [pyDecimal_none_of_ws_head (c1 :: t1) '$' _ hc1 (by decide) (by decide) (by decide)
        (by decide) (by decide)]
      simp
  · -- sign outside parens, dol = []
    rw [if_neg (by simp)]
    rw [show ('-' :: (p.w1.filter (fun c => c != ' ') ++ (p.w2.filter (fun c => c != ' ') ++ '(' :: (p.w3.filter (fun c => c != ' ') ++ (p.ip ++ '.' :: p.d1 :: p.d2 :: (p.w4.filter (fun c => c != ' ') ++ [')'])))))) =
      '-' :: (((p.w1.filter (fun c => c != ' ') ++ p.w2.filter (fun c => c != ' ')) ++ '(' :: (p.w3.filter (fun c => c != ' ') ++ (p.ip ++ '.' :: p.d1 :: p.d2 :: p.w4.filter (fun c => c != ' ')))) ++ [')']) from by simp]
    rw [pyStrip_self_rparen '-' ((p.w1.filter (fun c => c != ' ') ++ p.w2.filter (fun c => c != ' ')) ++ '(' :: (p.w3.filter (fun c => c != ' ') ++ (p.ip ++ '.' :: p.d1 :: p.d2 :: p.w4.filter (fun c => c != ' ')))) (by decide)]
    unfold amountCore
    simp only [List.head?_cons,
      show ((some '-' : Option Char) == some '(') = false from by decide,
      Bool.false_and, Bool.false_eq_true, if_false,
      show ((some '+' : Option Char) == some '+') = true from by decide,
      show ((some '-' : Option Char) == some '+') = false from by decide,
      show ((some '-' : Option Char) == some '-') = true from by decide,
      if_true, if_false, List.tail_cons]
    rw [show (((p.w1.filter (fun c => c != ' ') ++ p.w2.filter (fun c => c != ' ')) ++ '(' :: (p.w3.filter (fun c => c != ' ') ++ (p.ip ++ '.' :: p.d1 :: p.d2 :: p.w4.filter (fun c => c != ' ')))) ++ [')']) =
      (p.w1.filter (fun c => c != ' ') ++ p.w2.filter (fun c => c != ' ')) ++ '(' :: ((p.w3.filter (fun c => c != ' ') ++ (p.ip ++ '.' :: p.d1 :: p.d2 :: p.w4.filter (fun c => c != ' '))) ++ [')']) from by simp]
    rw [wshead_beq_false _ _ hu12 '$' (by decide) (by
      simp only [List.head?_cons]
      decide)]
    simp only [Bool.false_eq_true, if_false]
    rw [show (((p.w1.filter (fun c => c != ' ') ++ p.w2.filter (fun c => c != ' ')) ++ '(' :: ((p.w3.filter (fun c => c != ' ') ++ (p.ip ++ '.' :: p.d1 :: p.d2 :: p.w4.filter (fun c => c != ' '))) ++ [')'])).filter (fun c => c != ',')) =
      (p.w1.filter (fun c => c != ' ') ++ p.w2.filter (fun c => c != ' ')) ++ '(' :: (((p.w3.filter (fun c => c != ' ') ++ (p.ip ++ '.' :: p.d1 :: p.d2 :: p.w4.filter (fun c => c != ' '))) ++ [')']).filter (fun c => c != ',')) from by
      rw [List.filter_append, filter_comma_ws _ hu12, List.filter_cons_of_pos (by decide)]]
    rw [wshead_beq_false _ _ hu12 '.' (by decide) (by
      simp only [List.head?_cons]
      decide)]
    simp only [Bool.false_eq_true, if_false]
    rw [pyDecimal_none_of_ws_head (p.w1.filter (fun c => c != ' ') ++ p.w2.filter (fun c => c != ' ')) '(' _ hu12 (by decide) (by decide) (by decide)
      (by decide) (by decide)]
    simp
  · -- sign and currency outside parens
    rw [if_neg (by simp)]
    cases hu1e : p.w1.filter (fun c => c != ' ') with
    | nil =>
      simp only [List.nil_append]
      rw [show ('-' :: '$' :: (p.w2.filter (fun c => c != ' ') ++ '(' :: (p.w3.filter (fun c => c != ' ') ++ (p.ip ++ '.' :: p.d1 :: p.d2 :: (p.w4.filter (fun c => c != ' ') ++ [')']))))) =
        '-' :: (('$' :: (p.w2.filter (fun c => c != ' ') ++ '(' :: (p.w3.filter (fun c => c != ' ') ++ (p.ip ++ '.' :: p.d1 :: p.d2 :: p.w4.filter (fun c => c != ' '))))) ++ [')']) from by simp]
      rw [pyStrip_self_rparen '-' ('$' :: (p.w2.filter (fun c => c != ' ') ++ '(' :: (p.w3.filter (fun c => c != ' ') ++ (p.ip ++ '.' :: p.d1 :: p.d2 :: p.w4.filter (fun c => c != ' '))))) (by decide)]
      unfold amountCore
      simp only [List.cons_append, List.head?_cons,
        show ((some '-' : Option Char) == some '(') = false from by decide,
        Bool.false_and, Bool.false_eq_true, if_false,
        show ((some '+' : Option Char) == some '+') = true from by decide,
        show ((some '-' : Option Char) == some '+') = false from by decide,
        show ((some '-' : Option Char) == some '-') = true from by decide,
        if_true, if_false, List.tail_cons,
        show ((some '$' : Option Char) == some '$') = true from by decide]
      rw [show ((p.w2.filter (fun c => c != ' ') ++ '(' :: (p.w3.filter (fun c => c != ' ') ++ (p.ip ++ '.' :: p.d1 :: p.d2 :: p.w4.filter (fun c => c != ' ')))) ++ [')']) =
        p.w2.filter (fun c => c != ' ') ++ '(' :: ((p.w3.filter (fun c => c != ' ') ++ (p.ip ++ '.' :: p.d1 :: p.d2 :: p.w4.filter (fun c => c != ' '))) ++ [')']) from by simp]
      rw [show ((p.w2.filter (fun c => c != ' ') ++ '(' :: ((p.w3.filter (fun c => c != ' ') ++ (p.ip ++ '.' :: p.d1 :: p.d2 :: p.w4.filter (fun c => c != ' '))) ++ [')'])).filter (fun c => c != ',')) =
        p.w2.filter (fun c => c != ' ') ++ '(' :: (((p.w3.filter (fun c => c != ' ') ++ (p.ip ++ '.' :: p.d1 :: p.d2 :: p.w4.filter (fun c => c != ' '))) ++ [')']).filter (fun c => c != ',')) from by
        rw [List.filter_append, filter_comma_ws _ hu2, List.filter_cons_of_pos (by decide)]]
      rw [wshead_beq_false _ _ hu2 '.' (by decide) (by
        simp only [List.head?_cons]
        decide)]
      simp only [Bool.false_eq_true, if_false]
      rw [pyDecimal_none_of_ws_head (p.w2.filter (fun c => c != ' ')) '(' _ hu2 (by decide) (by decide) (by decide)
        (by decide) (by decide)]
      simp
    | cons c1 t1 =>
      have hc1 : ∀ c ∈ (c1 :: t1), pyIsWs c = true := by
        rw [← hu1e]
        exact hu1
      have hc1w : pyIsWs c1 = true := hc1 c1 (by simp)
      have hc1ne : ∀ x : Char, pyIsWs x = false →
          ((some c1 : Option Char) == some x) = false :=
        fun x hx => beq_some_false_of_ne c1 x (fun he => by
          rw [he, hx] at hc1w
          exact absurd hc1w (by simp))
      rw [show ('-' :: ((c1 :: t1) ++ '$' :: (p.w2.filter (fun c => c != ' ') ++ '(' :: (p.w3.filter (fun c => c != ' ') ++ (p.ip ++ '.' :: p.d1 :: p.d2 :: (p.w4.filter (fun c => c != ' ') ++ [')'])))))) =
        '-' :: (((c1 :: t1) ++ '$' :: (p.w2.filter (fun c => c != ' ') ++ '(' :: (p.w3.filter (fun c => c != ' ') ++ (p.ip ++ '.' :: p.d1 :: p.d2 :: p.w4.filter (fun c => c != ' '))))) ++ [')']) from by simp]
      rw [pyStrip_self_rparen '-' ((c1 :: t1) ++ '$' :: (p.w2.filter (fun c => c != ' ') ++ '(' :: (p.w3.filter (fun c => c != ' ') ++ (p.ip ++ '.' :: p.d1 :: p.d2 :: p.w4.filter (fun c => c != ' '))))) (by decide)]
      unfold amountCore
      simp only [List.head?_cons,
        show ((some '-' : Option Char) == some '(') = false from by decide,
        Bool.false_and, Bool.false_eq_true, if_false,
        show ((some '+' : Option Char) == some '+') = true from by decide,
        show ((some '-' : Option Char) == some '+') = false from by decide,
        show ((some '-' : Option Char) == some '-') = true from by decide,
        if_true, if_false, List.tail_cons]
      rw [show (((c1 :: t1) ++ '$' :: (p.w2.filter (fun c => c != ' ') ++ '(' :: (p.w3.filter (fun c => c != ' ') ++ (p.ip ++ '.' :: p.d1 :: p.d2 :: p.w4.filter (fun c => c != ' '))))) ++ [')']) =
        (c1 :: t1) ++ '$' :: (p.w2.filter (fun c => c != ' ') ++ '(' :: ((p.w3.filter (fun c => c != ' ') ++ (p.ip ++ '.' :: p.d1 :: p.d2 :: p.w4.filter (fun c => c != ' '))) ++ [')'])) from by simp]
      rw [show (((c1 :: t1) ++ '$' :: (p.w2.filter (fun c => c != ' ') ++ '(' :: ((p.w3.filter (fun c => c != ' ') ++ (p.ip ++ '.' :: p.d1 :: p.d2 :: p.w4.filter (fun c => c != ' '))) ++ [')']))).head? == some '$') = false from by
        simp only [List.cons_append, List.head?_cons]
        exact hc1ne '$' (by decide)]
      simp only [Bool.false_eq_true, if_false]
      rw [show (((c1 :: t1) ++ '$' :: (p.w2.filter (fun c => c != ' ') ++ '(' :: ((p.w3.filter (fun c => c != ' ') ++ (p.ip ++ '.' :: p.d1 :: p.d2 :: p.w4.filter (fun c => c != ' '))) ++ [')']))).filter (fun c => c != ',')) =
        (c1 :: t1) ++ '$' :: (((p.w2.filter (fun c => c != ' ') ++ '(' :: ((p.w3.filter (fun c => c != ' ') ++ (p.ip ++ '.' :: p.d1 :: p.d2 :: p.w4.filter (fun c => c != ' '))) ++ [')']))).filter (fun c => c != ',')) from by
        rw [List.filter_append, filter_comma_ws _ hc1, List.filter_cons_of_pos (by decide)]]
      rw [show (((c1 :: t1) ++ '$' :: (((p.w2.filter (fun c => c != ' ') ++ '(' :: ((p.w3.filter (fun c => c != ' ') ++ (p.ip ++ '.' :: p.d1 :: p.d2 :: p.w4.filter (fun c => c != ' '))) ++ [')']))).filter (fun c => c != ','))).head? == some '.') = false from by
        simp only [List.cons_append, List.head?_cons]
        exact hc1ne '.' (by decide)]
      simp only [Bool.false_eq_true, if_false]
      rw [pyDecimal_none_of_ws_head (c1 :: t1) '$' _ hc1 (by decide) (by decide) (by decide)
        (by decide) (by decide)]
      simp

/-- `_amount_to_decimal` fails on every token with an opening parenthesis
and no closing one, for arbitrary whitespace gaps. -/
lemma amountToDecimal_openparen_eval (p : AmtParts) (hwf : p.WF)
    (hpo : p.po = ['(']) (hpc : p.pc = []) :
    amountToDecimal p.render = none := by
  have hd1 := hwf.2.2.2.2.2.2.1
  have hd2 := hwf.2.2.2.2.2.2.2
  have hgap : ∀ c ∈ p.w1 ++ p.w2 ++ p.w3 ++ p.w4, pyIsWs c = true :=
    fun c hc => List.all_eq_true.mp hwf.2.2.2.2.1 c hc
  have hu1 : ∀ c ∈ p.w1.filter (fun c => c != ' '), pyIsWs c = true :=
    fun c hc => hgap c (by have := List.mem_of_mem_filter hc; simp [this])
  have hu2 : ∀ c ∈ p.w2.filter (fun c => c != ' '), pyIsWs c = true :=
    fun c hc => hgap c (by have := List.mem_of_mem_filter hc; simp [this])
  have hu3 : ∀ c ∈ p.w3.filter (fun c => c != ' '), pyIsWs c = true :=
    fun c hc => hgap c (by have := List.mem_of_mem_filter hc; simp [this])
  have hu4 : ∀ c ∈ p.w4.filter (fun c => c != ' '), pyIsWs c = true :=
    fun c hc => hgap c (by have := List.mem_of_mem_filter hc; simp [this])
  have hu12 : ∀ c ∈ p.w1.filter (fun c => c != ' ') ++ p.w2.filter (fun c => c != ' '), pyIsWs c = true := by
    intro c hc
    rcases List.mem_append.mp hc with h | h
    exacts [hu1 c h, hu2 c h]
  have hu23 : ∀ c ∈ p.w2.filter (fun c => c != ' ') ++ p.w3.filter (fun c => c != ' '), pyIsWs c = true := by
    intro c hc
    rcases List.mem_append.mp hc with h | h
    exacts [hu2 c h, hu3 c h]
  have hu123 : ∀ c ∈ p.w1.filter (fun c => c != ' ') ++ p.w2.filter (fun c => c != ' ') ++ p.w3.filter (fun c => c != ' '), pyIsWs c = true := by
    intro c hc
    rcases List.mem_append.mp hc with h | h
    · rcases List.mem_append.mp h with h2 | h2
      exacts [hu1 c h2, hu2 c h2]
    · exact hu3 c h
  have hends : ∀ (x : Char) (M : List Char), pyIsWs x = false →
      pyStrip (x :: (M ++ (p.ip ++ '.' :: p.d1 :: p.d2 :: ([] : List Char)))) = x :: (M ++ (p.ip ++ '.' :: p.d1 :: p.d2 :: ([] : List Char))) := by
    intro x M hx
    refine pyStrip_eq_self_of_ends _ (fun c hc => ?_) (fun c hc => ?_)
    · simp only [List.head?_cons] at hc
      rw [← (Option.some.injEq _ _).mp hc]
      exact hx
    · rw [show (x :: (M ++ (p.ip ++ '.' :: p.d1 :: p.d2 :: ([] : List Char)))) =
        (x :: (M ++ p.ip)) ++ '.' :: p.d1 :: p.d2 :: ([] : List Char) from by simp,
        getLast_core_nil] at hc
      rw [← (Option.some.injEq _ _).mp hc]
      exact isDigit_not_ws _ hd2
  rw [amountToDecimal, cleanAmt_strip_last, filter_space_render p hwf, hpo, hpc]
  rcases hwf.1 with hs | hs | hs | hs <;> rcases hwf.2.1 with hdol | hdol <;>
    rw [hs, hdol] <;>
    simp only [List.map_cons, List.map_nil, mapMinus_plus, mapMinus_hyph, mapMinus_uni,
      List.nil_append, List.cons_append, List.append_nil, List.append_assoc]
  · -- sgn = [], dol = []
    rw [show (p.w1.filter (fun c => c != ' ') ++ (p.w2.filter (fun c => c != ' ') ++ '(' :: (p.w3.filter (fun c => c != ' ') ++ (p.ip ++ '.' :: p.d1 :: p.d2 :: p.w4.filter (fun c => c != ' '))))) =
      ((p.w1.filter (fun c => c != ' ') ++ p.w2.filter (fun c => c != ' ')) ++ ('(' :: (p.w3.filter (fun c => c != ' ') ++ (p.ip ++ '.' :: p.d1 :: p.d2 :: ([] : List Char))))) ++ p.w4.filter (fun c => c != ' ') from by simp]
    rw [pyStrip_ws_suffix _ _ hu4, pyStrip_ws_front _ _ hu12,
      hends '(' (p.w3.filter (fun c => c != ' ')) (by decide)]
    unfold amountCore
    have hlast : (('(' :: (p.w3.filter (fun c => c != ' ') ++ (p.ip ++ '.' :: p.d1 :: p.d2 :: ([] : List Char)))).getLast? == some ')') = false := by
      rw [show ('(' :: (p.w3.filter (fun c => c != ' ') ++ (p.ip ++ '.' :: p.d1 :: p.d2 :: ([] : List Char)))) =
        ('(' :: (p.w3.filter (fun c => c != ' ') ++ p.ip)) ++ '.' :: p.d1 :: p.d2 :: ([] : List Char) from by simp,
        getLast_core_nil]
      exact digit_head_not p.d2 ')' hd2 (by decide)
    simp only [List.head?_cons,
      show ((some '(' : Option Char) == some '(') = true from by decide,
      hlast, Bool.and_false, Bool.true_and, Bool.false_eq_true, if_false,
      show ((some '(' : Option Char) == some '+') = false from by decide,
      show ((some '(' : Option Char) == some '-') = false from by decide,
      show ((some '(' : Option Char) == some '$') = false from by decide]
    rw [show (List.filter (fun c => c != ',') ('(' :: (p.w3.filter (fun c => c != ' ') ++ (p.ip ++ '.' :: p.d1 :: p.d2 :: ([] : List Char))))) =
      '(' :: List.filter (fun c => c != ',') (p.w3.filter (fun c => c != ' ') ++ (p.ip ++ '.' :: p.d1 :: p.d2 :: ([] : List Char))) from by
      rw [List.filter_cons_of_pos (by decide)]]
    simp only [List.head?_cons,
      show ((some '(' : Option Char) == some '.') = false from by decide,
      Bool.false_eq_true, if_false]
    rw [pyDecimal_none_of_head '(' _ (by decide) (by decide) (by decide) (by decide) (by decide)]
    simp
  · -- sgn = [], dol = ['$']
    rw [show (p.w1.filter (fun c => c != ' ') ++ '$' :: (p.w2.filter (fun c => c != ' ') ++ '(' :: (p.w3.filter (fun c => c != ' ') ++ (p.ip ++ '.' :: p.d1 :: p.d2 :: p.w4.filter (fun c => c != ' '))))) =
      (p.w1.filter (fun c => c != ' ') ++ ('$' :: ((p.w2.filter (fun c => c != ' ') ++ '(' :: p.w3.filter (fun c => c != ' ')) ++ (p.ip ++ '.' :: p.d1 :: p.d2 :: ([] : List Char))))) ++ p.w4.filter (fun c => c != ' ') from by simp]
    rw [pyStrip_ws_suffix _ _ hu4, pyStrip_ws_front _ _ hu1,
      hends '$' (p.w2.filter (fun c => c != ' ') ++ '(' :: p.w3.filter (fun c => c != ' ')) (by decide)]
    unfold amountCore
    simp only [List.head?_cons,
      show ((some '$' : Option Char) == some '(') = false from by decide,
      Bool.false_and, Bool.false_eq_true, if_false,
      show ((some '$' : Option Char) == some '+') = false from by decide,
      show ((some '$' : Option Char) == some '-') = false from by decide,
      show ((some '$' : Option Char) == some '$') = true from by decide,
      if_true, List.tail_cons]
    rw [show ((p.w2.filter (fun c => c != ' ') ++ '(' :: p.w3.filter (fun c => c != ' ')) ++ (p.ip ++ '.' :: p.d1 :: p.d2 :: ([] : List Char))) =
      p.w2.filter (fun c => c != ' ') ++ '(' :: (p.w3.filter (fun c => c != ' ') ++ (p.ip ++ '.' :: p.d1 :: p.d2 :: ([] : List Char))) from by simp]
    rw [show ((p.w2.filter (fun c => c != ' ') ++ '(' :: (p.w3.filter (fun c => c != ' ') ++ (p.ip ++ '.' :: p.d1 :: p.d2 :: ([] : List Char)))).filter (fun c => c != ',')) =
      p.w2.filter (fun c => c != ' ') ++ '(' :: ((p.w3.filter (fun c => c != ' ') ++ (p.ip ++ '.' :: p.d1 :: p.d2 :: ([] : List Char))).filter (fun c => c != ',')) from by
      rw [List.filter_append, filter_comma_ws _ hu2, List.filter_cons_of_pos (by decide)]]
    rw [wshead_beq_false _ _ hu2 '.' (by decide) (by
      simp only [List.head?_cons]
      decide)]
    simp only [Bool.false_eq_true, if_false]
    rw [pyDecimal_none_of_ws_head (p.w2.filter (fun c => c != ' ')) '(' _ hu2 (by decide) (by decide) (by decide)
      (by decide) (by decide)]
    simp
  · -- sign, dol = []
    rw [show ('+' :: (p.w1.filter (fun c => c != ' ') ++ (p.w2.filter (fun c => c != ' ') ++ '(' :: (p.w3.filter (fun c => c != ' ') ++ (p.ip ++ '.' :: p.d1 :: p.d2 :: p.w4.filter (fun c => c != ' ')))))) =
      ('+' :: (((p.w1.filter (fun c => c != ' ') ++ p.w2.filter (fun c => c != ' ')) ++ '(' :: p.w3.filter (fun c => c != ' ')) ++ (p.ip ++ '.' :: p.d1 :: p.d2 :: ([] : List Char)))) ++ p.w4.filter (fun c => c != ' ') from by simp]
    rw [pyStrip_ws_suffix _ _ hu4,
      hends '+' ((p.w1.filter (fun c => c != ' ') ++ p.w2.filter (fun c => c != ' ')) ++ '(' :: p.w3.filter (fun c => c != ' ')) (by decide)]
    unfold amountCore
    simp only [List.head?_cons,
      show ((some '+' : Option Char) == some '(') = false from by decide,
      Bool.false_and, Bool.false_eq_true, if_false,
      show ((some '+' : Option Char) == some '+') = true from by decide,
      show ((some '-' : Option Char) == some '+') = false from by decide,
      show ((some '-' : Option Char) == some '-') = true from by decide,
      if_true, if_false, List.tail_cons]
    rw [show (((p.w1.filter (fun c => c != ' ') ++ p.w2.filter (fun c => c != ' ')) ++ '(' :: p.w3.filter (fun c => c != ' ')) ++ (p.ip ++ '.' :: p.d1 :: p.d2 :: ([] : List Char))) =
      (p.w1.filter (fun c => c != ' ') ++ p.w2.filter (fun c => c != ' ')) ++ '(' :: (p.w3.filter (fun c => c != ' ') ++ (p.ip ++ '.' :: p.d1 :: p.d2 :: ([] : List Char))) from by simp]
    rw [wshead_beq_false _ _ hu12 '$' (by decide) (by
      simp only [List.head?_cons]
      decide)]
    simp only [Bool.false_eq_true, if_false]
    rw [show (((p.w1.filter (fun c => c != ' ') ++ p.w2.filter (fun c => c != ' ')) ++ '(' :: (p.w3.filter (fun c => c != ' ') ++ (p.ip ++ '.' :: p.d1 :: p.d2 :: ([] : List Char)))).filter (fun c => c != ',')) =
      (p.w1.filter (fun c => c != ' ') ++ p.w2.filter (fun c => c != ' ')) ++ '(' :: ((p.w3.filter (fun c => c != ' ') ++ (p.ip ++ '.' :: p.d1 :: p.d2 :: ([] : List Char))).filter (fun c => c != ',')) from by
      rw [List.filter_append, filter_comma_ws _ hu12, List.filter_cons_of_pos (by decide)]]
    rw [wshead_beq_false _ _ hu12 '.' (by decide) (by
      simp only [List.head?_cons]
      decide)]
    simp only [Bool.false_eq_true, if_false]
    rw [pyDecimal_none_of_ws_head (p.w1.filter (fun c => c != ' ') ++ p.w2.filter (fun c => c != ' ')) '(' _ hu12 (by decide) (by decide) (by decide)
      (by decide) (by decide)]
    simp
  · -- sign, dol = ['$']
    cases hu1e : p.w1.filter (fun c => c != ' ') with
    | nil =>
      simp only [List.nil_append]
      rw [show ('+' :: '$' :: (p.w2.filter (fun c => c != ' ') ++ '(' :: (p.w3.filter (fun c => c != ' ') ++ (p.ip ++ '.' :: p.d1 :: p.d2 :: p.w4.filter (fun c => c != ' '))))) =
        ('+' :: (('$' :: (p.w2.filter (fun c => c != ' ') ++ '(' :: p.w3.filter (fun c => c != ' '))) ++ (p.ip ++ '.' :: p.d1 :: p.d2 :: ([] : List Char)))) ++ p.w4.filter (fun c => c != ' ') from by simp]
      rw [pyStrip_ws_suffix _ _ hu4,
        hends '+' ('$' :: (p.w2.filter (fun c => c != ' ') ++ '(' :: p.w3.filter (fun c => c != ' '))) (by decide)]
      unfold amountCore
      simp only [List.cons_append, List.head?_cons,
        show ((some '+' : Option Char) == some '(') = false from by decide,
        Bool.false_and, Bool.false_eq_true, if_false,
        show ((some '+' : Option Char) == some '+') = true from by decide,
        show ((some '-' : Option Char) == some '+') = false from by decide,
        show ((some '-' : Option Char) == some '-') = true from by decide,
        if_true, if_false, List.tail_cons,
        show ((some '$' : Option Char) == some '$') = true from by decide]
      rw [show ((p.w2.filter (fun c => c != ' ') ++ '(' :: p.w3.filter (fun c => c != ' ')) ++ (p.ip ++ '.' :: p.d1 :: p.d2 :: ([] : List Char))) =
        p.w2.filter (fun c => c != ' ') ++ '(' :: (p.w3.filter (fun c => c != ' ') ++ (p.ip ++ '.' :: p.d1 :: p.d2 :: ([] : List Char))) from by simp]
      rw [show ((p.w2.filter (fun c => c != ' ') ++ '(' :: (p.w3.filter (fun c => c != ' ') ++ (p.ip ++ '.' :: p.d1 :: p.d2 :: ([] : List Char)))).filter (fun c => c != ',')) =
        p.w2.filter (fun c => c != ' ') ++ '(' :: ((p.w3.filter (fun c => c != ' ') ++ (p.ip ++ '.' :: p.d1 :: p.d2 :: ([] : List Char))).filter (fun c => c != ',')) from by
        rw [List.filter_append, filter_comma_ws _ hu2, List.filter_cons_of_pos (by decide)]]
      rw [wshead_beq_false _ _ hu2 '.' (by decide) (by
        simp only [List.head?_cons]
        decide)]
      simp only [Bool.false_eq_true, if_false]
      rw [pyDecimal_none_of_ws_head (p.w2.filter (fun c => c != ' ')) '(' _ hu2 (by decide) (by decide) (by decide)
        (by decide) (by decide)]
      simp
    | cons c1 t1 =>
      have hc1 : ∀ c ∈ (c1 :: t1), pyIsWs c = true := by
        rw [← hu1e]
        exact hu1
      have hc1w : pyIsWs c1 = true := hc1 c1 (by simp)
      have hc1ne : ∀ x : Char, pyIsWs x = false →
          ((some c1 : Option Char) == some x) = false :=
        fun x hx => beq_some_false_of_ne c1 x (fun he => by
          rw [he, hx] at hc1w
          exact absurd hc1w (by simp))
      rw [show ('+' :: ((c1 :: t1) ++ '$' :: (p.w2.filter (fun c => c != ' ') ++ '(' :: (p.w3.filter (fun c => c != ' ') ++ (p.ip ++ '.' :: p.d1 :: p.d2 :: p.w4.filter (fun c => c != ' ')))))) =
        ('+' :: (((c1 :: t1) ++ '$' :: (p.w2.filter (fun c => c != ' ') ++ '(' :: p.w3.filter (fun c => c != ' '))) ++ (p.ip ++ '.' :: p.d1 :: p.d2 :: ([] : List Char)))) ++ p.w4.filter (fun c => c != ' ') from by simp]
      rw [pyStrip_ws_suffix _ _ hu4,
        hends '+' ((c1 :: t1) ++ '$' :: (p.w2.filter (fun c => c != ' ') ++ '(' :: p.w3.filter (fun c => c != ' '))) (by decide)]
      unfold amountCore
      simp only [List.head?_cons,
        show ((some '+' : Option Char) == some '(') = false from by decide,
        Bool.false_and, Bool.false_eq_true, if_false,
        show ((some '+' : Option Char) == some '+') = true from by decide,
        show ((some '-' : Option Char) == some '+') = false from by decide,
        show ((some '-' : Option Char) == some '-') = true from by decide,
        if_true, if_false, List.tail_cons]
      rw [show (((c1 :: t1) ++ '$' :: (p.w2.filter (fun c => c != ' ') ++ '(' :: p.w3.filter (fun c => c != ' '))) ++ (p.ip ++ '.' :: p.d1 :: p.d2 :: ([] : List Char))) =
        (c1 :: t1) ++ '$' :: (p.w2.filter (fun c => c != ' ') ++ '(' :: (p.w3.filter (fun c => c != ' ') ++ (p.ip ++ '.' :: p.d1 :: p.d2 :: ([] : List Char)))) from by simp]
      rw [show (((c1 :: t1) ++ '$' :: (p.w2.filter (fun c => c != ' ') ++ '(' :: (p.w3.filter (fun c => c != ' ') ++ (p.ip ++ '.' :: p.d1 :: p.d2 :: ([] : List Char))))).head? == some '$') = false from by
        simp only [List.cons_append, List.head?_cons]
        exact hc1ne '$' (by decide)]
      simp only [Bool.false_eq_true, if_false]
      rw [show (((c1 :: t1) ++ '$' :: (p.w2.filter (fun c => c != ' ') ++ '(' :: (p.w3.filter (fun c => c != ' ') ++ (p.ip ++ '.' :: p.d1 :: p.d2 :: ([] : List Char))))).filter (fun c => c != ',')) =
        (c1 :: t1) ++ '$' :: ((p.w2.filter (fun c => c != ' ') ++ '(' :: (p.w3.filter (fun c => c != ' ') ++ (p.ip ++ '.' :: p.d1 :: p.d2 :: ([] : List Char)))).filter (fun c => c != ',')) from by
        rw [List.filter_append, filter_comma_ws _ hc1, List.filter_cons_of_pos (by decide)]]
      rw [show (((c1 :: t1) ++ '$' :: ((p.w2.filter (fun c => c != ' ') ++ '(' :: (p.w3.filter (fun c => c != ' ') ++ (p.ip ++ '.' :: p.d1 :: p.d2 :: ([] : List Char)))).filter (fun c => c != ','))).head? == some '.') = false from by
        simp only [List.cons_append, List.head?_cons]
        exact hc1ne '.' (by decide)]
      simp only [Bool.false_eq_true, if_false]
      rw [pyDecimal_none_of_ws_head (c1 :: t1) '$' _ hc1 (by decide) (by decide) (by decide)
        (by decide) (by decide)]
      simp
  · -- sign, dol = []
    rw [show ('-' :: (p.w1.filter (fun c => c != ' ') ++ (p.w2.filter (fun c => c != ' ') ++ '(' :: (p.w3.filter (fun c => c != ' ') ++ (p.ip ++ '.' :: p.d1 :: p.d2 :: p.w4.filter (fun c => c != ' ')))))) =
      ('-' :: (((p.w1.filter (fun c => c != ' ') ++ p.w2.filter (fun c => c != ' ')) ++ '(' :: p.w3.filter (fun c => c != ' ')) ++ (p.ip ++ '.' :: p.d1 :: p.d2 :: ([] : List Char)))) ++ p.w4.filter (fun c => c != ' ') from by simp]
    rw [pyStrip_ws_suffix _ _ hu4,
      hends '-' ((p.w1.filter (fun c => c != ' ') ++ p.w2.filter (fun c => c != ' ')) ++ '(' :: p.w3.filter (fun c => c != ' ')) (by decide)]
    unfold amountCore
    simp only [List.head?_cons,
      show ((some '-' : Option Char) == some '(') = false from by decide,
      Bool.false_and, Bool.false_eq_true, if_false,
      show ((some '+' : Option Char) == some '+') = true from by decide,
      show ((some '-' : Option Char) == some '+') = false from by decide,
      show ((some '-' : Option Char) == some '-') = true from by decide,
      if_true, if_false, List.tail_cons]
    rw [show (((p.w1.filter (fun c => c != ' ') ++ p.w2.filter (fun c => c != ' ')) ++ '(' :: p.w3.filter (fun c => c != ' ')) ++ (p.ip ++ '.' :: p.d1 :: p.d2 :: ([] : List Char))) =
      (p.w1.filter (fun c => c != ' ') ++ p.w2.filter (fun c => c != ' ')) ++ '(' :: (p.w3.filter (fun c => c != ' ') ++ (p.ip ++ '.' :: p.d1 :: p.d2 :: ([] : List Char))) from by simp]
    rw [wshead_beq_false _ _ hu12 '$' (by decide) (by
      simp only [List.head?_cons]
      decide)]
    simp only [Bool.false_eq_true, if_false]
    rw [show (((p.w1.filter (fun c => c != ' ') ++ p.w2.filter (fun c => c != ' ')) ++ '(' :: (p.w3.filter (fun c => c != ' ') ++ (p.ip ++ '.' :: p.d1 :: p.d2 :: ([] : List Char)))).filter (fun c => c != ',')) =
      (p.w1.filter (fun c => c != ' ') ++ p.w2.filter (fun c => c != ' ')) ++ '(' :: ((p.w3.filter (fun c => c != ' ') ++ (p.ip ++ '.' :: p.d1 :: p.d2 :: ([] : List Char))).filter (fun c => c != ',')) from by
      rw [List.filter_append, filter_comma_ws _ hu12, List.filter_cons_of_pos (by decide)]]
    rw [wshead_beq_false _ _ hu12 '.' (by decide) (by
      simp only [List.head?_cons]
      decide)]
    simp only [Bool.false_eq_true, if_false]
    rw [pyDecimal_none_of_ws_head (p.w1.filter (fun c => c != ' ') ++ p.w2.filter (fun c => c != ' ')) '(' _ hu12 (by decide) (by decide) (by decide)
      (by decide) (by decide)]
    simp
  · -- sign, dol = ['$']
    cases hu1e : p.w1.filter (fun c => c != ' ') with
    | nil =>
      simp only [List.nil_append]
      rw [show ('-' :: '$' :: (p.w2.filter (fun c => c != ' ') ++ '(' :: (p.w3.filter (fun c => c != ' ') ++ (p.ip ++ '.' :: p.d1 :: p.d2 :: p.w4.filter (fun c => c != ' '))))) =
        ('-' :: (('$' :: (p.w2.filter (fun c => c != ' ') ++ '(' :: p.w3.filter (fun c => c != ' '))) ++ (p.ip ++ '.' :: p.d1 :: p.d2 :: ([] : List Char)))) ++ p.w4.filter (fun c => c != ' ') from by simp]
      rw [pyStrip_ws_suffix _ _ hu4,
        hends '-' ('$' :: (p.w2.filter (fun c => c != ' ') ++ '(' :: p.w3.filter (fun c => c != ' '))) (by decide)]
      unfold amountCore
      simp only [List.cons_append, List.head?_cons,
        show ((some '-' : Option Char) == some '(') = false from by decide,
        Bool.false_and, Bool.false_eq_true, if_false,
        show ((some '+' : Option Char) == some '+') = true from by decide,
        show ((some '-' : Option Char) == some '+') = false from by decide,
        show ((some '-' : Option Char) == some '-') = true from by decide,
        if_true, if_false, List.tail_cons,
        show ((some '$' : Option Char) == some '$') = true from by decide]
      rw [show ((p.w2.filter (fun c => c != ' ') ++ '(' :: p.w3.filter (fun c => c != ' ')) ++ (p.ip ++ '.' :: p.d1 :: p.d2 :: ([] : List Char))) =
        p.w2.filter (fun c => c != ' ') ++ '(' :: (p.w3.filter (fun c => c != ' ') ++ (p.ip ++ '.' :: p.d1 :: p.d2 :: ([] : List Char))) from by simp]
      rw [show ((p.w2.filter (fun c => c != ' ') ++ '(' :: (p.w3.filter (fun c => c != ' ') ++ (p.ip ++ '.' :: p.d1 :: p.d2 :: ([] : List Char)))).filter (fun c => c != ',')) =
        p.w2.filter (fun c => c != ' ') ++ '(' :: ((p.w3.filter (fun c => c != ' ') ++ (p.ip ++ '.' :: p.d1 :: p.d2 :: ([] : List Char))).filter (fun c => c != ',')) from by
        rw [List.filter_append, filter_comma_ws _ hu2, List.filter_cons_of_pos (by decide)]]
      rw [wshead_beq_false _ _ hu2 '.' (by decide) (by
        simp only [List.head?_cons]
        decide)]
      simp only [Bool.false_eq_true, if_false]
      rw [pyDecimal_none_of_ws_head (p.w2.filter (fun c => c != ' ')) '(' _ hu2 (by decide) (by decide) (by decide)
        (by decide) (by decide)]
      simp
    | cons c1 t1 =>
      have hc1 : ∀ c ∈ (c1 :: t1), pyIsWs c = true := by
        rw [← hu1e]
        exact hu1
      have hc1w : pyIsWs c1 = true := hc1 c1 (by simp)
      have hc1ne : ∀ x : Char, pyIsWs x = false →
          ((some c1 : Option Char) == some x) = false :=
        fun x hx => beq_some_false_of_ne c1 x (fun he => by
          rw [he, hx] at hc1w
          exact absurd hc1w (by simp))
      rw [show ('-' :: ((c1 :: t1) ++ '$' :: (p.w2.filter (fun c => c != ' ') ++ '(' :: (p.w3.filter (fun c => c != ' ') ++ (p.ip ++ '.' :: p.d1 :: p.d2 :: p.w4.filter (fun c => c != ' ')))))) =
        ('-' :: (((c1 :: t1) ++ '$' :: (p.w2.filter (fun c => c != ' ') ++ '(' :: p.w3.filter (fun c => c != ' '))) ++ (p.ip ++ '.' :: p.d1 :: p.d2 :: ([] : List Char)))) ++ p.w4.filter (fun c => c != ' ') from by simp]
      rw [pyStrip_ws_suffix _ _ hu4,
        hends '-' ((c1 :: t1) ++ '$' :: (p.w2.filter (fun c => c != ' ') ++ '(' :: p.w3.filter (fun c => c != ' '))) (by decide)]
      unfold amountCore
      simp only [List.head?_cons,
        show ((some '-' : Option Char) == some '(') = false from by decide,
        Bool.false_and, Bool.false_eq_true, if_false,
        show ((some '+' : Option Char) == some '+') = true from by decide,
        show ((some '-' : Option Char) == some '+') = false from by decide,
        show ((some '-' : Option Char) == some '-') = true from by decide,
        if_true, if_false, List.tail_cons]
      rw [show (((c1 :: t1) ++ '$' :: (p.w2.filter (fun c => c != ' ') ++ '(' :: p.w3.filter (fun c => c != ' '))) ++ (p.ip ++ '.' :: p.d1 :: p.d2 :: ([] : List Char))) =
        (c1 :: t1) ++ '$' :: (p.w2.filter (fun c => c != ' ') ++ '(' :: (p.w3.filter (fun c => c != ' ') ++ (p.ip ++ '.' :: p.d1 :: p.d2 :: ([] : List Char)))) from by simp]
      rw [show (((c1 :: t1) ++ '$' :: (p.w2.filter (fun c => c != ' ') ++ '(' :: (p.w3.filter (fun c => c != ' ') ++ (p.ip ++ '.' :: p.d1 :: p.d2 :: ([] : List Char))))).head? == some '$') = false from by
        simp only [List.cons_append, List.head?_cons]
        exact hc1ne '$' (by decide)]
      simp only [Bool.false_eq_true, if_false]
      rw [show (((c1 :: t1) ++ '$' :: (p.w2.filter (fun c => c != ' ') ++ '(' :: (p.w3.filter (fun c => c != ' ') ++ (p.ip ++ '.' :: p.d1 :: p.d2 :: ([] : List Char))))).filter (fun c => c != ',')) =
        (c1 :: t1) ++ '$' :: ((p.w2.filter (fun c => c != ' ') ++ '(' :: (p.w3.filter (fun c => c != ' ') ++ (p.ip ++ '.' :: p.d1 :: p.d2 :: ([] : List Char)))).filter (fun c => c != ',')) from by
        rw [List.filter_append, filter_comma_ws _ hc1, List.filter_cons_of_pos (by decide)]]
      rw [show (((c1 :: t1) ++ '$' :: ((p.w2.filter (fun c => c != ' ') ++ '(' :: (p.w3.filter (fun c => c != ' ') ++ (p.ip ++ '.' :: p.d1 :: p.d2 :: ([] : List Char)))).filter (fun c => c != ','))).head? == some '.') = false from by
        simp only [List.cons_append, List.head?_cons]
        exact hc1ne '.' (by decide)]
      simp only [Bool.false_eq_true, if_false]
      rw [pyDecimal_none_of_ws_head (c1 :: t1) '$' _ hc1 (by decide) (by decide) (by decide)
        (by decide) (by decide)]
      simp
  · -- sign, dol = []
    rw [show ('-' :: (p.w1.filter (fun c => c != ' ') ++ (p.w2.filter (fun c => c != ' ') ++ '(' :: (p.w3.filter (fun c => c != ' ') ++ (p.ip ++ '.' :: p.d1 :: p.d2 :: p.w4.filter (fun c => c != ' ')))))) =
      ('-' :: (((p.w1.filter (fun c => c != ' ') ++ p.w2.filter (fun c => c != ' ')) ++ '(' :: p.w3.filter (fun c => c != ' ')) ++ (p.ip ++ '.' :: p.d1 :: p.d2 :: ([] : List Char)))) ++ p.w4.filter (fun c => c != ' ') from by simp]
    rw [pyStrip_ws_suffix _ _ hu4,
      hends '-' ((p.w1.filter (fun c => c != ' ') ++ p.w2.filter (fun c => c != ' ')) ++ '(' :: p.w3.filter (fun c => c != ' ')) (by decide)]
    unfold amountCore
    simp only [List.head?_cons,
      show ((some '-' : Option Char) == some '(') = false from by decide,
      Bool.false_and, Bool.false_eq_true, if_false,
      show ((some '+' : Option Char) == some '+') = true from by decide,
      show ((some '-' : Option Char) == some '+') = false from by decide,
      show ((some '-' : Option Char) == some '-') = true from by decide,
      if_true, if_false, List.tail_cons]
    rw [show (((p.w1.filter (fun c => c != ' ') ++ p.w2.filter (fun c => c != ' ')) ++ '(' :: p.w3.filter (fun c => c != ' ')) ++ (p.ip ++ '.' :: p.d1 :: p.d2 :: ([] : List Char))) =
      (p.w1.filter (fun c => c != ' ') ++ p.w2.filter (fun c => c != ' ')) ++ '(' :: (p.w3.filter (fun c => c != ' ') ++ (p.ip ++ '.' :: p.d1 :: p.d2 :: ([] : List Char))) from by simp]
    rw [wshead_beq_false _ _ hu12 '$' (by decide) (by
      simp only [List.head?_cons]
      decide)]
    simp only [Bool.false_eq_true, if_false]
    rw [show (((p.w1.filter (fun c => c != ' ') ++ p.w2.filter (fun c => c != ' ')) ++ '(' :: (p.w3.filter (fun c => c != ' ') ++ (p.ip ++ '.' :: p.d1 :: p.d2 :: ([] : List Char)))).filter (fun c => c != ',')) =
      (p.w1.filter (fun c => c != ' ') ++ p.w2.filter (fun c => c != ' ')) ++ '(' :: ((p.w3.filter (fun c => c != ' ') ++ (p.ip ++ '.' :: p.d1 :: p.d2 :: ([] : List Char))).filter (fun c => c != ',')) from by
      rw [List.filter_append, filter_comma_ws _ hu12, List.filter_cons_of_pos (by decide)]]
    rw [wshead_beq_false _ _ hu12 '.' (by decide) (by
      simp only [List.head?_cons]
      decide)]
    simp only [Bool.false_eq_true, if_false]
    rw [pyDecimal_none_of_ws_head (p.w1.filter (fun c => c != ' ') ++ p.w2.filter (fun c => c != ' ')) '(' _ hu12 (by decide) (by decide) (by decide)
      (by decide) (by decide)]
    simp
  · -- sign, dol = ['$']
    cases hu1e : p.w1.filter (fun c => c != ' ') with
    | nil =>
      simp only [List.nil_append]
      rw [show ('-' :: '$' :: (p.w2.filter (fun c => c != ' ') ++ '(' :: (p.w3.filter (fun c => c != ' ') ++ (p.ip ++ '.' :: p.d1 :: p.d2 :: p.w4.filter (fun c => c != ' '))))) =
        ('-' :: (('$' :: (p.w2.filter (fun c => c != ' ') ++ '(' :: p.w3.filter (fun c => c != ' '))) ++ (p.ip ++ '.' :: p.d1 :: p.d2 :: ([] : List Char)))) ++ p.w4.filter (fun c => c != ' ') from by simp]
      rw [pyStrip_ws_suffix _ _ hu4,
        hends '-' ('$' :: (p.w2.filter (fun c => c != ' ') ++ '(' :: p.w3.filter (fun c => c != ' '))) (by decide)]
      unfold amountCore
      simp only [List.cons_append, List.head?_cons,
        show ((some '-' : Option Char) == some '(') = false from by decide,
        Bool.false_and, Bool.false_eq_true, if_false,
        show ((some '+' : Option Char) == some '+') = true from by decide,
        show ((some '-' : Option Char) == some '+') = false from by decide,
        show ((some '-' : Option Char) == some '-') = true from by decide,
        if_true, if_false, List.tail_cons,
        show ((some '$' : Option Char) == some '$') = true from by decide]
      rw [show ((p.w2.filter (fun c => c != ' ') ++ '(' :: p.w3.filter (fun c => c != ' ')) ++ (p.ip ++ '.' :: p.d1 :: p.d2 :: ([] : List Char))) =
        p.w2.filter (fun c => c != ' ') ++ '(' :: (p.w3.filter (fun c => c != ' ') ++ (p.ip ++ '.' :: p.d1 :: p.d2 :: ([] : List Char))) from by simp]
      rw [show ((p.w2.filter (fun c => c != ' ') ++ '(' :: (p.w3.filter (fun c => c != ' ') ++ (p.ip ++ '.' :: p.d1 :: p.d2 :: ([] : List Char)))).filter (fun c => c != ',')) =
        p.w2.filter (fun c => c != ' ') ++ '(' :: ((p.w3.filter (fun c => c != ' ') ++ (p.ip ++ '.' :: p.d1 :: p.d2 :: ([] : List Char))).filter (fun c => c != ',')) from by
        rw [List.filter_append, filter_comma_ws _ hu2, List.filter_cons_of_pos (by decide)]]
      rw [wshead_beq_false _ _ hu2 '.' (by decide) (by
        simp only [List.head?_cons]
        decide)]
      simp only [Bool.false_eq_true, if_false]
      rw [pyDecimal_none_of_ws_head (p.w2.filter (fun c => c != ' ')) '(' _ hu2 (by decide) (by decide) (by decide)
        (by decide) (by decide)]
      simp
    | cons c1 t1 =>
      have hc1 : ∀ c ∈ (c1 :: t1), pyIsWs c = true := by
        rw [← hu1e]
        exact hu1
      have hc1w : pyIsWs c1 = true := hc1 c1 (by simp)
      have hc1ne : ∀ x : Char, pyIsWs x = false →
          ((some c1 : Option Char) == some x) = false :=
        fun x hx => beq_some_false_of_ne c1 x (fun he => by
          rw [he, hx] at hc1w
          exact absurd hc1w (by simp))
      rw [show ('-' :: ((c1 :: t1) ++ '$' :: (p.w2.filter (fun c => c != ' ') ++ '(' :: (p.w3.filter (fun c => c != ' ') ++ (p.ip ++ '.' :: p.d1 :: p.d2 :: p.w4.filter (fun c => c != ' ')))))) =
        ('-' :: (((c1 :: t1) ++ '$' :: (p.w2.filter (fun c => c != ' ') ++ '(' :: p.w3.filter (fun c => c != ' '))) ++ (p.ip ++ '.' :: p.d1 :: p.d2 :: ([] : List Char)))) ++ p.w4.filter (fun c => c != ' ') from by simp]
      rw [pyStrip_ws_suffix _ _ hu4,
        hends '-' ((c1 :: t1) ++ '$' :: (p.w2.filter (fun c => c != ' ') ++ '(' :: p.w3.filter (fun c => c != ' '))) (by decide)]
      unfold amountCore
      simp only [List.head?_cons,
        show ((some '-' : Option Char) == some '(') = false from by decide,
        Bool.false_and, Bool.false_eq_true, if_false,
        show ((some '+' : Option Char) == some '+') = true from by decide,
        show ((some '-' : Option Char) == some '+') = false from by decide,
        show ((some '-' : Option Char) == some '-') = true from by decide,
        if_true, if_false, List.tail_cons]
      rw [show (((c1 :: t1) ++ '$' :: (p.w2.filter (fun c => c != ' ') ++ '(' :: p.w3.filter (fun c => c != ' '))) ++ (p.ip ++ '.' :: p.d1 :: p.d2 :: ([] : List Char))) =
        (c1 :: t1) ++ '$' :: (p.w2.filter (fun c => c != ' ') ++ '(' :: (p.w3.filter (fun c => c != ' ') ++ (p.ip ++ '.' :: p.d1 :: p.d2 :: ([] : List Char)))) from by simp]
      rw [show (((c1 :: t1) ++ '$' :: (p.w2.filter (fun c => c != ' ') ++ '(' :: (p.w3.filter (fun c => c != ' ') ++ (p.ip ++ '.' :: p.d1 :: p.d2 :: ([] : List Char))))).head? == some '$') = false from by
        simp only [List.cons_append, List.head?_cons]
        exact hc1ne '$' (by decide)]
      simp only [Bool.false_eq_true, if_false]
      rw [show (((c1 :: t1) ++ '$' :: (p.w2.filter (fun c => c != ' ') ++ '(' :: (p.w3.filter (fun c => c != ' ') ++ (p.ip ++ '.' :: p.d1 :: p.d2 :: ([] : List Char))))).filter (fun c => c != ',')) =
        (c1 :: t1) ++ '$' :: ((p.w2.filter (fun c => c != ' ') ++ '(' :: (p.w3.filter (fun c => c != ' ') ++ (p.ip ++ '.' :: p.d1 :: p.d2 :: ([] : List Char)))).filter (fun c => c != ',')) from by
        rw [List.filter_append, filter_comma_ws _ hc1, List.filter_cons_of_pos (by decide)]]
      rw [show (((c1 :: t1) ++ '$' :: ((p.w2.filter (fun c => c != ' ') ++ '(' :: (p.w3.filter (fun c => c != ' ') ++ (p.ip ++ '.' :: p.d1 :: p.d2 :: ([] : List Char)))).filter (fun c => c != ','))).head? == some '.') = false from by
        simp only [List.cons_append, List.head?_cons]
        exact hc1ne '.' (by decide)]
      simp only [Bool.false_eq_true, if_false]
      rw [pyDecimal_none_of_ws_head (c1 :: t1) '$' _ hc1 (by decide) (by decide) (by decide)
        (by decide) (by decide)]
      simp

/-- `_amount_to_decimal` fails on every token with a closing parenthesis
and no opening one, for arbitrary whitespace gaps. -/
lemma amountToDecimal_closeparen_eval (p : AmtParts) (hwf : p.WF)
    (hpo : p.po = []) (hpc : p.pc = [')']) :
    amountToDecimal p.render = none := by
  have hd1 := hwf.2.2.2.2.2.2.1
  have hd2 := hwf.2.2.2.2.2.2.2
  have hgap : ∀ c ∈ p.w1 ++ p.w2 ++ p.w3 ++ p.w4, pyIsWs c = true :=
    fun c hc => List.all_eq_true.mp hwf.2.2.2.2.1 c hc
  have hu1 : ∀ c ∈ p.w1.filter (fun c => c != ' '), pyIsWs c = true :=
    fun c hc => hgap c (by have := List.mem_of_mem_filter hc; simp [this])
  have hu2 : ∀ c ∈ p.w2.filter (fun c => c != ' '), pyIsWs c = true :=
    fun c hc => hgap c (by have := List.mem_of_mem_filter hc; simp [this])
  have hu3 : ∀ c ∈ p.w3.filter (fun c => c != ' '), pyIsWs c = true :=
    fun c hc => hgap c (by have := List.mem_of_mem_filter hc; simp [this])
  have hu4 : ∀ c ∈ p.w4.filter (fun c => c != ' '), pyIsWs c = true :=
    fun c hc => hgap c (by have := List.mem_of_mem_filter hc; simp [this])
  have hu23 : ∀ c ∈ p.w2.filter (fun c => c != ' ') ++ p.w3.filter (fun c => c != ' '), pyIsWs c = true := by
    intro c hc
    rcases List.mem_append.mp hc with h | h
    exacts [hu2 c h, hu3 c h]
  have hu123 : ∀ c ∈ p.w1.filter (fun c => c != ' ') ++ p.w2.filter (fun c => c != ' ') ++ p.w3.filter (fun c => c != ' '), pyIsWs c = true := by
    intro c hc
    rcases List.mem_append.mp hc with h | h
    · rcases List.mem_append.mp h with h2 | h2
      exacts [hu1 c h2, hu2 c h2]
    · exact hu3 c h
  have hRp : (p.w4.filter (fun c => c != ' ') ++ [')']).filter (fun c => c != ',') = p.w4.filter (fun c => c != ' ') ++ [')'] := by
    rw [List.filter_append, filter_comma_ws _ hu4]
    rfl
  have hendsIp : pyStrip (p.ip ++ '.' :: p.d1 :: p.d2 :: (p.w4.filter (fun c => c != ' ') ++ [')'])) = (p.ip ++ '.' :: p.d1 :: p.d2 :: (p.w4.filter (fun c => c != ' ') ++ [')'])) := by
    refine pyStrip_eq_self_of_ends _ (fun c hc => ?_) (fun c hc => ?_)
    · rcases hwf.2.2.2.2.2.1 with he | ⟨c0, cs, he, hcd, _⟩ <;> rw [he] at hc
      · simp only [List.nil_append, List.head?_cons] at hc
        rw [← (Option.some.injEq _ _).mp hc]
        decide
      · simp only [List.cons_append, List.head?_cons] at hc
        rw [← (Option.some.injEq _ _).mp hc]
        exact isDigit_not_ws c0 hcd
    · rw [show (p.ip ++ '.' :: p.d1 :: p.d2 :: (p.w4.filter (fun c => c != ' ') ++ [')'])) = (p.ip ++ '.' :: p.d1 :: p.d2 :: p.w4.filter (fun c => c != ' ')) ++ [')'] from by simp,
        List.getLast?_concat] at hc
      rw [← (Option.some.injEq _ _).mp hc]
      decide
  rw [amountToDecimal, cleanAmt_strip_last, filter_space_render p hwf, hpo, hpc]
  rcases hwf.1 with hs | hs | hs | hs <;> rcases hwf.2.1 with hdol | hdol <;>
    rw [hs, hdol] <;>
    simp only [List.map_cons, List.map_nil, mapMinus_plus, mapMinus_hyph, mapMinus_uni,
      List.nil_append, List.cons_append, List.append_nil, List.append_assoc]
  · -- sgn = [], dol = []
    rw [show (p.w1.filter (fun c => c != ' ') ++ (p.w2.filter (fun c => c != ' ') ++ (p.w3.filter (fun c => c != ' ') ++ (p.ip ++ '.' :: p.d1 :: p.d2 :: (p.w4.filter (fun c => c != ' ') ++ [')']))))) =
      (p.w1.filter (fun c => c != ' ') ++ p.w2.filter (fun c => c != ' ') ++ p.w3.filter (fun c => c != ' ')) ++ (p.ip ++ '.' :: p.d1 :: p.d2 :: (p.w4.filter (fun c => c != ' ') ++ [')'])) from by simp]
    rw [pyStrip_ws_front _ _ hu123, hendsIp]
    unfold amountCore
    rw [ip_head_beq_false p hwf '(' (by decide) (by decide) _]
    simp only [Bool.false_and, Bool.false_eq_true, if_false]
    rw [ip_head_beq_false p hwf '+' (by decide) (by decide) _,
      ip_head_beq_false p hwf '-' (by decide) (by decide) _]
    simp only [Bool.false_eq_true, if_false]
    rw [ip_head_beq_false p hwf '$' (by decide) (by decide) _]
    simp only [Bool.false_eq_true, if_false]
    rw [filter_comma_core p hwf (p.w4.filter (fun c => c != ' ') ++ [')']) hRp]
    have hb := pyDecimal_wsfix_tail_bad p hwf [] (p.w4.filter (fun c => c != ' ')) (by simp) hu4
    simp only [List.nil_append] at hb
    rw [hb]
    simp
  · -- sgn = [], dol = ['$']
    rw [show (p.w1.filter (fun c => c != ' ') ++ '$' :: (p.w2.filter (fun c => c != ' ') ++ (p.w3.filter (fun c => c != ' ') ++ (p.ip ++ '.' :: p.d1 :: p.d2 :: (p.w4.filter (fun c => c != ' ') ++ [')']))))) =
      p.w1.filter (fun c => c != ' ') ++ ('$' :: (((p.w2.filter (fun c => c != ' ') ++ p.w3.filter (fun c => c != ' ')) ++ (p.ip ++ '.' :: p.d1 :: p.d2 :: p.w4.filter (fun c => c != ' '))) ++ [')'])) from by simp]
    rw [pyStrip_ws_front _ _ hu1,
      pyStrip_self_rparen '$' ((p.w2.filter (fun c => c != ' ') ++ p.w3.filter (fun c => c != ' ')) ++ (p.ip ++ '.' :: p.d1 :: p.d2 :: p.w4.filter (fun c => c != ' '))) (by decide)]
    unfold amountCore
    simp only [List.head?_cons,
      show ((some '$' : Option Char) == some '(') = false from by decide,
      Bool.false_and, Bool.false_eq_true, if_false,
      show ((some '$' : Option Char) == some '+') = false from by decide,
      show ((some '$' : Option Char) == some '-') = false from by decide,
      show ((some '$' : Option Char) == some '$') = true from by decide,
      if_true, List.tail_cons]
    rw [show ((((p.w2.filter (fun c => c != ' ') ++ p.w3.filter (fun c => c != ' ')) ++ (p.ip ++ '.' :: p.d1 :: p.d2 :: p.w4.filter (fun c => c != ' '))) ++ [')'])) =
      (p.w2.filter (fun c => c != ' ') ++ p.w3.filter (fun c => c != ' ')) ++ (p.ip ++ '.' :: p.d1 :: p.d2 :: (p.w4.filter (fun c => c != ' ') ++ [')'])) from by simp]
    rw [filter_comma_ws_core p hwf _ _ hu23 hRp,
      pyDecimal_wsfix_tail_bad p hwf _ _ hu23 hu4]
    simp
  · -- sign, dol = []
    rw [show ('+' :: (p.w1.filter (fun c => c != ' ') ++ (p.w2.filter (fun c => c != ' ') ++ (p.w3.filter (fun c => c != ' ') ++ (p.ip ++ '.' :: p.d1 :: p.d2 :: (p.w4.filter (fun c => c != ' ') ++ [')'])))))) =
      '+' :: ((((p.w1.filter (fun c => c != ' ') ++ p.w2.filter (fun c => c != ' ') ++ p.w3.filter (fun c => c != ' ')) ++ (p.ip ++ '.' :: p.d1 :: p.d2 :: p.w4.filter (fun c => c != ' '))) ++ [')'])) from by simp]
    rw [pyStrip_self_rparen '+' ((p.w1.filter (fun c => c != ' ') ++ p.w2.filter (fun c => c != ' ') ++ p.w3.filter (fun c => c != ' ')) ++ (p.ip ++ '.' :: p.d1 :: p.d2 :: p.w4.filter (fun c => c != ' '))) (by decide)]
    unfold amountCore
    simp only [List.head?_cons,
      show ((some '+' : Option Char) == some '(') = false from by decide,
      Bool.false_and, Bool.false_eq_true, if_false,
      show ((some '+' : Option Char) == some '+') = true from by decide,
      show ((some '-' : Option Char) == some '+') = false from by decide,
      show ((some '-' : Option Char) == some '-') = true from by decide,
      if_true, if_false, List.tail_cons]
    rw [show ((((p.w1.filter (fun c => c != ' ') ++ p.w2.filter (fun c => c != ' ') ++ p.w3.filter (fun c => c != ' ')) ++ (p.ip ++ '.' :: p.d1 :: p.d2 :: p.w4.filter (fun c => c != ' '))) ++ [')'])) =
      (p.w1.filter (fun c => c != ' ') ++ p.w2.filter (fun c => c != ' ') ++ p.w3.filter (fun c => c != ' ')) ++ (p.ip ++ '.' :: p.d1 :: p.d2 :: (p.w4.filter (fun c => c != ' ') ++ [')'])) from by simp]
    rw [wshead_beq_false _ _ hu123 '$' (by decide)
      (ip_head_beq_false p hwf '$' (by decide) (by decide) _)]
    simp only [Bool.false_eq_true, if_false]
    rw [filter_comma_ws_core p hwf _ _ hu123 hRp,
      pyDecimal_wsfix_tail_bad p hwf _ _ hu123 hu4]
    simp
  · -- sign, dol = ['$']
    cases hu1e : p.w1.filter (fun c => c != ' ') with
    | nil =>
      simp only [List.nil_append]
      rw [show ('+' :: '$' :: (p.w2.filter (fun c => c != ' ') ++ (p.w3.filter (fun c => c != ' ') ++ (p.ip ++ '.' :: p.d1 :: p.d2 :: (p.w4.filter (fun c => c != ' ') ++ [')']))))) =
        '+' :: (('$' :: ((p.w2.filter (fun c => c != ' ') ++ p.w3.filter (fun c => c != ' ')) ++ (p.ip ++ '.' :: p.d1 :: p.d2 :: p.w4.filter (fun c => c != ' ')))) ++ [')']) from by simp]
      rw [pyStrip_self_rparen '+' ('$' :: ((p.w2.filter (fun c => c != ' ') ++ p.w3.filter (fun c => c != ' ')) ++ (p.ip ++ '.' :: p.d1 :: p.d2 :: p.w4.filter (fun c => c != ' ')))) (by decide)]
      unfold amountCore
      simp only [List.cons_append, List.head?_cons,
        show ((some '+' : Option Char) == some '(') = false from by decide,
        Bool.false_and, Bool.false_eq_true, if_false,
        show ((some '+' : Option Char) == some '+') = true from by decide,
        show ((some '-' : Option Char) == some '+') = false from by decide,
        show ((some '-' : Option Char) == some '-') = true from by decide,
        if_true, if_false, List.tail_cons,
        show ((some '$' : Option Char) == some '$') = true from by decide]
      rw [show (((p.w2.filter (fun c => c != ' ') ++ p.w3.filter (fun c => c != ' ')) ++ (p.ip ++ '.' :: p.d1 :: p.d2 :: p.w4.filter (fun c => c != ' '))) ++ [')']) =
        (p.w2.filter (fun c => c != ' ') ++ p.w3.filter (fun c => c != ' ')) ++ (p.ip ++ '.' :: p.d1 :: p.d2 :: (p.w4.filter (fun c => c != ' ') ++ [')'])) from by simp]
      rw [filter_comma_ws_core p hwf _ _ hu23 hRp,
        pyDecimal_wsfix_tail_bad p hwf _ _ hu23 hu4]
      simp
    | cons c1 t1 =>
      have hc1 : ∀ c ∈ (c1 :: t1), pyIsWs c = true := by
        rw [← hu1e]
        exact hu1
      have hc1w : pyIsWs c1 = true := hc1 c1 (by simp)
      have hc1ne : ∀ x : Char, pyIsWs x = false →
          ((some c1 : Option Char) == some x) = false :=
        fun x hx => beq_some_false_of_ne c1 x (fun he => by
          rw [he, hx] at hc1w
          exact absurd hc1w (by simp))
      rw [show ('+' :: ((c1 :: t1) ++ '$' :: (p.w2.filter (fun c => c != ' ') ++ (p.w3.filter (fun c => c != ' ') ++ (p.ip ++ '.' :: p.d1 :: p.d2 :: (p.w4.filter (fun c => c != ' ') ++ [')'])))))) =
        '+' :: (((c1 :: t1) ++ '$' :: ((p.w2.filter (fun c => c != ' ') ++ p.w3.filter (fun c => c != ' ')) ++ (p.ip ++ '.' :: p.d1 :: p.d2 :: p.w4.filter (fun c => c != ' ')))) ++ [')']) from by simp]
      rw [pyStrip_self_rparen '+' ((c1 :: t1) ++ '$' :: ((p.w2.filter (fun c => c != ' ') ++ p.w3.filter (fun c => c != ' ')) ++ (p.ip ++ '.' :: p.d1 :: p.d2 :: p.w4.filter (fun c => c != ' ')))) (by decide)]
      unfold amountCore
      simp only [List.head?_cons,
        show ((some '+' : Option Char) == some '(') = false from by decide,
        Bool.false_and, Bool.false_eq_true, if_false,
        show ((some '+' : Option Char) == some '+') = true from by decide,
        show ((some '-' : Option Char) == some '+') = false from by decide,
        show ((some '-' : Option Char) == some '-') = true from by decide,
        if_true, if_false, List.tail_cons]
      rw [show (((c1 :: t1) ++ '$' :: ((p.w2.filter (fun c => c != ' ') ++ p.w3.filter (fun c => c != ' ')) ++ (p.ip ++ '.' :: p.d1 :: p.d2 :: p.w4.filter (fun c => c != ' ')))) ++ [')']) =
        (c1 :: t1) ++ '$' :: ((p.w2.filter (fun c => c != ' ') ++ p.w3.filter (fun c => c != ' ')) ++ (p.ip ++ '.' :: p.d1 :: p.d2 :: (p.w4.filter (fun c => c != ' ') ++ [')']))) from by simp]
      rw [show (((c1 :: t1) ++ '$' :: ((p.w2.filter (fun c => c != ' ') ++ p.w3.filter (fun c => c != ' ')) ++ (p.ip ++ '.' :: p.d1 :: p.d2 :: (p.w4.filter (fun c => c != ' ') ++ [')'])))).head? == some '$') = false from by
        simp only [List.cons_append, List.head?_cons]
        exact hc1ne '$' (by decide)]
      simp only [Bool.false_eq_true, if_false]
      rw [show (((c1 :: t1) ++ '$' :: ((p.w2.filter (fun c => c != ' ') ++ p.w3.filter (fun c => c != ' ')) ++ (p.ip ++ '.' :: p.d1 :: p.d2 :: (p.w4.filter (fun c => c != ' ') ++ [')'])))).filter (fun c => c != ',')) =
        (c1 :: t1) ++ '$' :: (((p.w2.filter (fun c => c != ' ') ++ p.w3.filter (fun c => c != ' ')) ++ (p.ip ++ '.' :: p.d1 :: p.d2 :: (p.w4.filter (fun c => c != ' ') ++ [')']))).filter (fun c => c != ',')) from by
        rw [List.filter_append, filter_comma_ws _ hc1, List.filter_cons_of_pos (by decide)]]
      rw [show (((c1 :: t1) ++ '$' :: (((p.w2.filter (fun c => c != ' ') ++ p.w3.filter (fun c => c != ' ')) ++ (p.ip ++ '.' :: p.d1 :: p.d2 :: (p.w4.filter (fun c => c != ' ') ++ [')']))).filter (fun c => c != ','))).head? == some '.') = false from by
        simp only [List.cons_append, List.head?_cons]
        exact hc1ne '.' (by decide)]
      simp only [Bool.false_eq_true, if_false]
      rw [pyDecimal_none_of_ws_head (c1 :: t1) '$' _ hc1 (by decide) (by decide) (by decide)
        (by decide) (by decide)]
      simp
  · -- sign, dol = []
    rw [show ('-' :: (p.w1.filter (fun c => c != ' ') ++ (p.w2.filter (fun c => c != ' ') ++ (p.w3.filter (fun c => c != ' ') ++ (p.ip ++ '.' :: p.d1 :: p.d2 :: (p.w4.filter (fun c => c != ' ') ++ [')'])))))) =
      '-' :: ((((p.w1.filter (fun c => c != ' ') ++ p.w2.filter (fun c => c != ' ') ++ p.w3.filter (fun c => c != ' ')) ++ (p.ip ++ '.' :: p.d1 :: p.d2 :: p.w4.filter (fun c => c != ' '))) ++ [')'])) from by simp]
    rw [pyStrip_self_rparen '-' ((p.w1.filter (fun c => c != ' ') ++ p.w2.filter (fun c => c != ' ') ++ p.w3.filter (fun c => c != ' ')) ++ (p.ip ++ '.' :: p.d1 :: p.d2 :: p.w4.filter (fun c => c != ' '))) (by decide)]
    unfold amountCore
    simp only [List.head?_cons,
      show ((some '-' : Option Char) == some '(') = false from by decide,
      Bool.false_and, Bool.false_eq_true, if_false,
      show ((some '+' : Option Char) == some '+') = true from by decide,
      show ((some '-' : Option Char) == some '+') = false from by decide,
      show ((some '-' : Option Char) == some '-') = true from by decide,
      if_true, if_false, List.tail_cons]
    rw [show ((((p.w1.filter (fun c => c != ' ') ++ p.w2.filter (fun c => c != ' ') ++ p.w3.filter (fun c => c != ' ')) ++ (p.ip ++ '.' :: p.d1 :: p.d2 :: p.w4.filter (fun c => c != ' '))) ++ [')'])) =
      (p.w1.filter (fun c => c != ' ') ++ p.w2.filter (fun c => c != ' ') ++ p.w3.filter (fun c => c != ' ')) ++ (p.ip ++ '.' :: p.d1 :: p.d2 :: (p.w4.filter (fun c => c != ' ') ++ [')'])) from by simp]
    rw [wshead_beq_false _ _ hu123 '$' (by decide)
      (ip_head_beq_false p hwf '$' (by decide) (by decide) _)]
    simp only [Bool.false_eq_true, if_false]
    rw [filter_comma_ws_core p hwf _ _ hu123 hRp,
      pyDecimal_wsfix_tail_bad p hwf _ _ hu123 hu4]
    simp
  · -- sign, dol = ['$']
    cases hu1e : p.w1.filter (fun c => c != ' ') with
    | nil =>
      simp only [List.nil_append]
      rw [show ('-' :: '$' :: (p.w2.filter (fun c => c != ' ') ++ (p.w3.filter (fun c => c != ' ') ++ (p.ip ++ '.' :: p.d1 :: p.d2 :: (p.w4.filter (fun c => c != ' ') ++ [')']))))) =
        '-' :: (('$' :: ((p.w2.filter (fun c => c != ' ') ++ p.w3.filter (fun c => c != ' ')) ++ (p.ip ++ '.' :: p.d1 :: p.d2 :: p.w4.filter (fun c => c != ' ')))) ++ [')']) from by simp]
      rw [pyStrip_self_rparen '-' ('$' :: ((p.w2.filter (fun c => c != ' ') ++ p.w3.filter (fun c => c != ' ')) ++ (p.ip ++ '.' :: p.d1 :: p.d2 :: p.w4.filter (fun c => c != ' ')))) (by decide)]
      unfold amountCore
      simp only [List.cons_append, List.head?_cons,
        show ((some '-' : Option Char) == some '(') = false from by decide,
        Bool.false_and, Bool.false_eq_true, if_false,
        show ((some '+' : Option Char) == some '+') = true from by decide,
        show ((some '-' : Option Char) == some '+') = false from by decide,
        show ((some '-' : Option Char) == some '-') = true from by decide,
        if_true, if_false, List.tail_cons,
        show ((some '$' : Option Char) == some '$') = true from by decide]
      rw [show (((p.w2.filter (fun c => c != ' ') ++ p.w3.filter (fun c => c != ' ')) ++ (p.ip ++ '.' :: p.d1 :: p.d2 :: p.w4.filter (fun c => c != ' '))) ++ [')']) =
        (p.w2.filter (fun c => c != ' ') ++ p.w3.filter (fun c => c != ' ')) ++ (p.ip ++ '.' :: p.d1 :: p.d2 :: (p.w4.filter (fun c => c != ' ') ++ [')'])) from by simp]
      rw [filter_comma_ws_core p hwf _ _ hu23 hRp,
        pyDecimal_wsfix_tail_bad p hwf _ _ hu23 hu4]
      simp
    | cons c1 t1 =>
      have hc1 : ∀ c ∈ (c1 :: t1), pyIsWs c = true := by
        rw [← hu1e]
        exact hu1
      have hc1w : pyIsWs c1 = true := hc1 c1 (by simp)
      have hc1ne : ∀ x : Char, pyIsWs x = false →
          ((some c1 : Option Char) == some x) = false :=
        fun x hx => beq_some_false_of_ne c1 x (fun he => by
          rw [he, hx] at hc1w
          exact absurd hc1w (by simp))
      rw [show ('-' :: ((c1 :: t1) ++ '$' :: (p.w2.filter (fun c => c != ' ') ++ (p.w3.filter (fun c => c != ' ') ++ (p.ip ++ '.' :: p.d1 :: p.d2 :: (p.w4.filter (fun c => c != ' ') ++ [')'])))))) =
        '-' :: (((c1 :: t1) ++ '$' :: ((p.w2.filter (fun c => c != ' ') ++ p.w3.filter (fun c => c != ' ')) ++ (p.ip ++ '.' :: p.d1 :: p.d2 :: p.w4.filter (fun c => c != ' ')))) ++ [')']) from by simp]
      rw [pyStrip_self_rparen '-' ((c1 :: t1) ++ '$' :: ((p.w2.filter (fun c => c != ' ') ++ p.w3.filter (fun c => c != ' ')) ++ (p.ip ++ '.' :: p.d1 :: p.d2 :: p.w4.filter (fun c => c != ' ')))) (by decide)]
      unfold amountCore
      simp only [List.head?_cons,
        show ((some '-' : Option Char) == some '(') = false from by decide,
        Bool.false_and, Bool.false_eq_true, if_false,
        show ((some '+' : Option Char) == some '+') = true from by decide,
        show ((some '-' : Option Char) == some '+') = false from by decide,
        show ((some '-' : Option Char) == some '-') = true from by decide,
        if_true, if_false, List.tail_cons]
      rw [show (((c1 :: t1) ++ '$' :: ((p.w2.filter (fun c => c != ' ') ++ p.w3.filter (fun c => c != ' ')) ++ (p.ip ++ '.' :: p.d1 :: p.d2 :: p.w4.filter (fun c => c != ' ')))) ++ [')']) =
        (c1 :: t1) ++ '$' :: ((p.w2.filter (fun c => c != ' ') ++ p.w3.filter (fun c => c != ' ')) ++ (p.ip ++ '.' :: p.d1 :: p.d2 :: (p.w4.filter (fun c => c != ' ') ++ [')']))) from by simp]
      rw [show (((c1 :: t1) ++ '$' :: ((p.w2.filter (fun c => c != ' ') ++ p.w3.filter (fun c => c != ' ')) ++ (p.ip ++ '.' :: p.d1 :: p.d2 :: (p.w4.filter (fun c => c != ' ') ++ [')'])))).head? == some '$') = false from by
        simp only [List.cons_append, List.head?_cons]
        exact hc1ne '$' (by decide)]
      simp only [Bool.false_eq_true, if_false]
      rw [show (((c1 :: t1) ++ '$' :: ((p.w2.filter (fun c => c != ' ') ++ p.w3.filter (fun c => c != ' ')) ++ (p.ip ++ '.' :: p.d1 :: p.d2 :: (p.w4.filter (fun c => c != ' ') ++ [')'])))).filter (fun c => c != ',')) =
        (c1 :: t1) ++ '$' :: (((p.w2.filter (fun c => c != ' ') ++ p.w3.filter (fun c => c != ' ')) ++ (p.ip ++ '.' :: p.d1 :: p.d2 :: (p.w4.filter (fun c => c != ' ') ++ [')']))).filter (fun c => c != ',')) from by
        rw [List.filter_append, filter_comma_ws _ hc1, List.filter_cons_of_pos (by decide)]]
      rw [show (((c1 :: t1) ++ '$' :: (((p.w2.filter (fun c => c != ' ') ++ p.w3.filter (fun c => c != ' ')) ++ (p.ip ++ '.' :: p.d1 :: p.d2 :: (p.w4.filter (fun c => c != ' ') ++ [')']))).filter (fun c => c != ','))).head? == some '.') = false from by
        simp only [List.cons_append, List.head?_cons]
        exact hc1ne '.' (by decide)]
      simp only [Bool.false_eq_true, if_false]
      rw [pyDecimal_none_of_ws_head (c1 :: t1) '$' _ hc1 (by decide) (by decide) (by decide)
        (by decide) (by decide)]
      simp
  · -- sign, dol = []
    rw [show ('-' :: (p.w1.filter (fun c => c != ' ') ++ (p.w2.filter (fun c => c != ' ') ++ (p.w3.filter (fun c => c != ' ') ++ (p.ip ++ '.' :: p.d1 :: p.d2 :: (p.w4.filter (fun c => c != ' ') ++ [')'])))))) =
      '-' :: ((((p.w1.filter (fun c => c != ' ') ++ p.w2.filter (fun c => c != ' ') ++ p.w3.filter (fun c => c != ' ')) ++ (p.ip ++ '.' :: p.d1 :: p.d2 :: p.w4.filter (fun c => c != ' '))) ++ [')'])) from by simp]
    rw [pyStrip_self_rparen '-' ((p.w1.filter (fun c => c != ' ') ++ p.w2.filter (fun c => c != ' ') ++ p.w3.filter (fun c => c != ' ')) ++ (p.ip ++ '.' :: p.d1 :: p.d2 :: p.w4.filter (fun c => c != ' '))) (by decide)]
    unfold amountCore
    simp only [List.head?_cons,
      show ((some '-' : Option Char) == some '(') = false from by decide,
      Bool.false_and, Bool.false_eq_true, if_false,
      show ((some '+' : Option Char) == some '+') = true from by decide,
      show ((some '-' : Option Char) == some '+') = false from by decide,
      show ((some '-' : Option Char) == some '-') = true from by decide,
      if_true, if_false, List.tail_cons]
    rw [show ((((p.w1.filter (fun c => c != ' ') ++ p.w2.filter (fun c => c != ' ') ++ p.w3.filter (fun c => c != ' ')) ++ (p.ip ++ '.' :: p.d1 :: p.d2 :: p.w4.filter (fun c => c != ' '))) ++ [')'])) =
      (p.w1.filter (fun c => c != ' ') ++ p.w2.filter (fun c => c != ' ') ++ p.w3.filter (fun c => c != ' ')) ++ (p.ip ++ '.' :: p.d1 :: p.d2 :: (p.w4.filter (fun c => c != ' ') ++ [')'])) from by simp]
    rw [wshead_beq_false _ _ hu123 '$' (by decide)
      (ip_head_beq_false p hwf '$' (by decide) (by decide) _)]
    simp only [Bool.false_eq_true, if_false]
    rw [filter_comma_ws_core p hwf _ _ hu123 hRp,
      pyDecimal_wsfix_tail_bad p hwf _ _ hu123 hu4]
    simp
  · -- sign, dol = ['$']
    cases hu1e : p.w1.filter (fun c => c != ' ') with
    | nil =>
      simp only [List.nil_append]
      rw [show ('-' :: '$' :: (p.w2.filter (fun c => c != ' ') ++ (p.w3.filter (fun c => c != ' ') ++ (p.ip ++ '.' :: p.d1 :: p.d2 :: (p.w4.filter (fun c => c != ' ') ++ [')']))))) =
        '-' :: (('$' :: ((p.w2.filter (fun c => c != ' ') ++ p.w3.filter (fun c => c != ' ')) ++ (p.ip ++ '.' :: p.d1 :: p.d2 :: p.w4.filter (fun c => c != ' ')))) ++ [')']) from by simp]
      rw [pyStrip_self_rparen '-' ('$' :: ((p.w2.filter (fun c => c != ' ') ++ p.w3.filter (fun c => c != ' ')) ++ (p.ip ++ '.' :: p.d1 :: p.d2 :: p.w4.filter (fun c => c != ' ')))) (by decide)]
      unfold amountCore
      simp only [List.cons_append, List.head?_cons,
        show ((some '-' : Option Char) == some '(') = false from by decide,
        Bool.false_and, Bool.false_eq_true, if_false,
        show ((some '+' : Option Char) == some '+') = true from by decide,
        show ((some '-' : Option Char) == some '+') = false from by decide,
        show ((some '-' : Option Char) == some '-') = true from by decide,
        if_true, if_false, List.tail_cons,
        show ((some '$' : Option Char) == some '$') = true from by decide]
      rw [show (((p.w2.filter (fun c => c != ' ') ++ p.w3.filter (fun c => c != ' ')) ++ (p.ip ++ '.' :: p.d1 :: p.d2 :: p.w4.filter (fun c => c != ' '))) ++ [')']) =
        (p.w2.filter (fun c => c != ' ') ++ p.w3.filter (fun c => c != ' ')) ++ (p.ip ++ '.' :: p.d1 :: p.d2 :: (p.w4.filter (fun c => c != ' ') ++ [')'])) from by simp]
      rw [filter_comma_ws_core p hwf _ _ hu23 hRp,
        pyDecimal_wsfix_tail_bad p hwf _ _ hu23 hu4]
      simp
    | cons c1 t1 =>
      have hc1 : ∀ c ∈ (c1 :: t1), pyIsWs c = true := by
        rw [← hu1e]
        exact hu1
      have hc1w : pyIsWs c1 = true := hc1 c1 (by simp)
      have hc1ne : ∀ x : Char, pyIsWs x = false →
          ((some c1 : Option Char) == some x) = false :=
        fun x hx => beq_some_false_of_ne c1 x (fun he => by
          rw [he, hx] at hc1w
          exact absurd hc1w (by simp))
      rw [show ('-' :: ((c1 :: t1) ++ '$' :: (p.w2.filter (fun c => c != ' ') ++ (p.w3.filter (fun c => c != ' ') ++ (p.ip ++ '.' :: p.d1 :: p.d2 :: (p.w4.filter (fun c => c != ' ') ++ [')'])))))) =
        '-' :: (((c1 :: t1) ++ '$' :: ((p.w2.filter (fun c => c != ' ') ++ p.w3.filter (fun c => c != ' ')) ++ (p.ip ++ '.' :: p.d1 :: p.d2 :: p.w4.filter (fun c => c != ' ')))) ++ [')']) from by simp]
      rw [pyStrip_self_rparen '-' ((c1 :: t1) ++ '$' :: ((p.w2.filter (fun c => c != ' ') ++ p.w3.filter (fun c => c != ' ')) ++ (p.ip ++ '.' :: p.d1 :: p.d2 :: p.w4.filter (fun c => c != ' ')))) (by decide)]
      unfold amountCore
      simp only [List.head?_cons,
        show ((some '-' : Option Char) == some '(') = false from by decide,
        Bool.false_and, Bool.false_eq_true, if_false,
        show ((some '+' : Option Char) == some '+') = true from by decide,
        show ((some '-' : Option Char) == some '+') = false from by decide,
        show ((some '-' : Option Char) == some '-') = true from by decide,
        if_true, if_false, List.tail_cons]
      rw [show (((c1 :: t1) ++ '$' :: ((p.w2.filter (fun c => c != ' ') ++ p.w3.filter (fun c => c != ' ')) ++ (p.ip ++ '.' :: p.d1 :: p.d2 :: p.w4.filter (fun c => c != ' ')))) ++ [')']) =
        (c1 :: t1) ++ '$' :: ((p.w2.filter (fun c => c != ' ') ++ p.w3.filter (fun c => c != ' ')) ++ (p.ip ++ '.' :: p.d1 :: p.d2 :: (p.w4.filter (fun c => c != ' ') ++ [')']))) from by simp]
      rw [show (((c1 :: t1) ++ '$' :: ((p.w2.filter (fun c => c != ' ') ++ p.w3.filter (fun c => c != ' ')) ++ (p.ip ++ '.' :: p.d1 :: p.d2 :: (p.w4.filter (fun c => c != ' ') ++ [')'])))).head? == some '$') = false from by
        simp only [List.cons_append, List.head?_cons]
        exact hc1ne '$' (by decide)]
      simp only [Bool.false_eq_true, if_false]
      rw [show (((c1 :: t1) ++ '$' :: ((p.w2.filter (fun c => c != ' ') ++ p.w3.filter (fun c => c != ' ')) ++ (p.ip ++ '.' :: p.d1 :: p.d2 :: (p.w4.filter (fun c => c != ' ') ++ [')'])))).filter (fun c => c != ',')) =
        (c1 :: t1) ++ '$' :: (((p.w2.filter (fun c => c != ' ') ++ p.w3.filter (fun c => c != ' ')) ++ (p.ip ++ '.' :: p.d1 :: p.d2 :: (p.w4.filter (fun c => c != ' ') ++ [')']))).filter (fun c => c != ',')) from by
        rw [List.filter_append, filter_comma_ws _ hc1, List.filter_cons_of_pos (by decide)]]
      rw [show (((c1 :: t1) ++ '$' :: (((p.w2.filter (fun c => c != ' ') ++ p.w3.filter (fun c => c != ' ')) ++ (p.ip ++ '.' :: p.d1 :: p.d2 :: (p.w4.filter (fun c => c != ' ') ++ [')']))).filter (fun c => c != ','))).head? == some '.') = false from by
        simp only [List.cons_append, List.head?_cons]
        exact hc1ne '.' (by decide)]
      simp only [Bool.false_eq_true, if_false]
      rw [pyDecimal_none_of_ws_head (c1 :: t1) '$' _ hc1 (by decide) (by decide) (by decide)
        (by decide) (by decide)]
      simp

/-- `_amount_to_decimal` on a paren-free token, for arbitrary whitespace
gaps: the conversion fails exactly when a currency symbol is separated
from a leading explicit sign by residual (non-space) whitespace, and
otherwise yields the magnitude signed by the convention. -/
lemma amountToDecimal_noparen_eval (p : AmtParts) (hwf : p.WF)
    (hpo : p.po = []) (hpc : p.pc = []) :
    amountToDecimal p.render =
      (if p.dol = ['$'] ∧ p.sgn ≠ [] ∧ p.w1.filter (fun c => c != ' ') ≠ [] then none
       else some (if p.sgn = ['+'] then p.coreVal else -p.coreVal)) := by
  have hd1 := hwf.2.2.2.2.2.2.1
  have hd2 := hwf.2.2.2.2.2.2.2
  have hgap : ∀ c ∈ p.w1 ++ p.w2 ++ p.w3 ++ p.w4, pyIsWs c = true :=
    fun c hc => List.all_eq_true.mp hwf.2.2.2.2.1 c hc
  have hu1 : ∀ c ∈ p.w1.filter (fun c => c != ' '), pyIsWs c = true :=
    fun c hc => hgap c (by have := List.mem_of_mem_filter hc; simp [this])
  have hu2 : ∀ c ∈ p.w2.filter (fun c => c != ' '), pyIsWs c = true :=
    fun c hc => hgap c (by have := List.mem_of_mem_filter hc; simp [this])
  have hu3 : ∀ c ∈ p.w3.filter (fun c => c != ' '), pyIsWs c = true :=
    fun c hc => hgap c (by have := List.mem_of_mem_filter hc; simp [this])
  have hu4 : ∀ c ∈ p.w4.filter (fun c => c != ' '), pyIsWs c = true :=
    fun c hc => hgap c (by have := List.mem_of_mem_filter hc; simp [this])
  have hu23 : ∀ c ∈ p.w2.filter (fun c => c != ' ') ++ p.w3.filter (fun c => c != ' '), pyIsWs c = true := by
    intro c hc
    rcases List.mem_append.mp hc with h | h
    exacts [hu2 c h, hu3 c h]
  have hu123 : ∀ c ∈ p.w1.filter (fun c => c != ' ') ++ p.w2.filter (fun c => c != ' ') ++ p.w3.filter (fun c => c != ' '), pyIsWs c = true := by
    intro c hc
    rcases List.mem_append.mp hc with h | h
    · rcases List.mem_append.mp h with h2 | h2
      exacts [hu1 c h2, hu2 c h2]
    · exact hu3 c h
  have hcorews : ∀ c ∈ (p.ip ++ '.' :: p.d1 :: p.d2 :: ([] : List Char)), pyIsWs c = false := by
    intro c hc
    rcases List.mem_append.mp hc with h | h
    · exact isIntChar_not_ws c (ip_all_intChar p hwf c h)
    · rcases List.mem_cons.mp h with rfl | h
      · decide
      rcases List.mem_cons.mp h with rfl | h
      · exact isDigit_not_ws _ hd1
      rcases List.mem_cons.mp h with rfl | h
      · exact isDigit_not_ws _ hd2
      · simp at h
  have hends : ∀ (x : Char) (M : List Char), pyIsWs x = false →
      pyStrip (x :: (M ++ (p.ip ++ '.' :: p.d1 :: p.d2 :: ([] : List Char)))) = x :: (M ++ (p.ip ++ '.' :: p.d1 :: p.d2 :: ([] : List Char))) := by
    intro x M hx
    refine pyStrip_eq_self_of_ends _ (fun c hc => ?_) (fun c hc => ?_)
    · simp only [List.head?_cons] at hc
      rw [← (Option.some.injEq _ _).mp hc]
      exact hx
    · rw [show (x :: (M ++ (p.ip ++ '.' :: p.d1 :: p.d2 :: ([] : List Char)))) =
        (x :: (M ++ p.ip)) ++ '.' :: p.d1 :: p.d2 :: ([] : List Char) from by simp,
        getLast_core_nil] at hc
      rw [← (Option.some.injEq _ _).mp hc]
      exact isDigit_not_ws _ hd2
  rw [amountToDecimal, cleanAmt_strip_last, filter_space_render p hwf, hpo, hpc]
  rcases hwf.1 with hs | hs | hs | hs <;> rcases hwf.2.1 with hdol | hdol <;>
    rw [hs, hdol] <;>
    simp only [List.map_cons, List.map_nil, mapMinus_plus, mapMinus_hyph, mapMinus_uni,
      List.nil_append, List.cons_append, List.append_nil, List.append_assoc]
  · -- sgn = [], dol = []
    rw [if_neg (by simp), if_neg (by decide)]
    rw [show (p.w1.filter (fun c => c != ' ') ++ (p.w2.filter (fun c => c != ' ') ++ (p.w3.filter (fun c => c != ' ') ++ (p.ip ++ '.' :: p.d1 :: p.d2 :: p.w4.filter (fun c => c != ' '))))) =
      ((p.w1.filter (fun c => c != ' ') ++ p.w2.filter (fun c => c != ' ') ++ p.w3.filter (fun c => c != ' ')) ++ (p.ip ++ '.' :: p.d1 :: p.d2 :: ([] : List Char))) ++ p.w4.filter (fun c => c != ' ') from by simp]
    rw [pyStrip_ws_suffix _ _ hu4, pyStrip_ws_front _ _ hu123, pyStrip_eq_self_of _ hcorews]
    rw [show (p.ip ++ '.' :: p.d1 :: p.d2 :: ([] : List Char)) = ([] : List Char) ++ (p.ip ++ '.' :: p.d1 :: p.d2 :: ([] : List Char)) from by simp]
    unfold amountCore
    rw [wshead_beq_false _ _ (by simp) '(' (by decide)
      (ip_head_beq_false p hwf '(' (by decide) (by decide) _)]
    simp only [Bool.false_and, Bool.false_eq_true, if_false]
    rw [wshead_beq_false _ _ (by simp) '+' (by decide)
      (ip_head_beq_false p hwf '+' (by decide) (by decide) _),
      wshead_beq_false _ _ (by simp) '-' (by decide)
      (ip_head_beq_false p hwf '-' (by decide) (by decide) _)]
    simp only [Bool.false_eq_true, if_false]
    rw [wshead_beq_false _ _ (by simp) '$' (by decide)
      (ip_head_beq_false p hwf '$' (by decide) (by decide) _)]
    simp only [Bool.false_eq_true, if_false]
    rw [filter_comma_ws_core p hwf _ [] (by simp) (by simp),
      pyDecimal_wsfix_core_tail p hwf _ [] (by simp) (by simp)]
    simp
  · -- sgn = [], dol = ['$']
    rw [if_neg (by simp), if_neg (by decide)]
    rw [show (p.w1.filter (fun c => c != ' ') ++ '$' :: (p.w2.filter (fun c => c != ' ') ++ (p.w3.filter (fun c => c != ' ') ++ (p.ip ++ '.' :: p.d1 :: p.d2 :: p.w4.filter (fun c => c != ' '))))) =
      (p.w1.filter (fun c => c != ' ') ++ ('$' :: ((p.w2.filter (fun c => c != ' ') ++ p.w3.filter (fun c => c != ' ')) ++ (p.ip ++ '.' :: p.d1 :: p.d2 :: ([] : List Char)))) ) ++ p.w4.filter (fun c => c != ' ') from by simp]
    rw [pyStrip_ws_suffix _ _ hu4, pyStrip_ws_front _ _ hu1,
      show ('$' :: ((p.w2.filter (fun c => c != ' ') ++ p.w3.filter (fun c => c != ' ')) ++ (p.ip ++ '.' :: p.d1 :: p.d2 :: ([] : List Char)))) = '$' :: (((p.w2.filter (fun c => c != ' ') ++ p.w3.filter (fun c => c != ' '))) ++ (p.ip ++ '.' :: p.d1 :: p.d2 :: ([] : List Char))) from rfl,
      hends '$' (p.w2.filter (fun c => c != ' ') ++ p.w3.filter (fun c => c != ' ')) (by decide)]
    unfold amountCore
    simp only [List.head?_cons,
      show ((some '$' : Option Char) == some '(') = false from by decide,
      Bool.false_and, Bool.false_eq_true, if_false,
      show ((some '$' : Option Char) == some '+') = false from by decide,
      show ((some '$' : Option Char) == some '-') = false from by decide,
      show ((some '$' : Option Char) == some '$') = true from by decide,
      if_true, List.tail_cons]
    rw [filter_comma_ws_core p hwf _ [] hu23 (by simp),
      pyDecimal_wsfix_core_tail p hwf _ [] hu23 (by simp)]
    simp
  · -- sgn case, dol = []
    rw [if_neg (by simp), if_pos (by simp)]
    rw [show ('+' :: (p.w1.filter (fun c => c != ' ') ++ (p.w2.filter (fun c => c != ' ') ++ (p.w3.filter (fun c => c != ' ') ++ (p.ip ++ '.' :: p.d1 :: p.d2 :: p.w4.filter (fun c => c != ' ')))))) =
      ('+' :: ((p.w1.filter (fun c => c != ' ') ++ p.w2.filter (fun c => c != ' ') ++ p.w3.filter (fun c => c != ' ')) ++ (p.ip ++ '.' :: p.d1 :: p.d2 :: ([] : List Char)))) ++ p.w4.filter (fun c => c != ' ') from by simp]
    rw [pyStrip_ws_suffix _ _ hu4, hends '+' (p.w1.filter (fun c => c != ' ') ++ p.w2.filter (fun c => c != ' ') ++ p.w3.filter (fun c => c != ' ')) (by decide)]
    unfold amountCore
    simp only [List.head?_cons,
      show ((some '+' : Option Char) == some '(') = false from by decide,
      Bool.false_and, Bool.false_eq_true, if_false,
      show ((some '+' : Option Char) == some '+') = true from by decide,
      show ((some '-' : Option Char) == some '+') = false from by decide,
      show ((some '-' : Option Char) == some '-') = true from by decide,
      if_true, if_false, Bool.false_eq_true, List.tail_cons]
    rw [wshead_beq_false _ _ hu123 '$' (by decide)
      (ip_head_beq_false p hwf '$' (by decide) (by decide) _)]
    simp only [Bool.false_eq_true, if_false]
    rw [filter_comma_ws_core p hwf _ [] hu123 (by simp),
      pyDecimal_wsfix_core_tail p hwf _ [] hu123 (by simp)]
    simp
  · -- sgn case, dol = ['$']
    cases hu1e : p.w1.filter (fun c => c != ' ') with
    | nil =>
      rw [if_neg (by simp), if_pos (by simp)]
      simp only [List.nil_append]
      rw [show ('+' :: '$' :: (p.w2.filter (fun c => c != ' ') ++ (p.w3.filter (fun c => c != ' ') ++ (p.ip ++ '.' :: p.d1 :: p.d2 :: p.w4.filter (fun c => c != ' '))))) =
        ('+' :: (('$' :: (p.w2.filter (fun c => c != ' ') ++ p.w3.filter (fun c => c != ' '))) ++ (p.ip ++ '.' :: p.d1 :: p.d2 :: ([] : List Char)))) ++ p.w4.filter (fun c => c != ' ') from by simp]
      rw [pyStrip_ws_suffix _ _ hu4, hends '+' ('$' :: (p.w2.filter (fun c => c != ' ') ++ p.w3.filter (fun c => c != ' '))) (by decide)]
      unfold amountCore
      simp only [List.cons_append, List.head?_cons,
        show ((some '+' : Option Char) == some '(') = false from by decide,
        Bool.false_and, Bool.false_eq_true, if_false,
        show ((some '+' : Option Char) == some '+') = true from by decide,
        show ((some '-' : Option Char) == some '+') = false from by decide,
        show ((some '-' : Option Char) == some '-') = true from by decide,
        if_true, if_false, List.tail_cons,
        show ((some '$' : Option Char) == some '$') = true from by decide]
      rw [filter_comma_ws_core p hwf _ [] hu23 (by simp),
        pyDecimal_wsfix_core_tail p hwf _ [] hu23 (by simp)]
      simp
    | cons c1 t1 =>
      have hc1 : ∀ c ∈ (c1 :: t1), pyIsWs c = true := by
        rw [← hu1e]
        exact hu1
      have hc1w : pyIsWs c1 = true := hc1 c1 (by simp)
      have hc1ne : ∀ x : Char, pyIsWs x = false →
          ((some c1 : Option Char) == some x) = false :=
        fun x hx => beq_some_false_of_ne c1 x (fun he => by
          rw [he, hx] at hc1w
          exact absurd hc1w (by simp))
      rw [if_pos (by simp)]
      rw [show ('+' :: ((c1 :: t1) ++ '$' :: (p.w2.filter (fun c => c != ' ') ++ (p.w3.filter (fun c => c != ' ') ++ (p.ip ++ '.' :: p.d1 :: p.d2 :: p.w4.filter (fun c => c != ' ')))))) =
        ('+' :: (((c1 :: t1) ++ '$' :: (p.w2.filter (fun c => c != ' ') ++ p.w3.filter (fun c => c != ' '))) ++ (p.ip ++ '.' :: p.d1 :: p.d2 :: ([] : List Char)))) ++ p.w4.filter (fun c => c != ' ') from by simp]
      rw [pyStrip_ws_suffix _ _ hu4,
        hends '+' ((c1 :: t1) ++ '$' :: (p.w2.filter (fun c => c != ' ') ++ p.w3.filter (fun c => c != ' '))) (by decide)]
      unfold amountCore
      simp only [List.head?_cons,
        show ((some '+' : Option Char) == some '(') = false from by decide,
        Bool.false_and, Bool.false_eq_true, if_false,
        show ((some '+' : Option Char) == some '+') = true from by decide,
        show ((some '-' : Option Char) == some '+') = false from by decide,
        show ((some '-' : Option Char) == some '-') = true from by decide,
        if_true, if_false, List.tail_cons]
      rw [show (((((c1 :: t1) ++ '$' :: (p.w2.filter (fun c => c != ' ') ++ p.w3.filter (fun c => c != ' '))) ++ (p.ip ++ '.' :: p.d1 :: p.d2 :: ([] : List Char))).head? == some '$')) = false from by
        simp only [List.cons_append, List.head?_cons]
        exact hc1ne '$' (by decide)]
      simp only [Bool.false_eq_true, if_false]
      rw [show ((((c1 :: t1) ++ '$' :: (p.w2.filter (fun c => c != ' ') ++ p.w3.filter (fun c => c != ' '))) ++ (p.ip ++ '.' :: p.d1 :: p.d2 :: ([] : List Char))).filter (fun c => c != ',')) =
        (c1 :: t1) ++ '$' :: ((p.w2.filter (fun c => c != ' ') ++ p.w3.filter (fun c => c != ' ')) ++ (p.ip.filter (fun c => c != ',') ++ '.' :: p.d1 :: p.d2 :: ([] : List Char))) from by
        rw [List.filter_append, List.filter_append, filter_comma_ws _ hc1,
          List.filter_cons_of_pos (by decide), filter_comma_ws _ hu23,
          filter_comma_core p hwf [] (by simp)]
        simp]
      rw [show (((c1 :: t1) ++ '$' :: ((p.w2.filter (fun c => c != ' ') ++ p.w3.filter (fun c => c != ' ')) ++ (p.ip.filter (fun c => c != ',') ++ '.' :: p.d1 :: p.d2 :: ([] : List Char)))).head? == some '.') = false from by
        simp only [List.cons_append, List.head?_cons]
        exact hc1ne '.' (by decide)]
      simp only [Bool.false_eq_true, if_false]
      rw [pyDecimal_none_of_ws_head (c1 :: t1) '$' _ hc1 (by decide) (by decide) (by decide)
        (by decide) (by decide)]
      simp
  · -- sgn case, dol = []
    rw [if_neg (by simp), if_neg (by decide)]
    rw [show ('-' :: (p.w1.filter (fun c => c != ' ') ++ (p.w2.filter (fun c => c != ' ') ++ (p.w3.filter (fun c => c != ' ') ++ (p.ip ++ '.' :: p.d1 :: p.d2 :: p.w4.filter (fun c => c != ' ')))))) =
      ('-' :: ((p.w1.filter (fun c => c != ' ') ++ p.w2.filter (fun c => c != ' ') ++ p.w3.filter (fun c => c != ' ')) ++ (p.ip ++ '.' :: p.d1 :: p.d2 :: ([] : List Char)))) ++ p.w4.filter (fun c => c != ' ') from by simp]
    rw [pyStrip_ws_suffix _ _ hu4, hends '-' (p.w1.filter (fun c => c != ' ') ++ p.w2.filter (fun c => c != ' ') ++ p.w3.filter (fun c => c != ' ')) (by decide)]
    unfold amountCore
    simp only [List.head?_cons,
      show ((some '-' : Option Char) == some '(') = false from by decide,
      Bool.false_and, Bool.false_eq_true, if_false,
      show ((some '+' : Option Char) == some '+') = true from by decide,
      show ((some '-' : Option Char) == some '+') = false from by decide,
      show ((some '-' : Option Char) == some '-') = true from by decide,
      if_true, if_false, Bool.false_eq_true, List.tail_cons]
    rw [wshead_beq_false _ _ hu123 '$' (by decide)
      (ip_head_beq_false p hwf '$' (by decide) (by decide) _)]
    simp only [Bool.false_eq_true, if_false]
    rw [filter_comma_ws_core p hwf _ [] hu123 (by simp),
      pyDecimal_wsfix_core_tail p hwf _ [] hu123 (by simp)]
    simp
  · -- sgn case, dol = ['$']
    cases hu1e : p.w1.filter (fun c => c != ' ') with
    | nil =>
      rw [if_neg (by simp), if_neg (by decide)]
      simp only [List.nil_append]
      rw [show ('-' :: '$' :: (p.w2.filter (fun c => c != ' ') ++ (p.w3.filter (fun c => c != ' ') ++ (p.ip ++ '.' :: p.d1 :: p.d2 :: p.w4.filter (fun c => c != ' '))))) =
        ('-' :: (('$' :: (p.w2.filter (fun c => c != ' ') ++ p.w3.filter (fun c => c != ' '))) ++ (p.ip ++ '.' :: p.d1 :: p.d2 :: ([] : List Char)))) ++ p.w4.filter (fun c => c != ' ') from by simp]
      rw [pyStrip_ws_suffix _ _ hu4, hends '-' ('$' :: (p.w2.filter (fun c => c != ' ') ++ p.w3.filter (fun c => c != ' '))) (by decide)]
      unfold amountCore
      simp only [List.cons_append, List.head?_cons,
        show ((some '-' : Option Char) == some '(') = false from by decide,
        Bool.false_and, Bool.false_eq_true, if_false,
        show ((some '+' : Option Char) == some '+') = true from by decide,
        show ((some '-' : Option Char) == some '+') = false from by decide,
        show ((some '-' : Option Char) == some '-') = true from by decide,
        if_true, if_false, List.tail_cons,
        show ((some '$' : Option Char) == some '$') = true from by decide]
      rw [filter_comma_ws_core p hwf _ [] hu23 (by simp),
        pyDecimal_wsfix_core_tail p hwf _ [] hu23 (by simp)]
      simp
    | cons c1 t1 =>
      have hc1 : ∀ c ∈ (c1 :: t1), pyIsWs c = true := by
        rw [← hu1e]
        exact hu1
      have hc1w : pyIsWs c1 = true := hc1 c1 (by simp)
      have hc1ne : ∀ x : Char, pyIsWs x = false →
          ((some c1 : Option Char) == some x) = false :=
        fun x hx => beq_some_false_of_ne c1 x (fun he => by
          rw [he, hx] at hc1w
          exact absurd hc1w (by simp))
      rw [if_pos (by simp)]
      rw [show ('-' :: ((c1 :: t1) ++ '$' :: (p.w2.filter (fun c => c != ' ') ++ (p.w3.filter (fun c => c != ' ') ++ (p.ip ++ '.' :: p.d1 :: p.d2 :: p.w4.filter (fun c => c != ' ')))))) =
        ('-' :: (((c1 :: t1) ++ '$' :: (p.w2.filter (fun c => c != ' ') ++ p.w3.filter (fun c => c != ' '))) ++ (p.ip ++ '.' :: p.d1 :: p.d2 :: ([] : List Char)))) ++ p.w4.filter (fun c => c != ' ') from by simp]
      rw [pyStrip_ws_suffix _ _ hu4,
        hends '-' ((c1 :: t1) ++ '$' :: (p.w2.filter (fun c => c != ' ') ++ p.w3.filter (fun c => c != ' '))) (by decide)]
      unfold amountCore
      simp only [List.head?_cons,
        show ((some '-' : Option Char) == some '(') = false from by decide,
        Bool.false_and, Bool.false_eq_true, if_false,
        show ((some '+' : Option Char) == some '+') = true from by decide,
        show ((some '-' : Option Char) == some '+') = false from by decide,
        show ((some '-' : Option Char) == some '-') = true from by decide,
        if_true, if_false, List.tail_cons]
      rw [show (((((c1 :: t1) ++ '$' :: (p.w2.filter (fun c => c != ' ') ++ p.w3.filter (fun c => c != ' '))) ++ (p.ip ++ '.' :: p.d1 :: p.d2 :: ([] : List Char))).head? == some '$')) = false from by
        simp only [List.cons_append, List.head?_cons]
        exact hc1ne '$' (by decide)]
      simp only [Bool.false_eq_true, if_false]
      rw [show ((((c1 :: t1) ++ '$' :: (p.w2.filter (fun c => c != ' ') ++ p.w3.filter (fun c => c != ' '))) ++ (p.ip ++ '.' :: p.d1 :: p.d2 :: ([] : List Char))).filter (fun c => c != ',')) =
        (c1 :: t1) ++ '$' :: ((p.w2.filter (fun c => c != ' ') ++ p.w3.filter (fun c => c != ' ')) ++ (p.ip.filter (fun c => c != ',') ++ '.' :: p.d1 :: p.d2 :: ([] : List Char))) from by
        rw [List.filter_append, List.filter_append, filter_comma_ws _ hc1,
          List.filter_cons_of_pos (by decide), filter_comma_ws _ hu23,
          filter_comma_core p hwf [] (by simp)]
        simp]
      rw [show (((c1 :: t1) ++ '$' :: ((p.w2.filter (fun c => c != ' ') ++ p.w3.filter (fun c => c != ' ')) ++ (p.ip.filter (fun c => c != ',') ++ '.' :: p.d1 :: p.d2 :: ([] : List Char)))).head? == some '.') = false from by
        simp only [List.cons_append, List.head?_cons]
        exact hc1ne '.' (by decide)]
      simp only [Bool.false_eq_true, if_false]
      rw [pyDecimal_none_of_ws_head (c1 :: t1) '$' _ hc1 (by decide) (by decide) (by decide)
        (by decide) (by decide)]
      simp
  · -- sgn case, dol = []
    rw [if_neg (by simp), if_neg (by decide)]
    rw [show ('-' :: (p.w1.filter (fun c => c != ' ') ++ (p.w2.filter (fun c => c != ' ') ++ (p.w3.filter (fun c => c != ' ') ++ (p.ip ++ '.' :: p.d1 :: p.d2 :: p.w4.filter (fun c => c != ' ')))))) =
      ('-' :: ((p.w1.filter (fun c => c != ' ') ++ p.w2.filter (fun c => c != ' ') ++ p.w3.filter (fun c => c != ' ')) ++ (p.ip ++ '.' :: p.d1 :: p.d2 :: ([] : List Char)))) ++ p.w4.filter (fun c => c != ' ') from by simp]
    rw [pyStrip_ws_suffix _ _ hu4, hends '-' (p.w1.filter (fun c => c != ' ') ++ p.w2.filter (fun c => c != ' ') ++ p.w3.filter (fun c => c != ' ')) (by decide)]
    unfold amountCore
    simp only [List.head?_cons,
      show ((some '-' : Option Char) == some '(') = false from by decide,
      Bool.false_and, Bool.false_eq_true, if_false,
      show ((some '+' : Option Char) == some '+') = true from by decide,
      show ((some '-' : Option Char) == some '+') = false from by decide,
      show ((some '-' : Option Char) == some '-') = true from by decide,
      if_true, if_false, Bool.false_eq_true, List.tail_cons]
    rw [wshead_beq_false _ _ hu123 '$' (by decide)
      (ip_head_beq_false p hwf '$' (by decide) (by decide) _)]
    simp only [Bool.false_eq_true, if_false]
    rw [filter_comma_ws_core p hwf _ [] hu123 (by simp),
      pyDecimal_wsfix_core_tail p hwf _ [] hu123 (by simp)]
    simp
  · -- sgn case, dol = ['$']
    cases hu1e : p.w1.filter (fun c => c != ' ') with
    | nil =>
      rw [if_neg (by simp), if_neg (by decide)]
      simp only [List.nil_append]
      rw [show ('-' :: '$' :: (p.w2.filter (fun c => c != ' ') ++ (p.w3.filter (fun c => c != ' ') ++ (p.ip ++ '.' :: p.d1 :: p.d2 :: p.w4.filter (fun c => c != ' '))))) =
        ('-' :: (('$' :: (p.w2.filter (fun c => c != ' ') ++ p.w3.filter (fun c => c != ' '))) ++ (p.ip ++ '.' :: p.d1 :: p.d2 :: ([] : List Char)))) ++ p.w4.filter (fun c => c != ' ') from by simp]
      rw [pyStrip_ws_suffix _ _ hu4, hends '-' ('$' :: (p.w2.filter (fun c => c != ' ') ++ p.w3.filter (fun c => c != ' '))) (by decide)]
      unfold amountCore
      simp only [List.cons_append, List.head?_cons,
        show ((some '-' : Option Char) == some '(') = false from by decide,
        Bool.false_and, Bool.false_eq_true, if_false,
        show ((some '+' : Option Char) == some '+') = true from by decide,
        show ((some '-' : Option Char) == some '+') = false from by decide,
        show ((some '-' : Option Char) == some '-') = true from by decide,
        if_true, if_false, List.tail_cons,
        show ((some '$' : Option Char) == some '$') = true from by decide]
      rw [filter_comma_ws_core p hwf _ [] hu23 (by simp),
        pyDecimal_wsfix_core_tail p hwf _ [] hu23 (by simp)]
      simp
    | cons c1 t1 =>
      have hc1 : ∀ c ∈ (c1 :: t1), pyIsWs c = true := by
        rw [← hu1e]
        exact hu1
      have hc1w : pyIsWs c1 = true := hc1 c1 (by simp)
      have hc1ne : ∀ x : Char, pyIsWs x = false →
          ((some c1 : Option Char) == some x) = false :=
        fun x hx => beq_some_false_of_ne c1 x (fun he => by
          rw [he, hx] at hc1w
          exact absurd hc1w (by simp))
      rw [if_pos (by simp)]
      rw [show ('-' :: ((c1 :: t1) ++ '$' :: (p.w2.filter (fun c => c != ' ') ++ (p.w3.filter (fun c => c != ' ') ++ (p.ip ++ '.' :: p.d1 :: p.d2 :: p.w4.filter (fun c => c != ' ')))))) =
        ('-' :: (((c1 :: t1) ++ '$' :: (p.w2.filter (fun c => c != ' ') ++ p.w3.filter (fun c => c != ' '))) ++ (p.ip ++ '.' :: p.d1 :: p.d2 :: ([] : List Char)))) ++ p.w4.filter (fun c => c != ' ') from by simp]
      rw [pyStrip_ws_suffix _ _ hu4,
        hends '-' ((c1 :: t1) ++ '$' :: (p.w2.filter (fun c => c != ' ') ++ p.w3.filter (fun c => c != ' '))) (by decide)]
      unfold amountCore
      simp only [List.head?_cons,
        show ((some '-' : Option Char) == some '(') = false from by decide,
        Bool.false_and, Bool.false_eq_true, if_false,
        show ((some '+' : Option Char) == some '+') = true from by decide,
        show ((some '-' : Option Char) == some '+') = false from by decide,
        show ((some '-' : Option Char) == some '-') = true from by decide,
        if_true, if_false, List.tail_cons]
      rw [show (((((c1 :: t1) ++ '$' :: (p.w2.filter (fun c => c != ' ') ++ p.w3.filter (fun c => c != ' '))) ++ (p.ip ++ '.' :: p.d1 :: p.d2 :: ([] : List Char))).head? == some '$')) = false from by
        simp only [List.cons_append, List.head?_cons]
        exact hc1ne '$' (by decide)]
      simp only [Bool.false_eq_true, if_false]
      rw [show ((((c1 :: t1) ++ '$' :: (p.w2.filter (fun c => c != ' ') ++ p.w3.filter (fun c => c != ' '))) ++ (p.ip ++ '.' :: p.d1 :: p.d2 :: ([] : List Char))).filter (fun c => c != ',')) =
        (c1 :: t1) ++ '$' :: ((p.w2.filter (fun c => c != ' ') ++ p.w3.filter (fun c => c != ' ')) ++ (p.ip.filter (fun c => c != ',') ++ '.' :: p.d1 :: p.d2 :: ([] : List Char))) from by
        rw [List.filter_append, List.filter_append, filter_comma_ws _ hc1,
          List.filter_cons_of_pos (by decide), filter_comma_ws _ hu23,
          filter_comma_core p hwf [] (by simp)]
        simp]
      rw [show (((c1 :: t1) ++ '$' :: ((p.w2.filter (fun c => c != ' ') ++ p.w3.filter (fun c => c != ' ')) ++ (p.ip.filter (fun c => c != ',') ++ '.' :: p.d1 :: p.d2 :: ([] : List Char)))).head? == some '.') = false from by
        simp only [List.cons_append, List.head?_cons]
        exact hc1ne '.' (by decide)]
      simp only [Bool.false_eq_true, if_false]
      rw [pyDecimal_none_of_ws_head (c1 :: t1) '$' _ hc1 (by decide) (by decide) (by decide)
        (by decide) (by decide)]
      simp

/-- `_amount_to_decimal` on a paren-free token: the magnitude with the
sign convention (explicit `+` positive, everything else negative). -/
lemma amountToDecimal_render_noparen (p : AmtParts) (hwf : p.WF) (hsp : p.spacesOnly)
    (hpo : p.po = []) (hpc : p.pc = []) :
    amountToDecimal p.render = some (if p.sgn = ['+'] then p.coreVal else -p.coreVal) := by
  have hd1 := hwf.2.2.2.2.2.2.1
  have hd2 := hwf.2.2.2.2.2.2.2
  have hlast : ((p.ip ++ '.' :: p.d1 :: p.d2 :: ([] : List Char)).getLast? == some ')') = false := by
    rw [getLast_core_nil]
    exact digit_head_not p.d2 ')' hd2 (by decide)
  have hfc := filter_comma_core p hwf [] (by simp)
  have hval := pyDecimal_fixed_core p hwf
  rw [amountToDecimal, cleanAmt_render p hwf hsp, hpo, hpc]
  simp only [List.append_nil]
  rcases hwf.1 with hs | hs | hs | hs <;> rw [hs] <;>
    simp only [List.map_cons, List.map_nil, mapMinus_plus, mapMinus_hyph, mapMinus_uni,
      List.nil_append, List.cons_append] <;>
    rcases hwf.2.1 with hdol | hdol <;> rw [hdol] <;>
    simp only [List.nil_append, List.cons_append, List.append_nil] <;>
    unfold amountCore
  · -- sgn = [], dol = []
    rw [ip_head_beq_false p hwf '(' (by decide) (by decide) _]
    simp only [Bool.false_and, Bool.false_eq_true, if_false]
    rw [ip_head_beq_false p hwf '+' (by decide) (by decide) _,
      ip_head_beq_false p hwf '-' (by decide) (by decide) _]
    simp only [Bool.false_eq_true, if_false]
    rw [ip_head_beq_false p hwf '$' (by decide) (by decide) _]
    simp only [Bool.false_eq_true, if_false, hfc, hval]
    simp [hs]
  · -- sgn = [], dol = ['$']
    simp only [List.head?_cons,
      show ((some '$' : Option Char) == some '(') = false from by decide,
      Bool.false_and, Bool.false_eq_true, if_false,
      show ((some '$' : Option Char) == some '+') = false from by decide,
      show ((some '$' : Option Char) == some '-') = false from by decide,
      show ((some '$' : Option Char) == some '$') = true from by decide,
      if_true, List.tail_cons, hfc, hval]
    simp [hs]
  · -- sgn = ['+'], dol = []
    simp only [List.head?_cons,
      show ((some '+' : Option Char) == some '(') = false from by decide,
      Bool.false_and, Bool.false_eq_true, if_false,
      show ((some '+' : Option Char) == some '+') = true from by decide,
      if_true, List.tail_cons]
    rw [ip_head_beq_false p hwf '$' (by decide) (by decide) _]
    simp only [Bool.false_eq_true, if_false, hfc, hval]
    simp [hs]
  · -- sgn = ['+'], dol = ['$']
    simp only [List.head?_cons,
      show ((some '+' : Option Char) == some '(') = false from by decide,
      Bool.false_and, Bool.false_eq_true, if_false,
      show ((some '+' : Option Char) == some '+') = true from by decide,
      if_true, List.tail_cons,
      show ((some '$' : Option Char) == some '$') = true from by decide,
      hfc, hval]
    simp [hs]
  · -- sgn = ['-'], dol = []
    simp only [List.head?_cons,
      show ((some '-' : Option Char) == some '(') = false from by decide,
      Bool.false_and, Bool.false_eq_true, if_false,
      show ((some '-' : Option Char) == some '+') = false from by decide,
      show ((some '-' : Option Char) == some '-') = true from by decide,
      if_true, List.tail_cons]
    rw [ip_head_beq_false p hwf '$' (by decide) (by decide) _]
    simp only [Bool.false_eq_true, if_false, hfc, hval]
    simp [hs]
  · -- sgn = ['-'], dol = ['$']
    simp only [List.head?_cons,
      show ((some '-' : Option Char) == some '(') = false from by decide,
      Bool.false_and, Bool.false_eq_true, if_false,
      show ((some '-' : Option Char) == some '+') = false from by decide,
      show ((some '-' : Option Char) == some '-') = true from by decide,
      if_true, List.tail_cons,
      show ((some '$' : Option Char) == some '$') = true from by decide,
      hfc, hval]
    simp [hs]
  · -- sgn = ['−'] (mapped to '-'), dol = []
    simp only [List.head?_cons,
      show ((some '-' : Option Char) == some '(') = false from by decide,
      Bool.false_and, Bool.false_eq_true, if_false,
      show ((some '-' : Option Char) == some '+') = false from by decide,
      show ((some '-' : Option Char) == some '-') = true from by decide,
      if_true, List.tail_cons]
    rw [ip_head_beq_false p hwf '$' (by decide) (by decide) _]
    simp only [Bool.false_eq_true, if_false, hfc, hval]
    simp [hs]
  · -- sgn = ['−'] (mapped to '-'), dol = ['$']
    simp only [List.head?_cons,
      show ((some '-' : Option Char) == some '(') = false from by decide,
      Bool.false_and, Bool.false_eq_true, if_false,
      show ((some '-' : Option Char) == some '+') = false from by decide,
      show ((some '-' : Option Char) == some '-') = true from by decide,
      if_true, List.tail_cons,
      show ((some '$' : Option Char) == some '$') = true from by decide,
      hfc, hval]
    simp [hs]

lemma filter_comma_paren (p : AmtParts) (hwf : p.WF) (R : List Char)
    (hRf : R.filter (fun c => c != ',') = R) :
    ('(' :: (p.ip ++ '.' :: p.d1 :: p.d2 :: R)).filter (fun c => c != ',') =
      '(' :: (p.ip.filter (fun c => c != ',') ++ '.' :: p.d1 :: p.d2 :: R) := by
  rw [List.filter_cons]
  simp only [show (('(' : Char) != ',') = true from by decide, if_true,
    filter_comma_core p hwf R hRf]

lemma pyDecimal_fixed_core_paren (p : AmtParts) (hwf : p.WF) :
    pyDecimal (if (p.ip.filter (fun c => c != ',') ++ '.' :: p.d1 :: p.d2 :: [')']).head? == some '.'
        then '0' :: (p.ip.filter (fun c => c != ',') ++ '.' :: p.d1 :: p.d2 :: [')'])
        else p.ip.filter (fun c => c != ',') ++ '.' :: p.d1 :: p.d2 :: [')']) = none := by
  have hd1 := hwf.2.2.2.2.2.2.1
  have hd2 := hwf.2.2.2.2.2.2.2
  have hipfd := ipf_digits p hwf
  rcases hwf.2.2.2.2.2.1 with he | ⟨c, cs, he, hcd, _⟩
  · rw [he]
    simp only [List.filter_nil, List.nil_append, List.head?_cons]
    rw [if_pos (by simp)]
    have := pyDecimal_trailParen ['0'] (by decide) p.d1 p.d2 hd1 hd2
    simpa using this
  · have hipf : p.ip.filter (fun c => c != ',') = c :: cs.filter (fun c => c != ',') := by
      rw [he]
      simp [List.filter_cons, isDigit_ne c ',' hcd (by decide)]
    rw [hipf]
    simp only [List.cons_append, List.head?_cons]
    rw [if_neg (by simp [isDigit_ne c '.' hcd (by decide)])]
    have := pyDecimal_trailParen (c :: cs.filter (fun c => c != ','))
      (by rw [← hipf]; exact hipfd) p.d1 p.d2 hd1 hd2
    simpa using this

/-- `_amount_to_decimal` on a fully parenthesized token with no sign and
no currency symbol outside: negative magnitude. -/
lemma amountToDecimal_render_wrapped (p : AmtParts) (hwf : p.WF) (hsp : p.spacesOnly)
    (hsgn : p.sgn = []) (hdol : p.dol = []) (hpo : p.po = ['(']) (hpc : p.pc = [')']) :
    amountToDecimal p.render = some (-p.coreVal) := by
  have hfc := filter_comma_core p hwf [] (by simp)
  have hval := pyDecimal_fixed_core p hwf
  rw [amountToDecimal, cleanAmt_render p hwf hsp, hsgn, hdol, hpo, hpc]
  simp only [List.map_nil, List.nil_append, List.cons_append]
  unfold amountCore
  have hlast : (('(' :: (p.ip ++ '.' :: p.d1 :: p.d2 :: [')'])).getLast? == some ')') = true := by
    rw [show ('(' :: (p.ip ++ '.' :: p.d1 :: p.d2 :: [')'])) =
      ('(' :: p.ip) ++ '.' :: p.d1 :: p.d2 :: [')'] from by simp, getLast_core_paren]
    decide
  simp only [List.head?_cons, show ((some '(' : Option Char) == some '(') = true from by decide,
    hlast, Bool.and_self, if_true, List.drop_one, List.tail_cons,
    dropLast_core_paren p.ip p.d1 p.d2]
  rw [ip_head_beq_false p hwf '+' (by decide) (by decide) _,
    ip_head_beq_false p hwf '-' (by decide) (by decide) _]
  simp only [Bool.false_eq_true, if_false]
  rw [ip_head_beq_false p hwf '$' (by decide) (by decide) _]
  simp only [Bool.false_eq_true, if_false, hfc, hval]
  simp

/-- `_amount_to_decimal` fails on every other paren arrangement: a sign
or currency symbol outside the parentheses, or a single unmatched
parenthesis. -/
lemma amountToDecimal_render_fail (p : AmtParts) (hwf : p.WF) (hsp : p.spacesOnly)
    (h : (p.po = ['('] ∧ p.pc = [')'] ∧ ¬(p.sgn = [] ∧ p.dol = []))
       ∨ (p.po = ['('] ∧ p.pc = [])
       ∨ (p.po = [] ∧ p.pc = [')'])) :
    amountToDecimal p.render = none := by
  have hd1 := hwf.2.2.2.2.2.2.1
  have hd2 := hwf.2.2.2.2.2.2.2
  have hfcp1 := filter_comma_paren p hwf [')'] (by decide)
  have hfcp0 := filter_comma_paren p hwf [] (by decide)
  have hparenWs : ∀ R : List Char, (∀ c ∈ R, pyIsWs c = false) →
      ∀ c ∈ p.ip.filter (fun c => c != ',') ++ '.' :: p.d1 :: p.d2 :: R, pyIsWs c = false := by
    intro R hRw c hc
    rcases List.mem_append.mp hc with h2 | h2
    · exact isDigit_not_ws c (ipf_digits p hwf c h2)
    · rcases List.mem_cons.mp h2 with rfl | h2
      · decide
      rcases List.mem_cons.mp h2 with rfl | h2
      · exact isDigit_not_ws _ hwf.2.2.2.2.2.2.1
      rcases List.mem_cons.mp h2 with rfl | h2
      · exact isDigit_not_ws _ hwf.2.2.2.2.2.2.2
      · exact hRw c h2
  have hpp1 : pyDecimal ('(' :: (p.ip.filter (fun c => c != ',') ++ '.' :: p.d1 :: p.d2 :: [')'])) = none :=
    pyDecimal_headParen _ (hparenWs [')'] (by decide))
  have hpp0 : pyDecimal ('(' :: (p.ip.filter (fun c => c != ',') ++ '.' :: p.d1 :: p.d2 :: ([] : List Char))) = none :=
    pyDecimal_headParen _ (hparenWs [] (by simp))
  have hfcc := filter_comma_core p hwf [')'] (by decide)
  have hpcp := pyDecimal_fixed_core_paren p hwf
  rw [amountToDecimal, cleanAmt_render p hwf hsp]
  rcases h with ⟨hpo, hpc, hne⟩ | ⟨hpo, hpc⟩ | ⟨hpo, hpc⟩
  · -- both parens, but a sign or dollar outside
    rw [hpo, hpc]
    rcases hwf.1 with hs | hs | hs | hs <;> rw [hs] <;>
      rcases hwf.2.1 with hdol | hdol <;> rw [hdol] <;>
      simp only [List.map_cons, List.map_nil, mapMinus_plus, mapMinus_hyph, mapMinus_uni,
        List.nil_append, List.cons_append, List.append_nil] <;>
      unfold amountCore
    · exact absurd (And.intro hs hdol) hne
    · -- sgn = [], dol = ['$']
      simp only [List.head?_cons,
        show ((some '$' : Option Char) == some '(') = false from by decide,
        Bool.false_and, Bool.false_eq_true, if_false,
        show ((some '$' : Option Char) == some '+') = false from by decide,
        show ((some '$' : Option Char) == some '-') = false from by decide,
        show ((some '$' : Option Char) == some '$') = true from by decide,
        if_true, List.tail_cons, hfcp1,
        show ((some '(' : Option Char) == some '.') = false from by decide,
        hpp1]
      rfl
    all_goals
      simp only [List.head?_cons,
        show ((some '+' : Option Char) == some '(') = false from by decide,
        show ((some '-' : Option Char) == some '(') = false from by decide,
        Bool.false_and, Bool.false_eq_true, if_false,
        show ((some '+' : Option Char) == some '+') = true from by decide,
        show ((some '-' : Option Char) == some '+') = false from by decide,
        show ((some '-' : Option Char) == some '-') = true from by decide,
        if_true, List.tail_cons,
        show ((some '(' : Option Char) == some '$') = false from by decide,
        show ((some '$' : Option Char) == some '$') = true from by decide,
        hfcp1, show ((some '(' : Option Char) == some '.') = false from by decide,
        hpp1]
    all_goals rfl
  · -- open paren only
    rw [hpo, hpc]
    have hlast : ∀ A : List Char,
        ((A ++ '.' :: p.d1 :: p.d2 :: ([] : List Char)).getLast? == some ')') = false := by
      intro A
      rw [getLast_core_nil]
      exact digit_head_not p.d2 ')' hd2 (by decide)
    rcases hwf.1 with hs | hs | hs | hs <;> rw [hs] <;>
      rcases hwf.2.1 with hdol | hdol <;> rw [hdol] <;>
      simp only [List.map_cons, List.map_nil, mapMinus_plus, mapMinus_hyph, mapMinus_uni,
        List.nil_append, List.cons_append, List.append_nil] <;>
      unfold amountCore
    · -- sgn = [], dol = []
      rw [show ('(' :: (p.ip ++ '.' :: p.d1 :: p.d2 :: ([] : List Char))).getLast? =
        (('(' :: p.ip) ++ '.' :: p.d1 :: p.d2 :: ([] : List Char)).getLast? from by simp]
      simp only [hlast, Bool.and_false, Bool.false_eq_true, if_false, List.head?_cons,
        show ((some '(' : Option Char) == some '+') = false from by decide,
        show ((some '(' : Option Char) == some '-') = false from by decide,
        show ((some '(' : Option Char) == some '$') = false from by decide,
        hfcp0, show ((some '(' : Option Char) == some '.') = false from by decide,
        hpp0]
      rfl
    · -- sgn = [], dol = ['$']
      simp only [List.head?_cons,
        show ((some '$' : Option Char) == some '(') = false from by decide,
        Bool.false_and, Bool.false_eq_true, if_false,
        show ((some '$' : Option Char) == some '+') = false from by decide,
        show ((some '$' : Option Char) == some '-') = false from by decide,
        show ((some '$' : Option Char) == some '$') = true from by decide,
        if_true, List.tail_cons, hfcp0,
        show ((some '(' : Option Char) == some '.') = false from by decide,
        hpp0]
      rfl
    all_goals
      simp only [List.head?_cons,
        show ((some '+' : Option Char) == some '(') = false from by decide,
        show ((some '-' : Option Char) == some '(') = false from by decide,
        Bool.false_and, Bool.false_eq_true, if_false,
        show ((some '+' : Option Char) == some '+') = true from by decide,
        show ((some '-' : Option Char) == some '+') = false from by decide,
        show ((some '-' : Option Char) == some '-') = true from by decide,
        if_true, List.tail_cons,
        show ((some '(' : Option Char) == some '$') = false from by decide,
        show ((some '$' : Option Char) == some '$') = true from by decide,
        hfcp0, show ((some '(' : Option Char) == some '.') = false from by decide,
        hpp0]
    all_goals rfl
  · -- close paren only
    rw [hpo, hpc]
    rcases hwf.1 with hs | hs | hs | hs <;> rw [hs] <;>
      rcases hwf.2.1 with hdol | hdol <;> rw [hdol] <;>
      simp only [List.map_cons, List.map_nil, mapMinus_plus, mapMinus_hyph, mapMinus_uni,
        List.nil_append, List.cons_append, List.append_nil] <;>
      unfold amountCore
    · -- sgn = [], dol = []
      rw [ip_head_beq_false p hwf '(' (by decide) (by decide) _]
      simp only [Bool.false_and, Bool.false_eq_true, if_false]
      rw [ip_head_beq_false p hwf '+' (by decide) (by decide) _,
        ip_head_beq_false p hwf '-' (by decide) (by decide) _]
      simp only [Bool.false_eq_true, if_false]
      rw [ip_head_beq_false p hwf '$' (by decide) (by decide) _]
      simp only [Bool.false_eq_true, if_false, hfcc, hpcp]
      rfl
    · -- sgn = [], dol = ['$']
      simp only [List.head?_cons,
        show ((some '$' : Option Char) == some '(') = false from by decide,
        Bool.false_and, Bool.false_eq_true, if_false,
        show ((some '$' : Option Char) == some '+') = false from by decide,
        show ((some '$' : Option Char) == some '-') = false from by decide,
        show ((some '$' : Option Char) == some '$') = true from by decide,
        if_true, List.tail_cons, hfcc, hpcp]
      rfl
    · -- sgn = ['+'], dol = []
      simp only [List.head?_cons,
        show ((some '+' : Option Char) == some '(') = false from by decide,
        Bool.false_and, Bool.false_eq_true, if_false,
        show ((some '+' : Option Char) == some '+') = true from by decide,
        if_true, List.tail_cons]
      rw [ip_head_beq_false p hwf '$' (by decide) (by decide) _]
      simp only [Bool.false_eq_true, if_false, hfcc, hpcp]
      rfl
    · -- sgn = ['+'], dol = ['$']
      simp only [List.head?_cons,
        show ((some '+' : Option Char) == some '(') = false from by decide,
        Bool.false_and, Bool.false_eq_true, if_false,
        show ((some '+' : Option Char) == some '+') = true from by decide,
        if_true, List.tail_cons,
        show ((some '$' : Option Char) == some '$') = true from by decide,
        hfcc, hpcp]
      rfl
    all_goals
      simp only [List.head?_cons,
        show ((some '-' : Option Char) == some '(') = false from by decide,
        Bool.false_and, Bool.false_eq_true, if_false,
        show ((some '-' : Option Char) == some '+') = false from by decide,
        show ((some '-' : Option Char) == some '-') = true from by decide,
        if_true, List.tail_cons]
    all_goals
      first
        | (rw [ip_head_beq_false p hwf '$' (by decide) (by decide) _]
           simp only [Bool.false_eq_true, if_false, hfcc, hpcp]
           rfl)
        | (simp only [List.head?_cons,
             show ((some '$' : Option Char) == some '$') = true from by decide,
             if_true, List.tail_cons, hfcc, hpcp]
           rfl)

lemma contains_eq_false_of_not_mem (l : List Char) (a : Char) (h : a ∉ l) :
    l.contains a = false := by
  rw [List.contains_eq_any_beq, List.any_eq_false]
  intro x hx
  simp only [beq_iff_eq]
  intro he
  exact h (he ▸ hx)

lemma fixDecimal_head_not (p : AmtParts) (hwf : p.WF) (l : List Char) (x : Char)
    (hx : x.isDigit = false) (hx0 : x ≠ '0') :
    ((fixDecimal (p.ip ++ '.' :: l)).head? == some x) = false := by
  unfold fixDecimal
  rcases hwf.2.2.2.2.2.1 with he | ⟨c, cs, he, hcd, _⟩ <;> rw [he]
  · simp only [List.nil_append, List.head?_cons]
    rw [if_pos (by simp)]
    simp only [List.head?_cons]
    exact beq_some_false_of_ne '0' x (fun he2 => hx0 he2.symm)
  · simp only [List.cons_append, List.head?_cons]
    rw [if_neg (by simp [isDigit_ne c '.' hcd (by decide)])]
    simp only [List.head?_cons]
    exact digit_head_not c x hcd hx

/-- The display string of a paren-free token begins with the explicit
sign, or with the injected `-` when no sign was present. -/
lemma formatAmount_render_noparen (p : AmtParts) (hwf : p.WF)
    (hpo : p.po = []) (hpc : p.pc = []) :
    (formatAmountForCsv p.render).head? = some (if p.sgn = ['+'] then '+' else '-') := by
  have hd2 := hwf.2.2.2.2.2.2.2
  have hlast : ((p.ip ++ '.' :: p.d1 :: p.d2 :: ([] : List Char)).getLast? == some ')') = false := by
    rw [getLast_core_nil]
    exact digit_head_not p.d2 ')' hd2 (by decide)
  have hfdh := fixDecimal_head_not p hwf (p.d1 :: p.d2 :: ([] : List Char)) '(' (by decide) (by decide)
  simp only [formatAmountForCsv]
  rw [cleanFmt_render p hwf, hpo, hpc]
  simp only [List.append_nil]
  rcases hwf.1 with hs | hs | hs | hs <;> rw [hs] <;>
    simp only [List.map_cons, List.map_nil, mapMinus_plus, mapMinus_hyph, mapMinus_uni,
      List.nil_append, List.cons_append, List.append_nil]
  · -- sgn = []
    have h1 := ip_head_beq_false p hwf '(' (by decide) (by decide) (p.d1 :: p.d2 :: ([] : List Char))
    have h2 := ip_head_beq_false p hwf '$' (by decide) (by decide) (p.d1 :: p.d2 :: ([] : List Char))
    have h3 := ip_head_beq_false p hwf '+' (by decide) (by decide) (p.d1 :: p.d2 :: ([] : List Char))
    have h4 := ip_head_beq_false p hwf '-' (by decide) (by decide) (p.d1 :: p.d2 :: ([] : List Char))
    rcases hwf.2.1 with hdol | hdol <;> rw [hdol] <;>
      simp only [List.nil_append, List.cons_append]
    · simp only [h1, h2, h3, h4, Bool.false_and, Bool.false_eq_true, if_false,
        Bool.or_self, Bool.not_false, Bool.true_and, hfdh]
      simp [hs]
    · simp only [List.head?_cons, List.tail_cons,
        show ((some '$' : Option Char) == some '(') = false from by decide,
        show ((some '$' : Option Char) == some '$') = true from by decide,
        show ((some '$' : Option Char) == some '+') = false from by decide,
        show ((some '$' : Option Char) == some '-') = false from by decide,
        h3, h4, Bool.false_and, Bool.true_and, Bool.false_eq_true, if_false,
        Bool.or_self, Bool.not_false, if_true]
      simp [hs]
  all_goals (
    rcases hwf.2.1 with hdol | hdol <;> rw [hdol] <;>
      simp only [List.nil_append, List.cons_append, List.append_nil] <;>
      simp only [List.head?_cons,
        show ((some '+' : Option Char) == some '(') = false from by decide,
        show ((some '-' : Option Char) == some '(') = false from by decide,
        Bool.false_and, Bool.false_eq_true, if_false,
        show ((some '+' : Option Char) == some '$') = false from by decide,
        show ((some '-' : Option Char) == some '$') = false from by decide,
        show ((some '+' : Option Char) == some '+') = true from by decide,
        show ((some '-' : Option Char) == some '+') = false from by decide,
        show ((some '-' : Option Char) == some '-') = true from by decide,
        Bool.true_or, Bool.false_or, Bool.or_true, if_true, List.tail_cons,
        Bool.not_true, Bool.false_and])
  · rw [ip_head_beq_false p hwf '$' (by decide) (by decide) _]
    simp [hs]
  · simp [hs]
  · rw [ip_head_beq_false p hwf '$' (by decide) (by decide) _]
    simp [hs]
  · simp [hs]
  · rw [ip_head_beq_false p hwf '$' (by decide) (by decide) _]
    simp [hs]
  · simp [hs]

/-- The display string of a plain parenthesized token is itself wrapped
in parentheses. -/
lemma formatAmount_render_wrapped (p : AmtParts) (hwf : p.WF)
    (hsgn : p.sgn = []) (hdol : p.dol = []) (hpo : p.po = ['(']) (hpc : p.pc = [')']) :
    (formatAmountForCsv p.render).head? = some '(' ∧
      (formatAmountForCsv p.render).getLast? = some ')' := by
  have hlast : (('(' :: (p.ip ++ '.' :: p.d1 :: p.d2 :: [')'])).getLast? == some ')') = true := by
    rw [show ('(' :: (p.ip ++ '.' :: p.d1 :: p.d2 :: [')'])) =
      ('(' :: p.ip) ++ '.' :: p.d1 :: p.d2 :: [')'] from by simp, getLast_core_paren]
    decide
  have hnodol : ('(' :: (p.ip ++ '.' :: p.d1 :: p.d2 :: [')'])).contains '$' = false := by
    refine contains_eq_false_of_not_mem _ _ (fun hm => ?_)
    rcases List.mem_cons.mp hm with he | hm
    · exact absurd he (by decide)
    rcases List.mem_append.mp hm with h2 | h2
    · exact absurd (isIntChar_cases '$' (ip_all_intChar p hwf '$' h2))
        (by push_neg; constructor <;> decide)
    · rcases List.mem_cons.mp h2 with he | h2
      · exact absurd he (by decide)
      rcases List.mem_cons.mp h2 with he | h2
      · exact absurd (hwf.2.2.2.2.2.2.1) (by rw [← he]; decide)
      rcases List.mem_cons.mp h2 with he | h2
      · exact absurd (hwf.2.2.2.2.2.2.2) (by rw [← he]; decide)
      · rcases List.mem_singleton.mp h2 with he
        exact absurd he (by decide)
  simp only [formatAmountForCsv]
  rw [cleanFmt_render p hwf, hsgn, hdol, hpo, hpc]
  simp only [List.map_nil, List.nil_append, List.cons_append]
  simp only [List.head?_cons, show ((some '(' : Option Char) == some '(') = true from by decide,
    hlast, Bool.and_self, if_true, hnodol, Bool.false_eq_true, if_false]
  constructor
  · simp
  · rw [show ('(' :: (fixDecimal ((List.drop 1 ('(' :: (p.ip ++ '.' :: p.d1 :: p.d2 :: [')']))).dropLast.filter (fun c => c != '$')) ++ [')'])) =
      ('(' :: fixDecimal ((List.drop 1 ('(' :: (p.ip ++ '.' :: p.d1 :: p.d2 :: [')']))).dropLast.filter (fun c => c != '$'))) ++ [')'] from by simp,
      List.getLast?_concat]

lemma coreVal_nonneg (p : AmtParts) : 0 ≤ p.coreVal := by
  unfold AmtParts.coreVal
  positivity

/-- C1 (counterexample): the sign-consistency biconditional fails on the
token `"0.00"`, which the amount sub-pattern accepts: its exact value is
`0`, which is not negative, while its display string `"-0.00"` begins
with `"-"`. -/
theorem c1_sign_consistency_counterexample :
    AmtToken ("0.00".toList) ∧
    amountToDecimal ("0.00".toList) = some 0 ∧
    formatAmountForCsv ("0.00".toList) = "-0.00".toList ∧
    ¬((0 : ℚ) < 0 ↔ negDisplay (formatAmountForCsv ("0.00".toList))) := by
  refine ⟨⟨⟨[], [], [], [], [], [], ['0'], '0', '0', [], []⟩,
    ⟨Or.inl rfl, Or.inl rfl, Or.inl rfl, Or.inl rfl, by decide,
      Or.inr ⟨'0', [], rfl, by decide, by decide⟩, by decide, by decide⟩, by decide⟩,
    ?_, by decide, ?_⟩
  · have h2 : amountToDecimal ("0.00".toList) =
        (pyDecimal "0.00".toList).map (fun v => -v) := rfl
    have h3 : pyDecimal "0.00".toList =
        some (1 * (((0 : ℕ) : ℚ) + ((0 : ℕ) : ℚ) / (10 : ℚ) ^ (2 : ℕ))) := rfl
    rw [h2, h3]
    norm_num
  · intro h
    have : (0 : ℚ) < 0 := h.mpr (Or.inl rfl)
    exact absurd this (by norm_num)

/-- C1 (amended): for every token of the amount sub-pattern on which
the exact-value conversion succeeds with a nonzero value, the value is
negative exactly when the display string begins with `"-"` or is wrapped
in parentheses.  (The original claim fails only at zero-magnitude
tokens, whose value `0` is not negative while the display still carries
the negative marker.) -/
theorem c1_sign_consistency_amended (p : AmtParts) (hwf : p.WF)
    (v : ℚ) (hv : amountToDecimal p.render = some v) (hnz : v ≠ 0) :
    v < 0 ↔ negDisplay (formatAmountForCsv p.render) := by
  have hnn := coreVal_nonneg p
  rcases hwf.2.2.1 with hpo | hpo
  · rcases hwf.2.2.2.1 with hpc | hpc
    · -- no parentheses
      have hev := amountToDecimal_noparen_eval p hwf hpo hpc
      rw [hv] at hev
      by_cases hcond : p.dol = ['$'] ∧ p.sgn ≠ [] ∧ p.w1.filter (fun c => c != ' ') ≠ []
      · rw [if_pos hcond] at hev
        exact absurd hev (by simp)
      · rw [if_neg hcond] at hev
        have hveq : v = if p.sgn = ['+'] then p.coreVal else -p.coreVal :=
          (Option.some.injEq _ _).mp hev
        have hhead := formatAmount_render_noparen p hwf hpo hpc
        by_cases hplus : p.sgn = ['+']
        · rw [if_pos hplus] at hveq hhead
          have hpos : 0 < v := by
            rw [hveq]
            exact lt_of_le_of_ne hnn (fun h => hnz (by rw [hveq, ← h]))
          refine iff_of_false (by linarith) ?_
          intro hd
          rcases hd with hd | ⟨hd, _⟩ <;> rw [hhead] at hd <;>
            exact absurd ((Option.some.injEq _ _).mp hd) (by decide)
        · rw [if_neg hplus] at hveq hhead
          have hcpos : 0 < p.coreVal := by
            rcases lt_or_eq_of_le hnn with h | h
            · exact h
            · exact absurd (by rw [hveq, ← h]; norm_num) hnz
          refine iff_of_true (by rw [hveq]; linarith) (Or.inl hhead)
    · -- `)` without `(`: the value conversion fails, contradiction
      have hev := amountToDecimal_closeparen_eval p hwf hpo hpc
      rw [hv] at hev
      exact absurd hev (by simp)
  · rcases hwf.2.2.2.1 with hpc | hpc
    · -- `(` without `)`: the value conversion fails, contradiction
      have hev := amountToDecimal_openparen_eval p hwf hpo hpc
      rw [hv] at hev
      exact absurd hev (by simp)
    · -- fully parenthesized
      have hev := amountToDecimal_wrapped_eval p hwf hpo hpc
      rw [hv] at hev
      by_cases h0 : p.sgn = [] ∧ p.dol = []
      · rw [if_pos h0] at hev
        have hveq : v = -p.coreVal := (Option.some.injEq _ _).mp hev
        have hfmt := formatAmount_render_wrapped p hwf h0.1 h0.2 hpo hpc
        have hcpos : 0 < p.coreVal := by
          rcases lt_or_eq_of_le hnn with h | h
          · exact h
          · exact absurd (by rw [hveq, ← h]; norm_num) hnz
        exact iff_of_true (by rw [hveq]; linarith) (Or.inr hfmt)
      · rw [if_neg h0] at hev
        exact absurd hev (by simp)

/-- C1 (witness): the amended biconditional instantiated at the token
`"$12.34"`. -/
theorem c1_sign_consistency_witness :
    (-617 / 50 : ℚ) < 0 ↔
      negDisplay (formatAmountForCsv (AmtParts.render
        ⟨[], [], ['$'], [], [], [], ['1', '2'], '3', '4', [], []⟩)) := by
  have hv : amountToDecimal (AmtParts.render
      ⟨[], [], ['$'], [], [], [], ['1', '2'], '3', '4', [], []⟩) = some (-617 / 50 : ℚ) := by
    have h2 : amountToDecimal (AmtParts.render
        ⟨[], [], ['$'], [], [], [], ['1', '2'], '3', '4', [], []⟩) =
        (pyDecimal "12.34".toList).map (fun v => -v) := rfl
    have h3 : pyDecimal "12.34".toList =
        some (1 * (((12 : ℕ) : ℚ) + ((34 : ℕ) : ℚ) / (10 : ℚ) ^ (2 : ℕ))) := rfl
    rw [h2, h3]
    norm_num
  exact c1_sign_consistency_amended ⟨[], [], ['$'], [], [], [], ['1', '2'], '3', '4', [], []⟩
    ⟨Or.inl rfl, Or.inr rfl, Or.inl rfl, Or.inl rfl, by decide,
      Or.inr ⟨'1', ['2'], rfl, by decide, by decide⟩, by decide, by decide⟩
    (-617 / 50) hv (by norm_num)

/-- C2 (counterexample): the amount sub-pattern accepts `"$(12.34)"`
(the `$` sits before the opening parenthesis in the pattern), yet
`_amount_to_decimal` raises `AmountParseError` on it, so the error
branch is reachable from pattern-accepted tokens. -/
theorem c2_amount_parse_counterexample :
    AmtToken ("$(12.34)".toList) ∧ amountToDecimal ("$(12.34)".toList) = none := by
  refine ⟨⟨⟨[], [], ['$'], [], ['('], [], ['1', '2'], '3', '4', [], [')']⟩,
    ⟨Or.inl rfl, Or.inr rfl, Or.inr rfl, Or.inr rfl, by decide,
      Or.inr ⟨'1', ['2'], rfl, by decide, by decide⟩, by decide, by decide⟩, by decide⟩,
    by decide⟩

/-- C2 (amended): for a token of the amount sub-pattern whose whitespace
gaps are spaces, `_amount_to_decimal` succeeds exactly when the token
has no parentheses at all, or is fully parenthesized with no sign and no
currency symbol outside the parentheses.  (The original claim that the
error branch is unreachable fails, e.g. at `"$(12.34)"`.) -/
theorem c2_amount_parse_amended (p : AmtParts) (hwf : p.WF) (hsp : p.spacesOnly) :
    (amountToDecimal p.render).isSome = true ↔
      ((p.po = [] ∧ p.pc = []) ∨
        (p.po = ['('] ∧ p.pc = [')'] ∧ p.sgn = [] ∧ p.dol = [])) := by
  rcases hwf.2.2.1 with hpo | hpo <;> rcases hwf.2.2.2.1 with hpc | hpc
  · refine iff_of_true ?_ (Or.inl ⟨hpo, hpc⟩)
    rw [amountToDecimal_render_noparen p hwf hsp hpo hpc]
    rfl
  · refine iff_of_false ?_ ?_
    · rw [amountToDecimal_render_fail p hwf hsp (Or.inr (Or.inr ⟨hpo, hpc⟩))]
      simp
    · rintro (⟨_, h⟩ | ⟨h, _⟩)
      · rw [hpc] at h; exact absurd h (by decide)
      · rw [hpo] at h; exact absurd h (by decide)
  · refine iff_of_false ?_ ?_
    · rw [amountToDecimal_render_fail p hwf hsp (Or.inr (Or.inl ⟨hpo, hpc⟩))]
      simp
    · rintro (⟨h, _⟩ | ⟨_, h, _⟩)
      · rw [hpo] at h; exact absurd h (by decide)
      · rw [hpc] at h; exact absurd h (by decide)
  · by_cases h0 : p.sgn = [] ∧ p.dol = []
    · refine iff_of_true ?_ (Or.inr ⟨hpo, hpc, h0.1, h0.2⟩)
      rw [amountToDecimal_render_wrapped p hwf hsp h0.1 h0.2 hpo hpc]
      rfl
    · refine iff_of_false ?_ ?_
      · rw [amountToDecimal_render_fail p hwf hsp (Or.inl ⟨hpo, hpc, h0⟩)]
        simp
      · rintro (⟨h, _⟩ | ⟨_, _, h1, h2⟩)
        · rw [hpo] at h; exact absurd h (by decide)
        · exact h0 ⟨h1, h2⟩

/-- C2 (witness): the amended equivalence instantiated at the
parenthesized token `"(5.00)"`. -/
theorem c2_amount_parse_witness :
    (amountToDecimal (AmtParts.render
      ⟨[], [], [], [], ['('], [], ['5'], '0', '0', [], [')']⟩)).isSome = true :=
  (c2_amount_parse_amended ⟨[], [], [], [], ['('], [], ['5'], '0', '0', [], [')']⟩
    ⟨Or.inl rfl, Or.inl rfl, Or.inr rfl, Or.inr rfl, by decide,
      Or.inr ⟨'5', [], rfl, by decide, by decide⟩, by decide, by decide⟩
    (by unfold AmtParts.spacesOnly; decide)).mpr (Or.inr ⟨rfl, rfl, rfl, rfl⟩)

/-- C6: the Amount Interpreter is exact on the three unambiguous example
tokens: `"$12.34"` (no sign) has value `-12.34` and display `"-$12.34"`,
`"($5.00)"` has value `-5.00` and display `"($5.00)"`, and `"+$3.21"`
has value `3.21` and display `"+$3.21"`. -/
theorem c6_roundtrip_unambiguous :
    amountToDecimal ("$12.34".toList) = some (-1234 / 100 : ℚ) ∧
    formatAmountForCsv ("$12.34".toList) = "-$12.34".toList ∧
    amountToDecimal ("($5.00)".toList) = some (-500 / 100 : ℚ) ∧
    formatAmountForCsv ("($5.00)".toList) = "($5.00)".toList ∧
    amountToDecimal ("+$3.21".toList) = some (321 / 100 : ℚ) ∧
    formatAmountForCsv ("+$3.21".toList) = "+$3.21".toList := by
  refine ⟨?_, by decide, ?_, by decide, ?_, by decide⟩
  · have h2 : amountToDecimal ("$12.34".toList) =
        (pyDecimal "12.34".toList).map (fun v => -v) := rfl
    have h3 : pyDecimal "12.34".toList =
        some (1 * (((12 : ℕ) : ℚ) + ((34 : ℕ) : ℚ) / (10 : ℚ) ^ (2 : ℕ))) := rfl
    rw [h2, h3]
    norm_num
  · have h2 : amountToDecimal ("($5.00)".toList) =
        (pyDecimal "5.00".toList).map (fun v => -v) := rfl
    have h3 : pyDecimal "5.00".toList =
        some (1 * (((5 : ℕ) : ℚ) + ((0 : ℕ) : ℚ) / (10 : ℚ) ^ (2 : ℕ))) := rfl
    rw [h2, h3]
    norm_num
  · have h2 : amountToDecimal ("+$3.21".toList) =
        (pyDecimal "3.21".toList).map (fun v => v) := rfl
    have h3 : pyDecimal "3.21".toList =
        some (1 * (((3 : ℕ) : ℚ) + ((21 : ℕ) : ℚ) / (10 : ℚ) ^ (2 : ℕ))) := rfl
    rw [h2, h3]
    norm_num

lemma pySplitSlashGo_append (a : List Char) (h : ∀ c ∈ a, c ≠ '/') :
    ∀ (cur l : List Char), pySplitSlashGo cur (a ++ l) = pySplitSlashGo (a.reverse ++ cur) l := by
  induction a with
  | nil => intro cur l; simp
  | cons c cs ih =>
    intro cur l
    rw [show (c :: cs) ++ l = c :: (cs ++ l) from rfl,
      show pySplitSlashGo cur (c :: (cs ++ l)) =
        if c = '/' then cur.reverse :: pySplitSlashGo [] (cs ++ l)
        else pySplitSlashGo (c :: cur) (cs ++ l) from rfl,
      if_neg (h c (by simp)), ih (fun x hx => h x (by simp [hx])) (c :: cur) l]
    simp

lemma pySplitSlash_three (a b c : List Char) (ha : ∀ x ∈ a, x ≠ '/')
    (hb : ∀ x ∈ b, x ≠ '/') (hc : ∀ x ∈ c, x ≠ '/') :
    pySplitSlash (a ++ '/' :: (b ++ '/' :: c)) = [a, b, c] := by
  unfold pySplitSlash
  rw [pySplitSlashGo_append a ha, show pySplitSlashGo (a.reverse ++ []) ('/' :: (b ++ '/' :: c)) =
    (a.reverse ++ []).reverse :: pySplitSlashGo [] (b ++ '/' :: c) from by
      simp [pySplitSlashGo],
    pySplitSlashGo_append b hb, show pySplitSlashGo (b.reverse ++ []) ('/' :: c) =
    (b.reverse ++ []).reverse :: pySplitSlashGo [] c from by
      simp [pySplitSlashGo]]
  have : pySplitSlashGo [] c = [c] := by
    have := pySplitSlashGo_append c hc [] []
    simpa [pySplitSlashGo] using this
  rw [this]
  simp

lemma pyInt_digits (a : List Char) (h : a ≠ []) (hd : ∀ c ∈ a, c.isDigit = true) :
    pyInt a = some ((natOfDigits a : ℤ)) := by
  unfold pyInt
  rw [pyStrip_eq_self_of _ (fun c hc => isDigit_not_ws c (hd c hc))]
  cases a with
  | nil => exact absurd rfl h
  | cons c cs =>
    simp only [List.head?_cons, digit_head_not c '+' (hd c (by simp)) (by decide),
      digit_head_not c '-' (hd c (by simp)) (by decide), Bool.false_eq_true, if_false]
    rw [if_pos]
    · rw [one_mul]
    · simp only [List.isEmpty_cons, Bool.not_false, Bool.true_and]
      exact List.all_eq_true.mpr hd

/-- C9: date parsing splits `M/D/Y` on the slashes, reads the integer
components, and windows a two-digit year to `2000+YY` when `YY ≤ 69` and
to `1900+YY` otherwise, while a year of 100 or more (in particular a
four-digit year) is taken as written; the windowed date is then
validated by the calendar. -/
theorem c9_two_digit_year_windowing (ma db yc : List Char)
    (hma : ma ≠ []) (hmad : ∀ c ∈ ma, c.isDigit = true)
    (hdb : db ≠ []) (hdbd : ∀ c ∈ db, c.isDigit = true)
    (hyc : yc ≠ []) (hycd : ∀ c ∈ yc, c.isDigit = true) :
    parseMMDDYYYY (ma ++ '/' :: (db ++ '/' :: yc)) =
      pyDate (if (natOfDigits yc : ℤ) < 100 then
                (if (natOfDigits yc : ℤ) ≤ 69 then (natOfDigits yc : ℤ) + 2000
                 else (natOfDigits yc : ℤ) + 1900)
              else (natOfDigits yc : ℤ))
        (natOfDigits ma) (natOfDigits db) := by
  have hslash : ∀ (l : List Char), (∀ c ∈ l, c.isDigit = true) → ∀ x ∈ l, x ≠ '/' :=
    fun l hl x hx => isDigit_ne x '/' (hl x hx) (by decide)
  unfold parseMMDDYYYY
  rw [pyStrip_eq_self_of _ (fun c hc => by
    rcases List.mem_append.mp hc with h2 | h2
    · exact isDigit_not_ws c (hmad c h2)
    rcases List.mem_cons.mp h2 with rfl | h2
    · decide
    rcases List.mem_append.mp h2 with h2 | h2
    · exact isDigit_not_ws c (hdbd c h2)
    rcases List.mem_cons.mp h2 with rfl | h2
    · decide
    · exact isDigit_not_ws c (hycd c h2))]
  rw [pySplitSlash_three ma db yc (hslash ma hmad) (hslash db hdbd) (hslash yc hycd)]
  show (match pyInt ma, pyInt db, pyInt yc with
    | some m, some d, some y =>
      let y2 := if y < 100 then if y ≤ 69 then y + 2000 else y + 1900 else y
      pyDate y2 m d
    | _, _, _ => none) = _
  rw [pyInt_digits ma hma hmad, pyInt_digits db hdb hdbd, pyInt_digits yc hyc hycd]

/-- C9 (witness): the windowing at the claim's three sample years,
`17 → 2017`, `69 → 2069`, `70 → 1970`, and a four-digit year taken as
written. -/
theorem c9_two_digit_year_windowing_witness :
    parseMMDDYYYY ("01/05/17".toList) = some ⟨2017, 1, 5⟩ ∧
    parseMMDDYYYY ("12/31/69".toList) = some ⟨2069, 12, 31⟩ ∧
    parseMMDDYYYY ("1/1/70".toList) = some ⟨1970, 1, 1⟩ ∧
    parseMMDDYYYY ("1/1/2017".toList) = some ⟨2017, 1, 1⟩ := by
  refine ⟨?_, ?_, ?_, ?_⟩
  · rw [show "01/05/17".toList = "01".toList ++ '/' :: ("05".toList ++ '/' :: "17".toList) from rfl,
      c9_two_digit_year_windowing _ _ _ (by decide) (by decide) (by decide) (by decide)
        (by decide) (by decide)]
    decide
  · rw [show "12/31/69".toList = "12".toList ++ '/' :: ("31".toList ++ '/' :: "69".toList) from rfl,
      c9_two_digit_year_windowing _ _ _ (by decide) (by decide) (by decide) (by decide)
        (by decide) (by decide)]
    decide
  · rw [show "1/1/70".toList = "1".toList ++ '/' :: ("1".toList ++ '/' :: "70".toList) from rfl,
      c9_two_digit_year_windowing _ _ _ (by decide) (by decide) (by decide) (by decide)
        (by decide) (by decide)]
    decide
  · rw [show "1/1/2017".toList = "1".toList ++ '/' :: ("1".toList ++ '/' :: "2017".toList) from rfl,
      c9_two_digit_year_windowing _ _ _ (by decide) (by decide) (by decide) (by decide)
        (by decide) (by decide)]
    decide

/-- C3: for every candidate line matched by the transaction pattern with
month `mm` and day `dd`, and every closing context `(cy, cm)`, the
transaction the loop body produces carries the date
`year-mm-dd` with `year = cy - 1` when `mm > cm` and `year = cy`
otherwise. -/
theorem c3_year_inference (cy cm : ℤ) (ln : List Char) (mm dd : ℕ)
    (desc amt : List Char) (t : Txn)
    (hp : parseTxnLine ln = some (mm, dd, desc, amt))
    (ht : processTxnLine cy cm ln = .ok (some t)) :
    t.dateIso = dateIsoStr (if (mm : ℤ) > cm then cy - 1 else cy) mm dd := by
  unfold processTxnLine at ht
  rw [hp] at ht
  dsimp only at ht
  cases hA : amountToDecimal (pyStrip amt) with
  | none =>
    rw [hA] at ht
    exact absurd ht (by simp)
  | some v =>
    rw [hA] at ht
    simp only [Except.ok.injEq, Option.some.injEq] at ht
    rw [← ht]

/-- C3 (witness): with the closing context taken from the closing date
`01/12/18` (closing year 2018, closing month 1), a `12/13` line is dated
in 2017 and a `01/05` line in 2018. -/
theorem c3_year_inference_witness :
    parseMMDDYYYY ("01/12/18".toList) = some ⟨2018, 1, 12⟩ ∧
    (processTxnLine 2018 1 ("12/13 STORE 5.00".toList)).map (Option.map Txn.dateIso) =
      .ok (some ("2017-12-13".toList)) ∧
    (processTxnLine 2018 1 ("01/05 STORE 5.00".toList)).map (Option.map Txn.dateIso) =
      .ok (some ("2018-01-05".toList)) := by
  have hex : ∀ cy cm : ℤ, ∀ ln : List Char,
      parseTxnLine ln = some (12, 13, "STORE".toList, "5.00".toList) ∨
      parseTxnLine ln = some (1, 5, "STORE".toList, "5.00".toList) →
      ∃ t, processTxnLine cy cm ln = .ok (some t) := by
    intro cy cm ln hp
    have ha : ∃ v, amountToDecimal (pyStrip ("5.00".toList)) = some v := by
      have h2 : amountToDecimal (pyStrip ("5.00".toList)) =
          (pyDecimal "5.00".toList).map (fun v => -v) := rfl
      rw [h2]
      exact ⟨_, rfl⟩
    obtain ⟨v, hv⟩ := ha
    unfold processTxnLine
    rcases hp with hp | hp <;> rw [hp] <;> dsimp only <;> rw [hv] <;> exact ⟨_, rfl⟩
  refine ⟨by decide, ?_, ?_⟩
  · have hp : parseTxnLine ("12/13 STORE 5.00".toList) =
        some (12, 13, "STORE".toList, "5.00".toList) := by decide
    obtain ⟨t, ht⟩ := hex 2018 1 _ (Or.inl hp)
    have hdio := c3_year_inference 2018 1 _ 12 13 _ _ t hp ht
    rw [ht, show (Except.ok (some t) : Except ExtErr (Option Txn)).map (Option.map Txn.dateIso) =
      Except.ok (some t.dateIso) from rfl, hdio]
    simp only [Except.ok.injEq, Option.some.injEq]
    decide
  · have hp : parseTxnLine ("01/05 STORE 5.00".toList) =
        some (1, 5, "STORE".toList, "5.00".toList) := by decide
    obtain ⟨t, ht⟩ := hex 2018 1 _ (Or.inr hp)
    have hdio := c3_year_inference 2018 1 _ 1 5 _ _ t hp ht
    rw [ht, show (Except.ok (some t) : Except ExtErr (Option Txn)).map (Option.map Txn.dateIso) =
      Except.ok (some t.dateIso) from rfl, hdio]
    simp only [Except.ok.injEq, Option.some.injEq]
    decide

/-- C4: the Summary table has exactly 16 rows, one per catalogued field
in the fixed catalogue order, and a field absent from the extracted
mapping is rendered with an empty value. -/
theorem c4_field_completeness (fields : List (List Char × List Char)) :
    (summaryRows fields).length = 16 ∧
    (summaryRows fields).map Prod.fst = SUMMARY_FIELDS_ORDER ∧
    ∀ f ∈ SUMMARY_FIELDS_ORDER, fields.lookup f = none →
      (f, ([] : List Char)) ∈ summaryRows fields := by
  refine ⟨?_, ?_, ?_⟩
  · rw [summaryRows, List.length_map]
    rfl
  · rw [summaryRows, List.map_map]
    rw [show (Prod.fst ∘ fun f => (f, ((fields.lookup f).getD ([] : List Char)))) = id from rfl,
      List.map_id]
  · intro f hf hnone
    rw [summaryRows]
    exact List.mem_map.mpr ⟨f, hf, by rw [hnone]; rfl⟩

/-- C4 (witness): with no field found, the table still has its 16 rows
in order and renders "Purchases" as empty. -/
theorem c4_field_completeness_witness :
    (summaryRows []).length = 16 ∧
    (summaryRows []).map Prod.fst = SUMMARY_FIELDS_ORDER ∧
    ("Purchases".toList, ([] : List Char)) ∈ summaryRows [] :=
  ⟨(c4_field_completeness []).1, (c4_field_completeness []).2.1,
    (c4_field_completeness []).2.2 ("Purchases".toList) (by decide) rfl⟩

/-- C7: the footer figures count the transactions with strictly positive
and strictly negative values and sum each group exactly; on the values
`[-12.34, 45.00, -5.00]` this gives counts 1 and 2, total credits
`45.00` and total debits `-17.34`. -/
theorem c7_footer_totals :
    (∀ txns : List Txn,
      footerOf txns = (txns.countP (fun t => decide (0 < t.amountDec)),
        txns.countP (fun t => decide (t.amountDec < 0)),
        ((txns.filter (fun t => decide (0 < t.amountDec))).map Txn.amountDec).sum,
        ((txns.filter (fun t => decide (t.amountDec < 0))).map Txn.amountDec).sum)) ∧
    footerOf [⟨[], [], [], (-1234 / 100 : ℚ)⟩, ⟨[], [], [], 45⟩, ⟨[], [], [], -5⟩] =
      (1, 2, 45, (-1734 / 100 : ℚ)) := by
  constructor
  · intro txns
    unfold footerOf
    rw [List.countP_eq_length_filter, List.countP_eq_length_filter,
      List.sum_eq_foldl, List.sum_eq_foldl]
  · have h1 : ¬(0 : ℚ) < -1234 / 100 := by norm_num
    have h2 : (0 : ℚ) < 45 := by norm_num
    have h3 : ¬(0 : ℚ) < -5 := by norm_num
    have h4 : (-1234 / 100 : ℚ) < 0 := by norm_num
    have h5 : ¬(45 : ℚ) < 0 := by norm_num
    have h6 : (-5 : ℚ) < 0 := by norm_num
    unfold footerOf
    simp only [List.filter_cons, List.filter_nil, decide_eq_true_eq, h1, h2, h3, h4, h5, h6,
      if_true, if_false, List.length_cons, List.length_nil, List.map_cons, List.map_nil,
      List.foldl_cons, List.foldl_nil]
    norm_num

/-- C8: a found "Purchases" value is stored with every currency symbol
removed while any other catalogued label keeps its grabbed value
verbatim; concretely, a summary section containing
`"Purchases: $1,234.56"` grabs `"$1,234.56"` and stores `"1,234.56"`,
while `"New Balance: $4,233.99"` keeps its `$`. -/
theorem c8_purchases_strips_currency :
    (∀ block lab v, lab ∈ LABELS → lab ≠ "Purchases".toList → grab lab block = some v →
      (lab, v) ∈ labelFields block) ∧
    (∀ block v, grab ("Purchases".toList) block = some v →
      ("Purchases".toList, v.filter (fun c => c != '$')) ∈ labelFields block) ∧
    grab ("Purchases".toList)
      ("ACCOUNT SUMMARY Opening/Closing Date: 12/13/17 - 01/12/18 Purchases: $1,234.56 New Balance: $4,233.99".toList) =
      some ("$1,234.56".toList) ∧
    (extractSummaryFields
      ("ACCOUNT SUMMARY Opening/Closing Date: 12/13/17 - 01/12/18 Purchases: $1,234.56 New Balance: $4,233.99".toList)).toOption =
      some ([("Opening/Closing Date".toList, "12/13/17 – 01/12/18".toList),
             ("Purchases".toList, "1,234.56".toList),
             ("New Balance".toList, "$4,233.99".toList)], ⟨2018, 1, 12⟩) := by
  refine ⟨?_, ?_, by decide, by decide⟩
  · intro block lab v hmem hne hgrab
    refine List.mem_filterMap.mpr ⟨lab, hmem, ?_⟩
    rw [hgrab]; simp only [Option.map]; rw [if_neg hne]
  · intro block v hgrab
    refine List.mem_filterMap.mpr ⟨"Purchases".toList, by decide, ?_⟩
    rw [hgrab]; simp [Option.map]

/-- C8 (witness): the preservation half instantiated at the concrete
block and the "New Balance" label. -/
theorem c8_purchases_strips_currency_witness :
    ("New Balance".toList, "$4,233.99".toList) ∈ labelFields
      ("ACCOUNT SUMMARY Opening/Closing Date: 12/13/17 - 01/12/18 Purchases: $1,234.56 New Balance: $4,233.99".toList) :=
  c8_purchases_strips_currency.1 _ ("New Balance".toList) ("$4,233.99".toList)
    (by decide) (by decide) (by decide)

lemma lastWord_cons (pw : Bool) (c : Char) (pre : List Char) :
    lastWord pw (c :: pre) = lastWord (wordChar c) pre := by
  cases pre with
  | nil => rfl
  | cons d ds => rfl

lemma findWordPairIdx_none_iff (w2 t : List Char) :
    ∀ pw : Bool, findWordPairIdx w2 pw t = none ↔
      ∀ pre suf, t = pre ++ suf → lastWord pw pre = false →
        matchWordPairFrom w2 suf = false := by
  induction t with
  | nil =>
    intro pw
    constructor
    · intro _ pre suf hsplit _
      have hpre : pre = [] := by
        cases pre with
        | nil => rfl
        | cons a as => simp at hsplit
      subst hpre
      have hsuf : suf = [] := by simpa using hsplit.symm
      subst hsuf
      rfl
    · intro _; rfl
  | cons c cs ih =>
    intro pw
    simp only [findWordPairIdx]
    constructor
    · intro h pre suf hsplit hlw
      by_cases hm : (!pw && matchWordPairFrom w2 (c :: cs)) = true
      · rw [if_pos hm] at h; cases h
      · rw [if_neg hm] at h
        rw [Option.map_eq_none'] at h
        cases pre with
        | nil =>
          have hsuf : suf = c :: cs := by simpa using hsplit.symm
          subst hsuf
          have hpw : pw = false := hlw
          subst hpw
          cases hmt : matchWordPairFrom w2 (c :: cs) with
          | false => rfl
          | true => exact absurd (by simp [hmt]) hm
        | cons d pre' =>
          have hdc : c = d ∧ cs = pre' ++ suf := by simpa using hsplit
          obtain ⟨hdc1, hcs⟩ := hdc
          subst hdc1
          rw [lastWord_cons] at hlw
          exact (ih (wordChar c)).mp h pre' suf hcs hlw
    · intro h
      have hm : (!pw && matchWordPairFrom w2 (c :: cs)) = false := by
        cases pw with
        | true => simp
        | false =>
          have hmf := h [] (c :: cs) rfl rfl
          simp [hmf]
      rw [if_neg (by simp [hm]), Option.map_eq_none']
      refine (ih (wordChar c)).mpr ?_
      intro pre suf hsplit hlw
      refine h (c :: pre) suf (by rw [hsplit]; rfl) ?_
      rw [lastWord_cons]
      exact hlw

lemma findWordPairIdx_some_has (w2 : List Char) :
    ∀ (t : List Char) (pw : Bool) (i : Nat),
      findWordPairIdx w2 pw t = some i →
      ∃ pre suf, t = pre ++ suf ∧ lastWord pw pre = false ∧
        matchWordPairFrom w2 suf = true := by
  intro t
  induction t with
  | nil => intro pw i h; simp [findWordPairIdx] at h
  | cons c cs ih =>
    intro pw i h
    simp only [findWordPairIdx] at h
    by_cases hm : (!pw && matchWordPairFrom w2 (c :: cs)) = true
    · refine ⟨[], c :: cs, rfl, ?_, ?_⟩
      · have hpw : pw = false := by
          cases pw with
          | false => rfl
          | true => simp at hm
        exact hpw
      · have hm2 := hm
        simp only [Bool.and_eq_true] at hm2
        exact hm2.2
    · rw [if_neg hm, Option.map_eq_some'] at h
      obtain ⟨j, hj, _⟩ := h
      obtain ⟨pre, suf, hsplit, hlw, hmt⟩ := ih (wordChar c) j hj
      refine ⟨c :: pre, suf, by rw [hsplit]; rfl, ?_, hmt⟩
      rw [lastWord_cons]
      exact hlw

lemma extractSummaryBlock_snf_iff (t : List Char) :
    extractSummaryBlock t = .error .sectionNotFound ↔
      ¬ HasWordPair "SUMMARY".toList t := by
  unfold extractSummaryBlock
  cases hidx : findWordPairIdx "SUMMARY".toList false t with
  | none =>
    constructor
    · rintro _ ⟨pre, suf, hsplit, hlw, hmt⟩
      have hmf := (findWordPairIdx_none_iff "SUMMARY".toList t false).mp hidx pre suf hsplit hlw
      rw [hmt] at hmf
      cases hmf
    · intro _; rfl
  | some i =>
    constructor
    · intro h; exact absurd h (by simp)
    · intro hn
      obtain ⟨pre, suf, hsplit, hlw, hmt⟩ :=
        findWordPairIdx_some_has "SUMMARY".toList t false i hidx
      exact absurd ⟨pre, suf, hsplit, hlw, hmt⟩ hn

lemma extractSummaryFields_not_snf (b : List Char) :
    extractSummaryFields b ≠ .error .sectionNotFound := by
  unfold extractSummaryFields
  cases hdr : findDateRange b with
  | none => simp
  | some p =>
    obtain ⟨g1, g2⟩ := p
    cases h1 : parseMMDDYYYY g1 with
    | none => simp [h1]
    | some d1 =>
      cases h2 : parseMMDDYYYY g2 with
      | none => simp [h1, h2]
      | some d2 => simp [h1, h2]

lemma processTxnLine_not_snf (cy cm : Int) (ln : List Char) :
    processTxnLine cy cm ln ≠ .error .sectionNotFound := by
  cases h : parseTxnLine ln with
  | none => simp [processTxnLine, h]
  | some q =>
    obtain ⟨mm, dd, desc, amt⟩ := q
    cases h2 : amountToDecimal (pyStrip amt) with
    | none => simp [processTxnLine, h, h2]
    | some v => simp [processTxnLine, h, h2]

lemma parseTransactions_not_snf (cy cm : Int) (ls : List (List Char)) :
    parseTransactions cy cm ls ≠ .error .sectionNotFound := by
  induction ls with
  | nil => simp [parseTransactions]
  | cons ln rest ih =>
    simp only [parseTransactions]
    cases hp : processTxnLine cy cm ln with
    | error e =>
      intro hcontra
      have he : e = .sectionNotFound := by
        simpa using hcontra
      exact processTxnLine_not_snf cy cm ln (by rw [hp, he])
    | ok o =>
      cases o with
      | none => exact ih
      | some t =>
        cases hr : parseTransactions cy cm rest with
        | error e =>
          intro hco
          apply ih
          rw [hr]
          simpa [Except.map] using hco
        | ok ts => simp [Except.map]

lemma extractPipeline_snf_iff (pages : List (List Char)) :
    extractPipeline pages = .error .sectionNotFound ↔
      extractSummaryBlock (norm (List.intercalate ['\n'] (pages.map norm))) =
        .error .sectionNotFound := by
  simp only [extractPipeline]
  cases hb : extractSummaryBlock (norm (List.intercalate ['\n'] (pages.map norm))) with
  | error e => dsimp only; simp only [Except.error.injEq]
  | ok block =>
    dsimp only
    constructor
    · intro h
      exfalso
      cases hf : extractSummaryFields block with
      | error e =>
        rw [hf] at h
        dsimp only at h
        have he : e = .sectionNotFound := by simpa using h
        exact extractSummaryFields_not_snf block (by rw [hf, he])
      | ok p =>
        obtain ⟨f0, closeD⟩ := p
        rw [hf] at h
        dsimp only at h
        cases ht : parseTransactions closeD.year closeD.month
            (iterActivityLines (pages.map norm)) with
        | error e =>
          rw [ht] at h
          dsimp only at h
          have he : e = .sectionNotFound := by simpa using h
          exact parseTransactions_not_snf _ _ _ (by rw [ht, he])
        | ok txns =>
          rw [ht] at h
          dsimp only at h
          exact absurd h (by simp)
    · intro h; exact absurd h (by simp)

/-- C5: the pipeline aborts with the `SectionNotFound` condition exactly
when the heading `ACCOUNT SUMMARY` (case-insensitive, any internal
whitespace run, word boundaries on both sides) is absent from the
normalized full-document text, and then no output is produced; a concrete
heading-less statement indeed aborts with that error. -/
theorem c5_section_not_found :
    (∀ pages, extractPipeline pages = .error .sectionNotFound ↔
        ¬ HasWordPair "SUMMARY".toList
          (norm (List.intercalate ['\n'] (pages.map norm)))) ∧
    extractPipeline
      ["Statement text with no matching heading 12/13/17 - 01/12/18".toList] =
      .error .sectionNotFound := by
  refine ⟨fun pages => ?_, rfl⟩
  exact (extractPipeline_snf_iff pages).trans (extractSummaryBlock_snf_iff _)

/-- C5 (witness): the equivalence applied at the concrete heading-less
page, in the forward direction. -/
theorem c5_section_not_found_witness :
    ¬ HasWordPair "SUMMARY".toList
      (norm (List.intercalate ['\n']
        (["Statement text with no matching heading 12/13/17 - 01/12/18".toList].map norm))) :=
  (c5_section_not_found.1
    ["Statement text with no matching heading 12/13/17 - 01/12/18".toList]).mp
    c5_section_not_found.2

lemma dropCI_none_of_missing (c0 : Char) :
    ∀ (p l : List Char), c0 ∈ p → (∀ c ∈ l, ¬ c.toUpper = c0) →
      dropCI p l = none := by
  intro p
  induction p with
  | nil => intro l hmem _; exact absurd hmem (List.not_mem_nil c0)
  | cons q ps ih =>
    intro l hmem hl
    cases l with
    | nil => rfl
    | cons c cs =>
      simp only [dropCI]
      by_cases hq : (c.toUpper == q) = true
      · rw [if_pos hq]
        have hq2 : c.toUpper = q := by simpa using hq
        rcases List.mem_cons.mp hmem with h0 | h0
        · exact absurd (by rw [h0]; exact hq2) (hl c (by simp))
        · exact ih cs h0 (fun d hd => hl d (List.mem_cons_of_mem c hd))
      · rw [if_neg hq]

lemma matchDRFrom_none_of_no_slash (t : List Char)
    (h : ∀ c ∈ t, ¬ c.toUpper = '/') : matchDRFrom t = none := by
  unfold matchDRFrom
  cases hd : dropCI "OPENING/CLOSING".toList t with
  | none => rfl
  | some r1 =>
    exfalso
    have hn := dropCI_none_of_missing '/' "OPENING/CLOSING".toList t (by decide) h
    rw [hn] at hd
    cases hd

lemma scanO_none_of_pred {α : Type} (f : List Char → Option α) (P : Char → Prop)
    (hf : ∀ t, (∀ c ∈ t, P c) → f t = none) :
    ∀ l, (∀ c ∈ l, P c) → scanO f l = none := by
  intro l
  induction l with
  | nil => intro h; simpa [scanO] using hf [] (by simp)
  | cons c cs ih =>
    intro h
    simp only [scanO]
    rw [hf (c :: cs) h, ih (fun d hd => h d (List.mem_cons_of_mem c hd))]
    rfl

lemma scanO_isSome_append {α : Type} (f : List Char → Option α) :
    ∀ l1 l2, (scanO f l2).isSome = true → (scanO f (l1 ++ l2)).isSome = true := by
  intro l1 l2 h
  induction l1 with
  | nil => simpa using h
  | cons c cs ih =>
    simp only [List.cons_append, scanO]
    cases hf : f (c :: (cs ++ l2)) with
    | some a => rfl
    | none => simpa using ih

/-- C10: the summary phase (block extraction followed by field
extraction, which carries the fatal date-range search) reads only the
4000-character window starting at the first heading match: any two
documents with equal windows give identical summary-phase results; and a
date range lying wholly beyond the window is treated exactly as absent —
the phase fails with `dateRangeNotFound` even though the date-range search
succeeds on the full document. -/
theorem c10_window_isolation :
    (∀ t1 t2 w, extractSummaryBlock t1 = .ok w → extractSummaryBlock t2 = .ok w →
        (extractSummaryBlock t1).bind extractSummaryFields =
          (extractSummaryBlock t2).bind extractSummaryFields) ∧
    (extractSummaryBlock ("ACCOUNT SUMMARY ".toList ++ List.replicate 3990 'x' ++
        " Opening/Closing Date: 12/13/17 - 01/12/18".toList)).bind extractSummaryFields =
      .error .dateRangeNotFound ∧
    (findDateRange ("ACCOUNT SUMMARY ".toList ++ List.replicate 3990 'x' ++
        " Opening/Closing Date: 12/13/17 - 01/12/18".toList)).isSome = true := by
  refine ⟨fun t1 t2 w h1 h2 => by rw [h1, h2], ?_, ?_⟩
  · have hidx : findWordPairIdx "SUMMARY".toList false
        ("ACCOUNT SUMMARY ".toList ++ List.replicate 3990 'x' ++
         " Opening/Closing Date: 12/13/17 - 01/12/18".toList) = some 0 := rfl
    have hX : List.replicate 3990 'x' =
        List.replicate 3984 'x' ++ List.replicate 6 'x' := by
      rw [← List.replicate_add]
    have hsplit : "ACCOUNT SUMMARY ".toList ++ List.replicate 3990 'x' ++
        " Opening/Closing Date: 12/13/17 - 01/12/18".toList =
        ("ACCOUNT SUMMARY ".toList ++ List.replicate 3984 'x') ++
        (List.replicate 6 'x' ++
          " Opening/Closing Date: 12/13/17 - 01/12/18".toList) := by
      rw [hX]
      simp only [List.append_assoc]
    have hlen : ("ACCOUNT SUMMARY ".toList ++ List.replicate 3984 'x').length = 4000 := by
      simp only [List.length_append, List.length_replicate]
      decide
    have hwin : (("ACCOUNT SUMMARY ".toList ++ List.replicate 3990 'x' ++
        " Opening/Closing Date: 12/13/17 - 01/12/18".toList).drop 0).take 4000 =
        "ACCOUNT SUMMARY ".toList ++ List.replicate 3984 'x' := by
      rw [List.drop_zero, hsplit, ← hlen, List.take_left]
    have hblk : extractSummaryBlock
        ("ACCOUNT SUMMARY ".toList ++ List.replicate 3990 'x' ++
         " Opening/Closing Date: 12/13/17 - 01/12/18".toList) =
        .ok ("ACCOUNT SUMMARY ".toList ++ List.replicate 3984 'x') := by
      unfold extractSummaryBlock
      rw [hidx]
      dsimp only
      rw [hwin]
    have hnodr : findDateRange
        ("ACCOUNT SUMMARY ".toList ++ List.replicate 3984 'x') = none := by
      refine scanO_none_of_pred matchDRFrom (fun c => ¬ c.toUpper = '/')
        matchDRFrom_none_of_no_slash _ ?_
      intro c hc
      rcases List.mem_append.mp hc with h | h
      · exact (by decide : ∀ c ∈ "ACCOUNT SUMMARY ".toList, ¬ c.toUpper = '/') c h
      · rw [List.eq_of_mem_replicate h]
        decide
    rw [hblk]
    simp only [Except.bind]
    simp only [extractSummaryFields, hnodr]
  · unfold findDateRange
    exact scanO_isSome_append matchDRFrom
      ("ACCOUNT SUMMARY ".toList ++ List.replicate 3990 'x')
      (" Opening/Closing Date: 12/13/17 - 01/12/18".toList) (by rfl)

/-- C10 (witness): two documents with different prefixes before the
heading share the window, so their summary phases agree. -/
theorem c10_window_isolation_witness :
    (extractSummaryBlock
        ("aa ACCOUNT SUMMARY Opening/Closing Date: 12/13/17 - 01/12/18".toList)).bind
      extractSummaryFields =
    (extractSummaryBlock
        ("zzzz! ACCOUNT SUMMARY Opening/Closing Date: 12/13/17 - 01/12/18".toList)).bind
      extractSummaryFields :=
  c10_window_isolation.1 _ _
    ("ACCOUNT SUMMARY Opening/Closing Date: 12/13/17 - 01/12/18".toList) rfl rfl
